import Mathlib

/-!
# LACP / DRCP: a shallow embedding of the l2 sources

The definitions below follow the Go sources function by function:

* `lacp/muxmachine.go`            : the Mux machine (802.1ax-2014 section 6.4.15)
* `lacp/protocol/drcp/dr.go`      : the gateway vector database of a distributed relay
* `lacp/protocol/config.go`       : the configuration entry points

Go slices are modelled with their backing array where a loop walks an array
that the loop body rewrites; run-time panics are modelled by `none`.
-/

namespace Lacp

/-! ## Shared data model -/

/-- Go slice header together with its backing array: `arr` is the backing array
seen from the base pointer of the slice (its length is the capacity) and `len`
is the length of the slice. The elements of the slice are `arr.take len`. -/
structure GoSlice (α : Type) where
  arr : List α
  len : Nat
  deriving DecidableEq, Repr

/-- The elements of a slice. -/
def GoSlice.toList {α : Type} (s : GoSlice α) : List α := s.arr.take s.len

/-- A slice whose backing array holds exactly the given elements. -/
def GoSlice.ofList {α : Type} (l : List α) : GoSlice α := { arr := l, len := l.length }

/-- Modelled from the spec: the selection status of a port, one of SELECTED,
STANDBY and UNSELECTED (the Go constants LacpAggSelected, LacpAggStandby and
LacpAggUnSelected are declared outside the given sources). -/
inductive AggSelectedKind where
  | LacpAggSelected
  | LacpAggStandby
  | LacpAggUnSelected
  deriving DecidableEq, Repr

export AggSelectedKind (LacpAggSelected LacpAggStandby LacpAggUnSelected)

/-- Modelled from the spec: the bits of a LACP state byte, in the order Activity,
Timeout, Aggregation, Sync, Collecting, Distributing, Defaulted, Expired (the bit
constants are declared outside the given sources). -/
def LacpStateActivityBit : Nat := 1

/-- Modelled from the spec: Timeout bit of a LACP state byte. -/
def LacpStateTimeoutBit : Nat := 2

/-- Modelled from the spec: Aggregation bit of a LACP state byte. -/
def LacpStateAggregationBit : Nat := 4

/-- Modelled from the spec: Sync bit of a LACP state byte. -/
def LacpStateSyncBit : Nat := 8

/-- Modelled from the spec: Collecting bit of a LACP state byte. -/
def LacpStateCollectingBit : Nat := 16

/-- Modelled from the spec: Distributing bit of a LACP state byte. -/
def LacpStateDistributingBit : Nat := 32

/-- Modelled from the spec: Defaulted bit of a LACP state byte. -/
def LacpStateDefaultedBit : Nat := 64

/-- Modelled from the spec: Expired bit of a LACP state byte. -/
def LacpStateExpiredBit : Nat := 128

/-- Modelled from the spec: LacpStateSet sets the given bits of a state byte
(the helper is declared outside the given sources). -/
def LacpStateSet (currState stateBits : Nat) : Nat := (currState ||| stateBits) % 256

/-- Modelled from the spec: LacpStateClear clears the given bits of a state byte
(the helper is declared outside the given sources). -/
def LacpStateClear (currState stateBits : Nat) : Nat :=
  (currState % 256) &&& (255 ^^^ (stateBits % 256))

/-- Modelled from the spec: LacpStateIsSet tests the given bits of a state byte
(the helper is declared outside the given sources). -/
def LacpStateIsSet (currState stateBits : Nat) : Bool :=
  (currState &&& stateBits) == stateBits

/-- Actor or partner record of a port; only the state byte is used below. -/
structure LacpPortInfo where
  state : Nat
  deriving DecidableEq, Repr

/-- The fields of LaAggPort that muxmachine.go and config.go read or write.
The field AggId is written `p.aggId` in muxmachine.go and `p.AggId` in config.go. -/
structure LaAggPort where
  portNum : Nat
  AggId : Int
  key : Nat
  aggSelected : AggSelectedKind
  actorAdmin : LacpPortInfo
  actorOper : LacpPortInfo
  partnerOper : LacpPortInfo
  lacpEnabled : Bool
  portEnabled : Bool
  linkOperStatus : Bool
  readyN : Bool
  begin : Bool
  deriving DecidableEq, Repr

/-- The fields of LaAggregator that muxmachine.go and config.go read or write,
and the name the registry indexes it by. -/
structure LaAggregator where
  aggId : Int
  actorAdminKey : Nat
  partnerSystemId : List Nat
  ready : Bool
  PortNumList : GoSlice Nat
  aggName : String := ""
  deriving DecidableEq, Repr

/-- Modelled from the spec: LaFindAggById looks an aggregator up by its id in the
registry; the result is the position of the first aggregator with that id, which
stands for the pointer the Go helper hands back (the helper is declared outside
the given sources). -/
def LaFindAggById (aggs : List LaAggregator) (aggId : Int) : Option Nat :=
  aggs.findIdx? (fun a => a.aggId == aggId)

/-- Write through an aggregator pointer. -/
def updateAggAt (aggs : List LaAggregator) (i : Nat) (f : LaAggregator → LaAggregator) :
    List LaAggregator :=
  match aggs[i]? with
  | some a => aggs.set i (f a)
  | none => aggs

/-! ## State-machine runtime and Mux machine (`lacp/muxmachine.go`) -/

def LacpMuxmStateNone : Nat := 0
def LacpMuxmStateDetached : Nat := 1
def LacpMuxmStateWaiting : Nat := 2
def LacpMuxmStateAttached : Nat := 3
def LacpMuxmStateCollecting : Nat := 4
def LacpMuxmStateDistributing : Nat := 5
def LacpMuxmStateCNone : Nat := 6
def LacpMuxmStateCDetached : Nat := 7
def LacpMuxmStateCWaiting : Nat := 8
def LacpMuxmStateCAttached : Nat := 9
def LacpMuxmStateCCollecting : Nat := 10
def LacpMuxmStateCDistributing : Nat := 11
def LacpMuxStateCCollectingDistributing : Nat := 12

def LacpMuxmEventBegin : Nat := 1
def LacpMuxmEventSelectedEqualSelected : Nat := 2
def LacpMuxmEventSelectedEqualStandby : Nat := 3
def LacpMuxmEventSelectedEqualUnselected : Nat := 4
def LacpMuxmEventSelectedEqualSelectedAndReady : Nat := 5
def LacpMuxmEventSelectedEqualSelectedAndPartnerSync : Nat := 6
def LacpMuxmEventNotPartnerSync : Nat := 7
def LacpMuxmEventNotPartnerCollecting : Nat := 8
def LacpMuxmEventSelectedEqualSelectedPartnerSyncCollecting : Nat := 9

/-- The callbacks that LacpMuxMachineFSMBuild registers, by name. -/
inductive MuxAction where
  | LacpMuxmDetached
  | LacpMuxmWaiting
  | LacpMuxmAttached
  | LacpMuxmCollecting
  | LacpMuxmDistributing
  | LacpMuxmCDetached
  | LacpMuxmCWaiting
  | LacpMuxmCAttached
  | LacpMuxmCCollectingDistributing
  deriving DecidableEq, Repr

/-- One rule of a ruleset: in state `state`, event `event` runs `action`. -/
structure Rule where
  state : Nat
  event : Nat
  action : MuxAction
  deriving DecidableEq, Repr

/-- Modelled from the spec: the ruleset of the runtime (package utils/fsm, outside
the given sources) is a mapping from (state, event) to an action. It is kept as
an association list with at most one rule per key. -/
abbrev Ruleset := List Rule

/-- Modelled from the spec: the action a ruleset maps (state, event) to, if any. -/
def Ruleset.lookup (r : Ruleset) (s e : Nat) : Option MuxAction :=
  (r.find? (fun x => x.state == s && x.event == e)).map (fun x => x.action)

/-- Modelled from the spec: AddRule stores the action under the key
(state, event); as the ruleset is a mapping, a key that is already present gets
the new action. -/
def Ruleset.AddRule (r : Ruleset) (s e : Nat) (cb : MuxAction) : Ruleset :=
  if (r.lookup s e).isSome then
    r.map (fun x => if x.state == s && x.event == e then { x with action := cb } else x)
  else
    r ++ [{ state := s, event := e, action := cb }]

/-- What a Mux callback does outside the port and aggregator variables: the
hardware commands (log lines in this source), the NTT event sent to the Tx
machine, the start of the wait_while timer and the call of the selection logic
of the aggregator. -/
inductive MuxEffect where
  | DetachMuxFromAggregator
  | AttachMuxToAggregator
  | EnableCollecting
  | DisableCollecting
  | EnableDistributing
  | DisableDistributing
  | EnableCollectingDistributing
  | DisableCollectingDistributing
  | LacpTxmEventNtt
  | WaitWhileTimerStart
  | LacpMuxCheckSelectionLogic
  | UnableToFindAggregator
  deriving DecidableEq, Repr

/-- The Mux machine of a port: the current state held by the runtime, the
ruleset, the port, the aggregator registry that LaFindAggById searches, and the
trace of effects issued so far (oldest first). The field waitWhileTimer tells
whether the pointer of that name refers to a timer (false: the pointer is nil).
The field panicked tells whether a run-time panic (a nil pointer dereference) has
ended the program; a machine that has panicked processes nothing more. -/
structure LacpMuxMachine where
  PreviousState : Nat
  Curr : Nat
  Rules : Ruleset
  p : LaAggPort
  aggs : List LaAggregator
  collDistCoupled : Bool
  effects : List MuxEffect
  waitWhileTimer : Bool := false
  panicked : Bool := false
  deriving DecidableEq, Repr

/-- Append an effect to the trace. -/
def LacpMuxMachine.emit (muxm : LacpMuxMachine) (e : MuxEffect) : LacpMuxMachine :=
  { muxm with effects := muxm.effects ++ [e] }

/-- The statement `LacpStateSet(p.actorOper.state, bits)` of muxmachine.go. The
byte is passed by value and the statement does not use what the call gives back,
so the byte of the port stays as it is: the machine is unchanged. -/
def LacpMuxMachine.actorOperSet (muxm : LacpMuxMachine) (bits : Nat) : LacpMuxMachine :=
  let _unused := LacpStateSet muxm.p.actorOper.state bits
  muxm

/-- The statement `LacpStateClear(p.actorOper.state, bits)` of muxmachine.go. The
byte is passed by value and the statement does not use what the call gives back,
so the byte of the port stays as it is: the machine is unchanged. -/
def LacpMuxMachine.actorOperClear (muxm : LacpMuxMachine) (bits : Nat) : LacpMuxMachine :=
  let _unused := LacpStateClear muxm.p.actorOper.state bits
  muxm

/-- Modelled from the spec: WaitWhileTimerStart (outside the given sources) starts
the wait_while timer of the machine; the start is recorded as an effect and the
pointer waitWhileTimer refers to a timer afterwards. -/
def LacpMuxMachine.WaitWhileTimerStart (muxm : LacpMuxMachine) : LacpMuxMachine :=
  { muxm.emit MuxEffect.WaitWhileTimerStart with waitWhileTimer := true }

/-- LacpMuxmWaitingEvaluateSelected: a port that is SELECTED or STANDBY sets its
readyN and, when LaFindAggById reports its aggregator as found, calls
LacpMuxCheckSelectionLogic on the pointer variable `agg` (the method is outside
the given sources; the call is recorded as an effect). -/
def LacpMuxmWaitingEvaluateSelected (muxm : LacpMuxMachine) : LacpMuxMachine :=
  if muxm.p.aggSelected = LacpAggSelected ∨ muxm.p.aggSelected = LacpAggStandby then
    let muxm := { muxm with p := { muxm.p with readyN := true } }
    match LaFindAggById muxm.aggs muxm.p.AggId with
    | some _ => muxm.emit MuxEffect.LacpMuxCheckSelectionLogic
    | none => muxm.emit MuxEffect.UnableToFindAggregator
  else
    muxm

/-- LacpMuxmDetached, the DETACHED entry action. -/
def LacpMuxmDetached (muxm : LacpMuxMachine) : LacpMuxMachine × Nat :=
  let muxm := muxm.emit MuxEffect.DetachMuxFromAggregator
  let muxm := muxm.actorOperClear LacpStateSyncBit
  let muxm := muxm.emit MuxEffect.DisableDistributing
  let muxm := muxm.actorOperClear (LacpStateDistributingBit ||| LacpStateCollectingBit)
  let muxm := muxm.emit MuxEffect.DisableCollecting
  let muxm := muxm.emit MuxEffect.LacpTxmEventNtt
  (muxm, LacpMuxmStateDetached)

/-- LacpMuxmWaiting, the WAITING entry action. The local pointer variable `agg` is
nil and is passed to LaFindAggById by value, so it is still nil after the call.
When the aggregator of the port is found the action reads `agg.ready` through
the nil pointer and panics (the result is none). When it is not found,
skipWaitWhileTimer keeps its initial value false: the wait_while timer is not
started, selection is evaluated at once and the action returns
LacpMuxmStateWaiting. -/
def LacpMuxmWaiting (muxm : LacpMuxMachine) : Option (LacpMuxMachine × Nat) :=
  let skipWaitWhileTimer : Bool := false
  -- if LaFindAggById(p.aggId, agg) { if agg.ready { skipWaitWhileTimer = true; agg.ready = false } }
  if (LaFindAggById muxm.aggs muxm.p.AggId).isSome then
    none
  else
    let muxm :=
      if skipWaitWhileTimer then muxm.WaitWhileTimerStart
      else LacpMuxmWaitingEvaluateSelected muxm
    some (muxm, LacpMuxmStateWaiting)

/-- LacpMuxmAttached, the ATTACHED entry action. -/
def LacpMuxmAttached (muxm : LacpMuxMachine) : LacpMuxMachine × Nat :=
  let muxm := muxm.emit MuxEffect.AttachMuxToAggregator
  let muxm := muxm.actorOperSet LacpStateSyncBit
  let muxm := muxm.actorOperClear LacpStateCollectingBit
  let muxm := muxm.emit MuxEffect.DisableCollecting
  let muxm := muxm.emit MuxEffect.LacpTxmEventNtt
  (muxm, LacpMuxmStateWaiting)

/-- LacpMuxmCollecting, the COLLECTING entry action. -/
def LacpMuxmCollecting (muxm : LacpMuxMachine) : LacpMuxMachine × Nat :=
  let muxm := muxm.emit MuxEffect.EnableCollecting
  let muxm := muxm.actorOperSet LacpStateCollectingBit
  let muxm := muxm.emit MuxEffect.DisableDistributing
  let muxm := muxm.actorOperClear LacpStateDistributingBit
  let muxm := muxm.emit MuxEffect.LacpTxmEventNtt
  (muxm, LacpMuxmStateWaiting)

/-- LacpMuxmDistributing, the DISTRIBUTING entry action. -/
def LacpMuxmDistributing (muxm : LacpMuxMachine) : LacpMuxMachine × Nat :=
  let muxm := muxm.actorOperSet LacpStateDistributingBit
  let muxm := muxm.emit MuxEffect.EnableDistributing
  (muxm, LacpMuxmStateWaiting)

/-- LacpMuxmCDetached, the coupled DETACHED entry action. -/
def LacpMuxmCDetached (muxm : LacpMuxMachine) : LacpMuxMachine × Nat :=
  let muxm := muxm.emit MuxEffect.DetachMuxFromAggregator
  let muxm := muxm.actorOperClear (LacpStateSyncBit ||| LacpStateCollectingBit)
  let muxm := muxm.emit MuxEffect.DisableCollectingDistributing
  let muxm := muxm.actorOperClear LacpStateDistributingBit
  let muxm := muxm.emit MuxEffect.LacpTxmEventNtt
  (muxm, LacpMuxmStateDetached)

/-- LacpMuxmCWaiting, the coupled WAITING entry action. -/
def LacpMuxmCWaiting (muxm : LacpMuxMachine) : LacpMuxMachine × Nat :=
  let muxm := muxm.WaitWhileTimerStart
  (muxm, LacpMuxmStateWaiting)

/-- LacpMuxmCAttached, the coupled ATTACHED entry action. -/
def LacpMuxmCAttached (muxm : LacpMuxMachine) : LacpMuxMachine × Nat :=
  let muxm := muxm.emit MuxEffect.AttachMuxToAggregator
  let muxm := muxm.actorOperSet LacpStateSyncBit
  let muxm := muxm.actorOperClear LacpStateCollectingBit
  let muxm := muxm.emit MuxEffect.DisableCollectingDistributing
  let muxm := muxm.actorOperClear LacpStateDistributingBit
  let muxm := muxm.emit MuxEffect.LacpTxmEventNtt
  (muxm, LacpMuxmStateWaiting)

/-- LacpMuxmCCollectingDistributing, the coupled COLLECTING_DISTRIBUTING entry action. -/
def LacpMuxmCCollectingDistributing (muxm : LacpMuxMachine) : LacpMuxMachine × Nat :=
  let muxm := muxm.actorOperSet LacpStateDistributingBit
  let muxm := muxm.emit MuxEffect.EnableCollectingDistributing
  let muxm := muxm.actorOperSet LacpStateDistributingBit
  let muxm := muxm.emit MuxEffect.LacpTxmEventNtt
  (muxm, LacpMuxmStateWaiting)

/-- Run a registered callback; the result is none when the callback panics. -/
def MuxAction.run : MuxAction → LacpMuxMachine → Option (LacpMuxMachine × Nat)
  | MuxAction.LacpMuxmDetached => fun muxm => some (Lacp.LacpMuxmDetached muxm)
  | MuxAction.LacpMuxmWaiting => Lacp.LacpMuxmWaiting
  | MuxAction.LacpMuxmAttached => fun muxm => some (Lacp.LacpMuxmAttached muxm)
  | MuxAction.LacpMuxmCollecting => fun muxm => some (Lacp.LacpMuxmCollecting muxm)
  | MuxAction.LacpMuxmDistributing => fun muxm => some (Lacp.LacpMuxmDistributing muxm)
  | MuxAction.LacpMuxmCDetached => fun muxm => some (Lacp.LacpMuxmCDetached muxm)
  | MuxAction.LacpMuxmCWaiting => fun muxm => some (Lacp.LacpMuxmCWaiting muxm)
  | MuxAction.LacpMuxmCAttached => fun muxm => some (Lacp.LacpMuxmCAttached muxm)
  | MuxAction.LacpMuxmCCollectingDistributing =>
      fun muxm => some (Lacp.LacpMuxmCCollectingDistributing muxm)

/-- The calls of `rules.AddRule` in LacpMuxMachineFSMBuild, in source order. -/
def LacpMuxMachineFSMBuildCalls : List Rule :=
  [ ⟨LacpMuxmStateNone, LacpMuxmEventBegin, MuxAction.LacpMuxmDetached⟩,
    ⟨LacpMuxmStateDetached, LacpMuxmEventSelectedEqualSelected, MuxAction.LacpMuxmWaiting⟩,
    ⟨LacpMuxmStateDetached, LacpMuxmEventSelectedEqualStandby, MuxAction.LacpMuxmWaiting⟩,
    ⟨LacpMuxmStateWaiting, LacpMuxmEventSelectedEqualUnselected, MuxAction.LacpMuxmDetached⟩,
    ⟨LacpMuxmStateWaiting, LacpMuxmEventSelectedEqualSelectedAndReady, MuxAction.LacpMuxmAttached⟩,
    ⟨LacpMuxmStateAttached, LacpMuxmEventSelectedEqualUnselected, MuxAction.LacpMuxmDetached⟩,
    ⟨LacpMuxmStateAttached, LacpMuxmEventSelectedEqualStandby, MuxAction.LacpMuxmDetached⟩,
    ⟨LacpMuxmStateAttached, LacpMuxmEventSelectedEqualSelectedAndPartnerSync,
      MuxAction.LacpMuxmCollecting⟩,
    ⟨LacpMuxmStateCollecting, LacpMuxmEventSelectedEqualUnselected, MuxAction.LacpMuxmAttached⟩,
    ⟨LacpMuxmStateCollecting, LacpMuxmEventSelectedEqualStandby, MuxAction.LacpMuxmAttached⟩,
    ⟨LacpMuxmStateCollecting, LacpMuxmEventNotPartnerSync, MuxAction.LacpMuxmAttached⟩,
    ⟨LacpMuxmStateCollecting, LacpMuxmEventSelectedEqualSelectedPartnerSyncCollecting,
      MuxAction.LacpMuxmDistributing⟩,
    ⟨LacpMuxmStateDistributing, LacpMuxmEventSelectedEqualUnselected, MuxAction.LacpMuxmCollecting⟩,
    ⟨LacpMuxmStateDistributing, LacpMuxmEventSelectedEqualStandby, MuxAction.LacpMuxmCollecting⟩,
    ⟨LacpMuxmStateDistributing, LacpMuxmEventNotPartnerSync, MuxAction.LacpMuxmCollecting⟩,
    ⟨LacpMuxmStateDistributing, LacpMuxmEventNotPartnerCollecting, MuxAction.LacpMuxmCollecting⟩,
    -- MUX Coupled
    ⟨LacpMuxmStateNone, LacpMuxmEventBegin, MuxAction.LacpMuxmCDetached⟩,
    ⟨LacpMuxmStateCDetached, LacpMuxmEventSelectedEqualSelected, MuxAction.LacpMuxmCWaiting⟩,
    ⟨LacpMuxmStateCDetached, LacpMuxmEventSelectedEqualStandby, MuxAction.LacpMuxmCWaiting⟩,
    ⟨LacpMuxmStateCWaiting, LacpMuxmEventSelectedEqualUnselected, MuxAction.LacpMuxmCDetached⟩,
    ⟨LacpMuxmStateCWaiting, LacpMuxmEventSelectedEqualSelectedAndReady, MuxAction.LacpMuxmAttached⟩,
    ⟨LacpMuxmStateCAttached, LacpMuxmEventSelectedEqualUnselected, MuxAction.LacpMuxmCDetached⟩,
    ⟨LacpMuxmStateCAttached, LacpMuxmEventSelectedEqualStandby, MuxAction.LacpMuxmCDetached⟩,
    ⟨LacpMuxmStateCAttached, LacpMuxmEventSelectedEqualSelectedAndPartnerSync,
      MuxAction.LacpMuxmCCollectingDistributing⟩,
    ⟨LacpMuxmStateCollecting, LacpMuxmEventSelectedEqualUnselected, MuxAction.LacpMuxmCAttached⟩,
    ⟨LacpMuxmStateCollecting, LacpMuxmEventSelectedEqualStandby, MuxAction.LacpMuxmCAttached⟩,
    ⟨LacpMuxmStateCollecting, LacpMuxmEventNotPartnerSync, MuxAction.LacpMuxmCAttached⟩ ]

/-- The ruleset LacpMuxMachineFSMBuild applies to the machine. -/
def LacpMuxMachineFSMBuildRules : Ruleset :=
  LacpMuxMachineFSMBuildCalls.foldl (fun r x => r.AddRule x.state x.event x.action) []

/-- LacpMuxMachineFSMBuild: a new machine for the port (NewLacpMuxMachine) with
the ruleset applied. NewLacpMuxMachine gives no value to the pointer
waitWhileTimer, which is therefore nil. -/
def LacpMuxMachineFSMBuild (p : LaAggPort) (aggs : List LaAggregator) : LacpMuxMachine :=
  { PreviousState := LacpMuxmStateNone
    Curr := LacpMuxmStateNone
    Rules := LacpMuxMachineFSMBuildRules
    p := p
    aggs := aggs
    collDistCoupled := false
    effects := []
    waitWhileTimer := false
    panicked := false }

/-- The part of LacpMuxMachineMain that precedes the task: `p.begin = true`, build
the machine, select the coupled pseudo-state when the hardware couples
collecting and distributing, and start the machine in its previous state. -/
def LacpMuxMachineMain (p : LaAggPort) (aggs : List LaAggregator) (muxCoupling : Bool) :
    LacpMuxMachine :=
  let muxm := LacpMuxMachineFSMBuild { p with begin := true } aggs
  let muxm := if muxCoupling then { muxm with PreviousState := LacpMuxmStateCNone } else muxm
  { muxm with Curr := muxm.PreviousState }

/-- Modelled from the spec: processEvent of the runtime (package utils/fsm,
outside the given sources) applies the action the ruleset holds for
(current state, event) and sets the current state to the state the action
returns; an unknown (state, event) pair is dropped. An action that panics ends
the program before a new current state is stored: the machine is marked as
panicked, and a panicked machine processes nothing. -/
def LacpMuxMachine.ProcessEvent (muxm : LacpMuxMachine) (e : Nat) : LacpMuxMachine :=
  if muxm.panicked then muxm
  else
    match muxm.Rules.lookup muxm.Curr e with
    | some cb =>
        match cb.run muxm with
        | some r => { r.1 with Curr := r.2 }
        | none => { muxm with panicked := true }
    | none => muxm

/-- Process a sequence of events in order. -/
def LacpMuxMachine.ProcessEvents (muxm : LacpMuxMachine) (es : List Nat) : LacpMuxMachine :=
  es.foldl LacpMuxMachine.ProcessEvent muxm

/-- The states the machine goes through while it processes a sequence of events:
the current state after each event, in order. -/
def LacpMuxMachine.trace (muxm : LacpMuxMachine) : List Nat → List Nat
  | [] => []
  | e :: es => (muxm.ProcessEvent e).Curr :: LacpMuxMachine.trace (muxm.ProcessEvent e) es


/-! ## Configuration entry points (`lacp/protocol/config.go`) -/

/-- The idiom `s = append(s[:idx], s[idx+1:]...)`: the elements behind `idx` move
one place down inside the backing array and the length drops by one; the array
slots from the new length on keep what they held. Slicing `s[idx+1:]` panics
when `idx + 1` exceeds the length. -/
def GoSlice.removeAt {α : Type} (s : GoSlice α) (idx : Nat) : Option (GoSlice α) :=
  if idx + 1 ≤ s.len then
    some { arr := s.arr.take idx ++ (s.arr.drop (idx + 1)).take (s.len - (idx + 1))
                    ++ s.arr.drop (s.len - 1)
           len := s.len - 1 }
  else
    none

/-- The registries of aggregators and ports the configuration functions work on. -/
structure LacpSysGlobalInfo where
  aggs : List LaAggregator
  ports : List LaAggPort
  deriving DecidableEq, Repr

/-- Modelled from the spec: LaFindPortById looks a port up by its port number in
the registry; the result is the position of the first port with that number,
which stands for the pointer the Go helper hands back (the helper is declared
outside the given sources). -/
def LaFindPortById (ports : List LaAggPort) (pId : Nat) : Option Nat :=
  ports.findIdx? (fun p => p.portNum == pId)

/-- Modelled from the spec: LaAggPortNumListPortIdExist tells whether the port
number is in the PortNumList of the aggregator with the given id (the helper is
declared outside the given sources). -/
def LaAggPortNumListPortIdExist (aggs : List LaAggregator) (aggId : Int) (pId : Nat) : Bool :=
  match LaFindAggById aggs aggId with
  | some i =>
      match aggs[i]? with
      | some a => a.PortNumList.toList.contains pId
      | none => false
  | none => false

/-- Modelled from the spec: LaAggPortDisable marks the port disabled (the method
is declared outside the given sources; the events it hands to the machines of the
port are handled by those machines and are not part of this model). -/
def LaAggPortDisable (p : LaAggPort) : LaAggPort := { p with portEnabled := false }

/-- Modelled from the spec: DelLaAggPort stops the machines of the port and
removes the port from the registry (the method is declared outside the given
sources). -/
def DelLaAggPort (sys : LacpSysGlobalInfo) (pi : Nat) : LacpSysGlobalInfo :=
  { sys with ports := sys.ports.eraseIdx pi }

/-- The loop `for idx, portNum := range a.PortNumList` of DeleteLaAggPortFromAgg:
`n` iterations are left, `idx` is the loop index and `s` is the current value of
a.PortNumList. The range walks the backing array the slice had when the loop
started, which is the array the loop body rewrites in place. -/
def DeleteLaAggPortFromAggLoop (pId : Nat) : Nat → Nat → GoSlice Nat → Option (GoSlice Nat)
  | 0, _, s => some s
  | n + 1, idx, s =>
      match s.arr[idx]? with
      | none => none
      | some portNum =>
          if portNum == pId then
            match s.removeAt idx with
            | some s2 => DeleteLaAggPortFromAggLoop pId n (idx + 1) s2
            | none => none
          else
            DeleteLaAggPortFromAggLoop pId n (idx + 1) s

/-- DeleteLaAggPortFromAgg. -/
def DeleteLaAggPortFromAgg (sys : LacpSysGlobalInfo) (aggId : Int) (pId : Nat) :
    Option LacpSysGlobalInfo :=
  match LaFindAggById sys.aggs aggId, LaFindPortById sys.ports pId with
  | some ai, some pi =>
      match sys.aggs[ai]?, sys.ports[pi]? with
      | some a, some p =>
          if p.aggSelected = LacpAggSelected ∧ LaAggPortNumListPortIdExist sys.aggs aggId pId = true then
            -- detach the port from the agg port list
            match DeleteLaAggPortFromAggLoop pId a.PortNumList.len 0 a.PortNumList with
            | some l =>
                let p := { p with actorAdmin :=
                  { p.actorAdmin with
                    state := LacpStateClear p.actorAdmin.state LacpStateAggregationBit } }
                let p := LaAggPortDisable p
                some { aggs := sys.aggs.set ai { a with PortNumList := l }
                       ports := sys.ports.set pi p }
            | none => none
          else
            some sys
      | _, _ => some sys
  | _, _ => some sys

/-- DisableLaAggPort. -/
def DisableLaAggPort (sys : LacpSysGlobalInfo) (pId : Nat) : LacpSysGlobalInfo :=
  match LaFindPortById sys.ports pId with
  | some pi =>
      match sys.ports[pi]? with
      | some p =>
          if LaAggPortNumListPortIdExist sys.aggs p.AggId pId = true then
            { sys with ports := sys.ports.set pi (LaAggPortDisable p) }
          else sys
      | none => sys
  | none => sys

/-- DeleteLaAggPort. -/
def DeleteLaAggPort (sys : LacpSysGlobalInfo) (pId : Nat) : LacpSysGlobalInfo :=
  match LaFindPortById sys.ports pId with
  | some pi =>
      match sys.ports[pi]? with
      | some p =>
          if LaAggPortNumListPortIdExist sys.aggs p.AggId pId = true then
            -- CONF: ERROR Must detach p from agg before deletion
            sys
          else
            let sys := if p.portEnabled = true then DisableLaAggPort sys p.portNum else sys
            DelLaAggPort sys pi
      | none => sys
  | none => sys

/-- The loop `for _, pId := range a.PortNumList` of DeleteLaAgg: `n` iterations
are left, `k` is the loop index and `ai` points at the aggregator. The range
walks the backing array a.PortNumList had when the loop started;
DeleteLaAggPortFromAgg rewrites that same array in place, so iteration `k` reads
slot `k` of the array as it is by then. -/
def DeleteLaAggLoop (Id : Int) (ai : Nat) : Nat → Nat → LacpSysGlobalInfo → Option LacpSysGlobalInfo
  | 0, _, sys => some sys
  | n + 1, k, sys =>
      match sys.aggs[ai]? with
      | none => none
      | some a =>
          match a.PortNumList.arr[k]? with
          | none => none
          | some pId =>
              match DeleteLaAggPortFromAgg sys Id pId with
              | some sys2 => DeleteLaAggLoop Id ai n (k + 1) (DeleteLaAggPort sys2 pId)
              | none => none

/-- DeleteLaAgg. -/
def DeleteLaAgg (sys : LacpSysGlobalInfo) (Id : Int) : Option LacpSysGlobalInfo :=
  match LaFindAggById sys.aggs Id with
  | some ai =>
      match sys.aggs[ai]? with
      | some a =>
          match DeleteLaAggLoop Id ai a.PortNumList.len 0 sys with
          | some sys2 =>
              some { sys2 with aggs := updateAggAt sys2.aggs ai (fun a =>
                { a with aggId := 0, actorAdminKey := 0, partnerSystemId := [0, 0, 0, 0, 0, 0],
                         ready := false }) }
          | none => none
      | none => some sys
  | none => some sys


/-! ### Aggregator registry: creation and lookups -/

/-- LaAggConfig, the configuration of an aggregator (the Go field `Type` is
written `Type_`). -/
structure LaAggConfig where
  Name : String
  Mac : List Nat
  Id : Int
  Key : Nat
  Type_ : Nat
  MinLinks : Nat
  LagMembers : List Nat
  SysId : List Nat
  deriving DecidableEq, Repr

/-- Modelled from the spec: LacpSysGlobalInfoInit gives a freshly initialised
system, whose registries are empty (the function is declared outside the given
sources). The list `aggs` stands for the aggregator list and the aggregator map,
which hold the same aggregators, and `ports` for the port list and the port
map. -/
def LacpSysGlobalInfoInit : LacpSysGlobalInfo := { aggs := [], ports := [] }

/-- Modelled from the spec: LaFindAggByName looks an aggregator up by its name
(the helper is declared outside the given sources). -/
def LaFindAggByName (aggs : List LaAggregator) (name : String) : Option Nat :=
  aggs.findIdx? (fun a => a.aggName == name)

/-- Modelled from the spec: LaFindAggByKey looks an aggregator up by its admin key
(the helper is declared outside the given sources). -/
def LaFindAggByKey (aggs : List LaAggregator) (key : Nat) : Option Nat :=
  aggs.findIdx? (fun a => a.actorAdminKey == key)

/-- Modelled from the spec: NewLaAggregator creates the aggregator of a
configuration and enters it in the registries under its id, name and key, with
the configured members as its membership list; a configuration whose id, name or
key is already registered is rejected, the result is nil (`none`) and the
registries are left as they were (the function is declared outside the given
sources). -/
def NewLaAggregator (sys : LacpSysGlobalInfo) (ac : LaAggConfig) :
    Option Nat × LacpSysGlobalInfo :=
  if (LaFindAggById sys.aggs ac.Id).isSome ∨ (LaFindAggByName sys.aggs ac.Name).isSome ∨
      (LaFindAggByKey sys.aggs ac.Key).isSome then
    (none, sys)
  else
    (some sys.aggs.length,
     { sys with aggs := sys.aggs ++
        [{ aggId := ac.Id, aggName := ac.Name, actorAdminKey := ac.Key,
           partnerSystemId := [0, 0, 0, 0, 0, 0], ready := true,
           PortNumList := GoSlice.ofList ac.LagMembers }] })

/-- Modelled from the spec: the method DeleteLaAgg of an aggregator, which the
tests call as `agg.DeleteLaAgg()`, removes the aggregator from the registries
(the method is declared outside the given sources; the detaching of the members
acts on their Mux machines, which the registries do not hold). It is not the
function DeleteLaAgg of config.go. -/
def LaAggregator.DeleteLaAgg (sys : LacpSysGlobalInfo) (ai : Nat) : LacpSysGlobalInfo :=
  { sys with aggs := sys.aggs.eraseIdx ai }

/-! ### Port configuration: CreateLaAggPort, EnableLaAggPort, SetLaAggPortLacpMode,
AddLaAggPortToAgg and the state getters -/

/-- Modelled from the spec: the lacp mode of a port, one of ON, ACTIVE and PASSIVE
(the Go constants LacpModeOn, LacpModeActive and LacpModePassive are declared
outside the given sources). -/
inductive LacpMode where
  | LacpModeOn
  | LacpModeActive
  | LacpModePassive
  deriving DecidableEq, Repr

export LacpMode (LacpModeOn LacpModeActive LacpModePassive)

/-- Modelled from the spec: the short timeout, 3 s, as a time.Duration in
nanoseconds (the constant is declared outside the given sources). -/
def LacpShortTimeoutTime : Int := 3000000000

/-- Modelled from the spec: the long timeout, 90 s, as a time.Duration in
nanoseconds (the constant is declared outside the given sources). -/
def LacpLongTimeoutTime : Int := 90000000000

/-- LaAggPortConfig, the configuration of a port (the field Properties is not
read by config.go and is left out). -/
structure LaAggPortConfig where
  Id : Nat
  Prio : Nat
  Key : Nat
  AggId : Int
  Enable : Bool
  Mode : LacpMode
  Timeout : Int
  SysId : List Nat
  TraceEna : Bool
  IntfId : String
  deriving DecidableEq, Repr

/-- The functions and port methods that config.go calls and that are declared
outside the given sources, taken as parameters. NewLaAggPort gives the port object
of a configuration; the methods act on the registries through the port pointer;
MuxCurrentState is `p.MuxMachineFsm.Machine.Curr.CurrentState()`. -/
structure LaAggPortMethods where
  NewLaAggPort : LaAggPortConfig → LaAggPort
  BEGIN : LacpSysGlobalInfo → Nat → Bool → LacpSysGlobalInfo
  LaAggPortEnabled : LacpSysGlobalInfo → Nat → LacpSysGlobalInfo
  checkConfigForSelection : LacpSysGlobalInfo → Nat → LacpSysGlobalInfo
  LaAggPortLacpDisable : LacpSysGlobalInfo → Nat → LacpSysGlobalInfo
  LaAggPortLacpEnabled : LacpSysGlobalInfo → Nat → LacpMode → LacpSysGlobalInfo
  MuxCurrentState : LacpSysGlobalInfo → Nat → Nat

/-- Write through a port pointer. -/
def updatePortAt (ports : List LaAggPort) (i : Nat) (f : LaAggPort → LaAggPort) :
    List LaAggPort :=
  match ports[i]? with
  | some p => ports.set i (f p)
  | none => ports

/-- The call `LacpStateSet(&p.actorAdmin.state, bits)`. -/
def LaAggPort.actorAdminSet (p : LaAggPort) (bits : Nat) : LaAggPort :=
  { p with actorAdmin := { p.actorAdmin with state := LacpStateSet p.actorAdmin.state bits } }

/-- The call `LacpStateClear(&p.actorAdmin.state, bits)`. -/
def LaAggPort.actorAdminClear (p : LaAggPort) (bits : Nat) : LaAggPort :=
  { p with actorAdmin := { p.actorAdmin with state := LacpStateClear p.actorAdmin.state bits } }

/-- The call `LacpStateSet(&p.actorOper.state, bits)`. -/
def LaAggPort.actorOperSet (p : LaAggPort) (bits : Nat) : LaAggPort :=
  { p with actorOper := { p.actorOper with state := LacpStateSet p.actorOper.state bits } }

/-- The call `LacpStateClear(&p.actorOper.state, bits)`. -/
def LaAggPort.actorOperClear (p : LaAggPort) (bits : Nat) : LaAggPort :=
  { p with actorOper := { p.actorOper with state := LacpStateClear p.actorOper.state bits } }

/-- Modelled from the spec: LacpModeGet gives the mode of a port from its state
byte and its lacpEnabled flag: ON when lacp is not enabled, otherwise ACTIVE or
PASSIVE by the Activity bit (the helper is declared outside the given sources). -/
def LacpModeGet (state : Nat) (lacpEnabled : Bool) : LacpMode :=
  if lacpEnabled then
    if LacpStateIsSet state LacpStateActivityBit then LacpModeActive else LacpModePassive
  else
    LacpModeOn

/-- The statement `s = append(s, x)`: in place when the backing array has room,
otherwise into a new and larger array whose fresh slots hold the zero value (the
capacity the runtime picks is not fixed by the language; the model doubles
it). -/
def GoSlice.append {α : Type} [Inhabited α] (s : GoSlice α) (x : α) : GoSlice α :=
  if s.len < s.arr.length then
    { arr := s.arr.set s.len x, len := s.len + 1 }
  else
    { arr := s.arr.take s.len ++ [x] ++ List.replicate s.len default, len := s.len + 1 }

/-- AddLaAggPortToAgg. -/
def AddLaAggPortToAgg (sys : LacpSysGlobalInfo) (aggId : Int) (pId : Nat) : LacpSysGlobalInfo :=
  match LaFindAggById sys.aggs aggId, LaFindPortById sys.ports pId with
  | some ai, some pi =>
      match sys.aggs[ai]?, sys.ports[pi]? with
      | some a, some p =>
          if p.aggSelected = LacpAggUnSelected ∧
              LaAggPortNumListPortIdExist sys.aggs aggId pId = false then
            -- add port to port number list, add reference to aggId
            { aggs := sys.aggs.set ai { a with PortNumList := a.PortNumList.append p.portNum }
              ports := sys.ports.set pi { p with AggId := aggId } }
          else
            sys
      | _, _ => sys
  | _, _ => sys

/-- The mode and timeout step of CreateLaAggPort: the statements between
`p := NewLaAggPort(port)` and `p.BEGIN(false)`, which derive lacpEnabled and the
actor admin state of the new port from the configuration. -/
def CreateLaAggPortModeStep (port : LaAggPortConfig) (p : LaAggPort) : LaAggPort :=
  let p :=
    if port.Mode ≠ LacpModeOn then
      let p := { p with lacpEnabled := true }
      -- make the port aggregatable
      let p := p.actorAdminSet LacpStateAggregationBit
      -- set the activity state
      if port.Mode = LacpModeActive then p.actorAdminSet LacpStateActivityBit
      else p.actorAdminClear LacpStateActivityBit
    else
      -- port is not aggregatible
      let p := p.actorAdminClear LacpStateAggregationBit
      let p := p.actorAdminClear LacpStateActivityBit
      { p with lacpEnabled := false }
  if port.Timeout = LacpShortTimeoutTime then p.actorAdminSet LacpStateTimeoutBit
  else p.actorAdminClear LacpStateTimeoutBit

/-- CreateLaAggPort. The new port is entered in the port registry when
NewLaAggPort returns it, so that the lookups that follow find it. -/
def CreateLaAggPort (m : LaAggPortMethods) (sys : LacpSysGlobalInfo) (port : LaAggPortConfig) :
    LacpSysGlobalInfo :=
  match LaFindPortById sys.ports port.Id with
  | none =>
      let pi := sys.ports.length
      let sys := { sys with ports := sys.ports ++ [m.NewLaAggPort port] }
      let sys := { sys with ports := updatePortAt sys.ports pi (CreateLaAggPortModeStep port) }
      -- lets start all the state machines
      let sys := m.BEGIN sys pi false
      let ports := updatePortAt sys.ports pi (fun p => { p with linkOperStatus := true })
      let sys := { sys with ports := ports }
      match sys.ports[pi]? with
      | some p =>
          if p.linkOperStatus = true ∧ port.Enable = true then
            let sys :=
              if p.key ≠ 0 then
                match LaFindAggByKey sys.aggs p.key with
                | some ai =>
                    match sys.aggs[ai]? with
                    | some a => AddLaAggPortToAgg sys a.aggId p.portNum
                    | none => sys
                | none => sys
              else sys
            m.LaAggPortEnabled sys pi
          else
            sys
      | none => sys
  | some _ =>
      -- CONF: ERROR PORT ALREADY EXISTS
      sys

/-- EnableLaAggPort. -/
def EnableLaAggPort (m : LaAggPortMethods) (sys : LacpSysGlobalInfo) (pId : Nat) :
    LacpSysGlobalInfo :=
  match LaFindPortById sys.ports pId with
  | some pi =>
      match sys.ports[pi]? with
      | some p =>
          if p.aggSelected = LacpAggUnSelected ∧
              LaAggPortNumListPortIdExist sys.aggs p.AggId pId = true then
            let sys := m.LaAggPortEnabled sys pi
            let ports := updatePortAt sys.ports pi (fun p => { p with linkOperStatus := true })
            let sys := { sys with ports := ports }
            match sys.ports[pi]? with
            | some p =>
                if p.linkOperStatus = true ∧ p.aggSelected = LacpAggUnSelected then
                  m.checkConfigForSelection sys pi
                else sys
            | none => sys
          else sys
      | none => sys
  | none => sys

/-- The timeout step of SetLaAggPortLacpMode: the statement `if timeout != 0 ...`. -/
def SetLaAggPortLacpModeTimeout (p : LaAggPort) (timeout : Int) : LaAggPort :=
  if timeout ≠ 0 then
    -- update the periodic timer
    if LacpStateIsSet p.actorOper.state LacpStateTimeoutBit = true ∧
        timeout = LacpLongTimeoutTime then
      (p.actorAdminClear LacpStateTimeoutBit).actorOperClear LacpStateTimeoutBit
    else if ¬ (LacpStateIsSet p.actorAdmin.state LacpStateTimeoutBit = true) ∧
        timeout = LacpShortTimeoutTime then
      (p.actorAdminSet LacpStateTimeoutBit).actorOperSet LacpStateTimeoutBit
    else p
  else p

/-- SetLaAggPortLacpMode. -/
def SetLaAggPortLacpMode (m : LaAggPortMethods) (sys : LacpSysGlobalInfo) (pId : Nat)
    (mode : LacpMode) (timeout : Int) : LacpSysGlobalInfo :=
  match LaFindPortById sys.ports pId with
  | some pi =>
      match sys.ports[pi]? with
      | some p =>
          let prevMode := LacpModeGet p.actorOper.state p.lacpEnabled
          let sys := { sys with ports := sys.ports.set pi (SetLaAggPortLacpModeTimeout p timeout) }
          -- Update the transmission mode
          if mode ≠ prevMode ∧ mode = LacpModeOn then
            let sys := m.LaAggPortLacpDisable sys pi
            if m.MuxCurrentState sys pi = LacpMuxmStateDetached ∨
                m.MuxCurrentState sys pi = LacpMuxmStateCDetached then
              -- lets check for selection
              m.checkConfigForSelection sys pi
            else sys
          else if mode ≠ prevMode ∧ prevMode = LacpModeOn then
            m.LaAggPortLacpEnabled sys pi mode
          else if mode ≠ prevMode then
            if mode = LacpModeActive then
              { sys with ports := updatePortAt sys.ports pi (fun p =>
                (p.actorAdminSet LacpStateActivityBit).actorOperSet LacpStateActivityBit) }
            else
              { sys with ports := updatePortAt sys.ports pi (fun p =>
                (p.actorAdminClear LacpStateActivityBit).actorOperClear LacpStateActivityBit) }
          else sys
      | none => sys
  | none => sys

/-- GetLaAggPortActorOperState. -/
def GetLaAggPortActorOperState (sys : LacpSysGlobalInfo) (pId : Nat) : Nat :=
  match LaFindPortById sys.ports pId with
  | some pi =>
      match sys.ports[pi]? with
      | some p => p.actorOper.state
      | none => 0
  | none => 0

/-- GetLaAggPortPartnerOperState. -/
def GetLaAggPortPartnerOperState (sys : LacpSysGlobalInfo) (pId : Nat) : Nat :=
  match LaFindPortById sys.ports pId with
  | some pi =>
      match sys.ports[pi]? with
      | some p => p.partnerOper.state
      | none => 0
  | none => 0

/-! ## Concrete inputs used by the evaluations below -/

/-- An enabled port with the given number that is SELECTED and refers to
aggregator 1. -/
def selectedPort (portNum : Nat) : LaAggPort :=
  { portNum := portNum, AggId := 1, key := 1, aggSelected := LacpAggSelected,
    actorAdmin := { state := LacpStateAggregationBit },
    actorOper := { state := LacpStateAggregationBit },
    partnerOper := { state := 0 },
    lacpEnabled := true, portEnabled := true, linkOperStatus := true,
    readyN := false, begin := false }

/-- The port selectedPort 1 with every bit of the actor operational state set
(the byte 255). -/
def allBitsPort : LaAggPort :=
  { selectedPort 1 with actorOper := { (selectedPort 1).actorOper with state := 255 } }

/-- A registry with the single aggregator 1 (admin key 1) whose PortNumList is
1, 2, 3, and with the three ports 1, 2, 3, all SELECTED. -/
def threeMemberSystem : LacpSysGlobalInfo :=
  { aggs := [{ aggId := 1, actorAdminKey := 1, partnerSystemId := [0, 0, 0, 0, 0, 0],
               ready := false, PortNumList := GoSlice.ofList [1, 2, 3] }]
    ports := [selectedPort 1, selectedPort 2, selectedPort 3] }

/-- The configuration of TestCreateDeleteLaAggregatorNoMembers: aggregator
agg2000 with id 2000 and key 50, without members. -/
def testAggConfig : LaAggConfig :=
  { Name := "agg2000", Mac := [0, 0, 1, 2, 3, 4], Id := 2000, Key := 50, Type_ := 1,
    MinLinks := 0, LagMembers := [], SysId := [0, 1, 2, 3, 4, 5] }

/-- A registry with the single aggregator 1 whose PortNumList is 1, and with the
port 1, SELECTED and referring to aggregator 1. -/
def oneMemberSystem : LacpSysGlobalInfo :=
  { aggs := [{ aggId := 1, actorAdminKey := 1, partnerSystemId := [0, 0, 0, 0, 0, 0],
               ready := false, PortNumList := GoSlice.ofList [1] }]
    ports := [selectedPort 1] }

/-- Port methods that do nothing; NewLaAggPort gives a disabled, UNSELECTED port
with the configured number, key and aggregator id. -/
def idleMethods : LaAggPortMethods :=
  { NewLaAggPort := fun port =>
      { portNum := port.Id, AggId := port.AggId, key := port.Key,
        aggSelected := LacpAggUnSelected,
        actorAdmin := { state := 0 }, actorOper := { state := 0 }, partnerOper := { state := 0 },
        lacpEnabled := false, portEnabled := false, linkOperStatus := false,
        readyN := false, begin := false }
    BEGIN := fun sys _ _ => sys
    LaAggPortEnabled := fun sys _ => sys
    checkConfigForSelection := fun sys _ => sys
    LaAggPortLacpDisable := fun sys _ => sys
    LaAggPortLacpEnabled := fun sys _ _ => sys
    MuxCurrentState := fun _ _ => LacpMuxmStateNone }

/-- A port configuration with the given port number: key 50, aggregator 2000,
enabled, ACTIVE, short timeout. -/
def testPortConfig (Id : Nat) : LaAggPortConfig :=
  { Id := Id, Prio := 128, Key := 50, AggId := 2000, Enable := true, Mode := LacpModeActive,
    Timeout := LacpShortTimeoutTime, SysId := [0, 1, 2, 3, 4, 5], TraceEna := false,
    IntfId := "" }

/-- Port 1 with lacp disabled (mode ON), whose Timeout bit is set in the actor
admin state and clear in the actor oper state. -/
def timeoutMismatchPort : LaAggPort :=
  { portNum := 1, AggId := 1, key := 1, aggSelected := LacpAggUnSelected,
    actorAdmin := { state := LacpStateTimeoutBit }, actorOper := { state := 0 },
    partnerOper := { state := 0 },
    lacpEnabled := false, portEnabled := true, linkOperStatus := true,
    readyN := false, begin := false }

/-- The consistency the data model asks of membership and back-reference: for
every port p and aggregator a of the registries, p.AggId is a.aggId (and not
zero) if and only if p.portNum is in a.PortNumList. -/
def BackReferenceInvariant (sys : LacpSysGlobalInfo) : Prop :=
  ∀ p ∈ sys.ports, ∀ a ∈ sys.aggs,
    ((p.AggId = a.aggId ∧ a.aggId ≠ 0) ↔ p.portNum ∈ a.PortNumList.toList)

instance (sys : LacpSysGlobalInfo) : Decidable (BackReferenceInvariant sys) := by
  unfold BackReferenceInvariant
  infer_instance

/-! ## The task of the Mux machine (`lacp/muxmachine.go`) -/

/-- What the select statement of the task started by LacpMuxMachineMain receives:
the kill signal, the expiry of the wait-while timer, an event of the channel
MuxmEvents, or a value of the channel MuxmLogEnableEvent. -/
inductive MuxmSelect where
  | MuxmKillSignalEvent
  | waitWhileTimer
  | MuxmEvents (event : Nat)
  | MuxmLogEnableEvent (ena : Bool)
  deriving DecidableEq, Repr

/-- The task (go routine) started by LacpMuxMachineMain. Its body is one select
statement that no loop encloses. On entry the select statement evaluates the
channel operands of all its cases, among them `m.waitWhileTimer.C`: when the
pointer waitWhileTimer is nil the task panics there, before it receives
anything. Otherwise the task receives the first thing that is delivered to it,
handles it and returns. The argument lists what is delivered, in order; with
nothing delivered the task handles nothing. The flag logEna is not part of the
model. -/
def LacpMuxMachineTask (m : LacpMuxMachine) (deliveries : List MuxmSelect) : LacpMuxMachine :=
  if m.waitWhileTimer = false then { m with panicked := true }
  else
    match deliveries with
    | [] => m
    | MuxmSelect.MuxmKillSignalEvent :: _ => m
    | MuxmSelect.waitWhileTimer :: _ =>
        -- lets evaluate selection
        if m.Curr = LacpMuxmStateWaiting ∨ m.Curr = LacpMuxmStateCWaiting then
          LacpMuxmWaitingEvaluateSelected m
        else
          m
    | MuxmSelect.MuxmEvents event :: _ => m.ProcessEvent event
    | MuxmSelect.MuxmLogEnableEvent _ :: _ => m

end Lacp

namespace Drcp

/-! ## Gateway vector database (`lacp/protocol/drcp/dr.go`) -/

/-- Modelled from the spec: conversation ids are 12 bits wide, so arrays indexed
by conversation id have 4096 entries (the constant MAX_CONVERSATION_IDS is
declared outside the given sources). -/
def MAX_CONVERSATION_IDS : Nat := 4096

/-- One entry of the gateway vector database. The type is declared outside the
given sources; dr.go uses its field Sequence (uint32) and its field Vector, an
array of booleans indexed by conversation id. -/
structure NeighborGatewayVector where
  Sequence : Nat
  Vector : List Bool
  deriving DecidableEq, Repr

/-- The composite literal `NeighborGatewayVector{Sequence: sequence}`: the vector
is all false. -/
def NeighborGatewayVector.new (sequence : Nat) : NeighborGatewayVector :=
  { Sequence := sequence, Vector := List.replicate MAX_CONVERSATION_IDS false }

/-- The zero value `NeighborGatewayVector{}`. -/
def NeighborGatewayVector.zero : NeighborGatewayVector := NeighborGatewayVector.new 0

/-- The loop `for j, val := range vector { e.Vector[j] = val }`, from index `j`
on; writing behind the end of the array panics. -/
def writeVector : NeighborGatewayVector → Nat → List Bool → Option NeighborGatewayVector
  | e, _, [] => some e
  | e, j, val :: rest =>
      if j < e.Vector.length then
        writeVector { e with Vector := e.Vector.set j val } (j + 1) rest
      else
        none

/-- The part of DistributedRelay that the vector database functions use: the
elements of the slice GatewayVectorDatabase. -/
structure DistributedRelay where
  GatewayVectorDatabase : List NeighborGatewayVector
  deriving DecidableEq, Repr

/-- The conversion `int32(i)` of a slice index. -/
def toInt32 (i : Nat) : Int := ((i + 2147483648) % 4294967296 : Nat) - 2147483648

/-- The loop of getNeighborVectorGatwaySequenceIndex from index `i` on. -/
def getNeighborVectorGatwaySequenceIndexLoop (sequence : Nat) :
    Nat → List NeighborGatewayVector → Int
  | _, [] => -1
  | i, seqVector :: rest =>
      if seqVector.Sequence == sequence then toInt32 i
      else getNeighborVectorGatwaySequenceIndexLoop sequence (i + 1) rest

/-- getNeighborVectorGatwaySequenceIndex: the returned index together with the
relay after the call. -/
def getNeighborVectorGatwaySequenceIndex (dr : DistributedRelay) (sequence : Nat)
    (_vector : List Bool) : Int × DistributedRelay :=
  if dr.GatewayVectorDatabase.length > 0 then
    (getNeighborVectorGatwaySequenceIndexLoop sequence 0 dr.GatewayVectorDatabase, dr)
  else
    (-1, dr)

/-- State of the loop of updateNeighborVector. `db` holds the elements of
dr.GatewayVectorDatabase. The range walks the backing array the slice had when the
loop started: as long as append has room (`spare` free slots behind the slice)
the database stays in that array and the range reads what the body wrote; once
append has to move the database, `old` keeps the array the range still walks. -/
structure UpdateLoop where
  db : List NeighborGatewayVector
  spare : Nat
  old : Option (List NeighborGatewayVector)
  deriving DecidableEq, Repr

/-- The element the range hands out at index `i`. -/
def UpdateLoop.rangeRead (st : UpdateLoop) (i : Nat) : Option NeighborGatewayVector :=
  match st.old with
  | some a => a[i]?
  | none => st.db[i]?

/-- The statement `db = append(db, x)`. -/
def UpdateLoop.append (st : UpdateLoop) (x : NeighborGatewayVector) : UpdateLoop :=
  match st.old with
  | some _ => { st with db := st.db ++ [x] }
  | none =>
      if st.spare > 0 then { st with db := st.db ++ [x], spare := st.spare - 1 }
      else { db := st.db ++ [x], spare := 0, old := some st.db }

/-- The statement `copy(db[i:], db[i+1:])`: every element behind `i` moves one place
down and the last element stays. Slicing `db[i+1:]` panics when `i + 1` exceeds
the length. -/
def copyDown (db : List NeighborGatewayVector) (i : Nat) : Option (List NeighborGatewayVector) :=
  if i + 1 ≤ db.length then
    some (db.take i ++ db.drop (i + 1) ++ db.drop (db.length - 1))
  else
    none

/-- The assignment `db[k] = NeighborGatewayVector{Sequence: sequence}` followed by
the loop that writes the vector into `db[k].Vector`. -/
def storeEntry (db : List NeighborGatewayVector) (k : Nat) (sequence : Nat) (vector : List Bool) :
    Option (List NeighborGatewayVector) :=
  if k < db.length then
    match writeVector (NeighborGatewayVector.new sequence) 0 vector with
    | some e => some (db.set k e)
    | none => none
  else
    none

/-- The body of the loop of updateNeighborVector at index `i`. -/
def updateNeighborVectorStep (sequence : Nat) (vector : List Bool) (st : UpdateLoop) (i : Nat) :
    Option UpdateLoop :=
  match st.rangeRead i with
  | none => none
  | some seqVector =>
      if seqVector.Sequence == sequence then
        -- overwrite the sequence
        match storeEntry st.db i sequence vector with
        | some db => some { st with db := db }
        | none => none
      else if seqVector.Sequence > sequence then
        let st := st.append NeighborGatewayVector.zero
        match copyDown st.db i with
        | none => none
        | some db =>
            -- index i-1 is -1 when i is 0
            if i = 0 then none
            else
              match storeEntry db (i - 1) sequence vector with
              | some db => some { st with db := db }
              | none => none
      else
        some st

/-- The loop `for i, seqVector := range dr.GatewayVectorDatabase` with `n`
iterations left, at index `i`. -/
def updateNeighborVectorLoop (sequence : Nat) (vector : List Bool) :
    Nat → Nat → UpdateLoop → Option UpdateLoop
  | 0, _, st => some st
  | n + 1, i, st =>
      match updateNeighborVectorStep sequence vector st i with
      | some st2 => updateNeighborVectorLoop sequence vector n (i + 1) st2
      | none => none

/-- updateNeighborVector. `spare` is the number of free slots behind the slice
dr.GatewayVectorDatabase in its backing array (capacity minus length) when the
call starts; `none` is a run-time panic. -/
def updateNeighborVector (dr : DistributedRelay) (spare : Nat) (sequence : Nat)
    (vector : List Bool) : Option DistributedRelay :=
  if dr.GatewayVectorDatabase.length > 0 then
    match updateNeighborVectorLoop sequence vector dr.GatewayVectorDatabase.length 0
        { db := dr.GatewayVectorDatabase, spare := spare, old := none } with
    | some st => some { dr with GatewayVectorDatabase := st.db }
    | none => none
  else
    match writeVector (NeighborGatewayVector.new sequence) 0 vector with
    | some tmp => some { dr with GatewayVectorDatabase := dr.GatewayVectorDatabase ++ [tmp] }
    | none => none

/-- The ordering the database is meant to keep: the Sequence fields are strictly
increasing along the slice. -/
def SequenceStrictlyIncreasing (db : List NeighborGatewayVector) : Prop :=
  List.Pairwise (fun a b => a < b) (db.map (fun e => e.Sequence))

instance (db : List NeighborGatewayVector) : Decidable (SequenceStrictlyIncreasing db) := by
  unfold SequenceStrictlyIncreasing
  infer_instance

/-- A relay whose database holds the sequence numbers 1, 3, 5. -/
def exampleRelay : DistributedRelay :=
  { GatewayVectorDatabase := [NeighborGatewayVector.new 1, NeighborGatewayVector.new 3,
      NeighborGatewayVector.new 5] }

/-! ## Gateway assignment and digest (`lacp/protocol/drcp/dr.go`) -/

/-- The length of the inner arrays of DrniConvAdminGateway. The constant is
declared outside the given sources; dr.go assigns the literal `[3]uint8{2, 1}` to
an element, which fixes the value 3. -/
def MAX_PORTAL_SYSTEM_IDS : Nat := 3

/-- ConvIdTypeValue of dr.go, one entry of ConversationIdMap. The field idtype is
a GatewayAlgorithm, an array of four bytes, kept as the list of its elements. -/
structure ConvIdTypeValue where
  valid : Bool
  idtype : List Nat
  isid : Nat
  cvlan : Nat
  svlan : Nat
  bvid : Nat
  psuedowire : Nat
  portList : List Int
  deriving DecidableEq, Repr

/-- Modelled from the spec: an MD5 digest is 16 bytes (the type Md5Digest is
declared outside the given sources); the array is kept as the list of its
elements. -/
abbrev Md5Digest := List Nat

/-- Modelled from the spec: the number of bytes of an MD5 digest. -/
def Md5DigestLength : Nat := 16

/-- The part of DistributedRelay that setAdminConvGatewayAndNeighborGatewayListDigest
writes: the array DrniConvAdminGateway, indexed by conversation id, and the three
gateway digests. -/
structure DistributedRelayGateway where
  DrniConvAdminGateway : Nat → List Nat
  DrniNeighborAdminConvGatewayListDigest : Md5Digest
  DRFNeighborAdminConversationGatewayListDigest : Md5Digest
  DRFHomeConversationGatewayListDigest : Md5Digest

/-- The state of the first loop of setAdminConvGatewayAndNeighborGatewayListDigest:
the relay and the bytes written to the hash `ghash` so far. -/
structure GatewayDigestLoop where
  dr : DistributedRelayGateway
  ghash : List Nat

/-- One iteration of `for cid, conv := range ConversationIdMap`. The test
`math.Mod(float64(conv.cvlan), 2) == 0` is exact on a uint16 and is the test that
cvlan is even; `uint8(..)` is the remainder modulo 256. -/
def setAdminConvGatewayStep (ConversationIdMap : Nat → ConvIdTypeValue)
    (st : GatewayDigestLoop) (cid : Nat) : GatewayDigestLoop :=
  let conv := ConversationIdMap cid
  if conv.valid then
    let gw : Nat → List Nat :=
      if conv.cvlan % 2 = 0 then
        fun c => if c = cid then [2, 1, 0] else st.dr.DrniConvAdminGateway c
      else
        fun c => if c = cid then [1, 2, 0] else st.dr.DrniConvAdminGateway c
    { dr := { st.dr with DrniConvAdminGateway := gw }
      ghash := st.ghash ++
        [(gw cid).getD 0 0, (gw cid).getD 1 0,
          ((cid >>> 8) &&& 0xff) % 256, (cid &&& 0xff) % 256] }
  else
    { st with ghash := st.ghash ++ [((cid >>> 8) &&& 0xff) % 256, (cid &&& 0xff) % 256] }

/-- The loop `for i, val := range ghash.Sum(nil)`, from index `i` on; writing
behind the end of a digest array panics. -/
def copyDigest : DistributedRelayGateway → Nat → List Nat → Option DistributedRelayGateway
  | dr, _, [] => some dr
  | dr, i, val :: rest =>
      if i < dr.DrniNeighborAdminConvGatewayListDigest.length ∧
          i < dr.DRFNeighborAdminConversationGatewayListDigest.length ∧
          i < dr.DRFHomeConversationGatewayListDigest.length then
        copyDigest
          { dr with
            DrniNeighborAdminConvGatewayListDigest :=
              dr.DrniNeighborAdminConvGatewayListDigest.set i val
            DRFNeighborAdminConversationGatewayListDigest :=
              dr.DRFNeighborAdminConversationGatewayListDigest.set i val
            DRFHomeConversationGatewayListDigest :=
              dr.DRFHomeConversationGatewayListDigest.set i val }
          (i + 1) rest
      else
        none

/-- The function setAdminConvGatewayAndNeighborGatewayListDigest of dr.go. The
global array ConversationIdMap and the hash function of crypto/md5 (bytes to
digest) are parameters; the result is `none` when the function panics. -/
def setAdminConvGatewayAndNeighborGatewayListDigest (md5 : List Nat → List Nat)
    (ConversationIdMap : Nat → ConvIdTypeValue) (dr : DistributedRelayGateway) :
    Option DistributedRelayGateway :=
  let st := (List.range MAX_CONVERSATION_IDS).foldl
    (setAdminConvGatewayStep ConversationIdMap) { dr := dr, ghash := [] }
  copyDigest st.dr 0 (md5 st.ghash)

/-- The byte string of the gateway digest as the specification words it: for
cid = 0 .. MAX_CONVERSATION_IDS-1 in increasing order, the first two gateway
bytes, the high byte and the low byte of cid for a valid conversation, and the
high byte and the low byte of cid for an invalid one. -/
def gatewayDigestByteString (ConversationIdMap : Nat → ConvIdTypeValue)
    (DrniConvAdminGateway : Nat → List Nat) : List Nat :=
  (List.range MAX_CONVERSATION_IDS).flatMap (fun cid =>
    if (ConversationIdMap cid).valid then
      [(DrniConvAdminGateway cid).getD 0 0, (DrniConvAdminGateway cid).getD 1 0,
        cid / 256 % 256, cid % 256]
    else
      [cid / 256 % 256, cid % 256])

/-! ## Distributed relay registry (`lacp/protocol/drcp/dr.go`) -/

/-- DistrubtedRelayConfig, the configuration NewDistributedRelay reads. The type
is declared outside the given sources; these are the fields dr.go uses. The field
DrniNeighborAdminDRCPState holds the bytes of the Go string, which the code
slices byte by byte; DrniConvAdminGateway is indexed by conversation id. -/
structure DistrubtedRelayConfig where
  DrniName : String
  DrniPortalAddress : String
  DrniPortalPriority : Nat
  DrniThreePortalSystem : Bool
  DrniPortalSystemNumber : Nat
  DrniIntraPortalLinkList : List Nat
  DrniAggregator : Nat
  DrniConvAdminGateway : Nat → List Nat
  DrniNeighborAdminConvPortListDigest : List Nat
  DrniGatewayAlgorithm : String
  DrniNeighborAdminGatewayAlgorithm : String
  DrniNeighborAdminDRCPState : List Nat
  DrniEncapMethod : String
  DrniIPLEncapMap : List Nat
  DrniNetEncapMap : List Nat
  DrniPortConversationControl : Bool
  DrniIntraPortalPortProtocolDA : String

/-- One entry of the VlanList of a bulk answer of the hardware plugin. The type is
declared outside the given sources; these are the fields dr.go reads. -/
structure BulkVlan where
  VlanId : Int
  UntagIfIndexList : List Int
  deriving DecidableEq, Repr

/-- The answer of the hardware plugin to GetBulkVlan. The type is declared outside
the given sources; these are the fields dr.go reads. -/
structure BulkVlanInfo where
  Count : Int
  More : Bool
  EndIdx : Int
  VlanList : List BulkVlan
  deriving DecidableEq, Repr

/-- What NewDistributedRelay takes from outside the repository or from code that
is declared outside the given sources: net.ParseMAC, `strings.Split(s, ":")`
and `strconv.ParseInt(s, 16, 16)` of the Go library (errors are dropped by the
caller), the hash of crypto/md5, the list of hardware plugins that
utils.GetAsicDPluginList returns, the answer of the plugin `client` to
`client.GetBulkVlan(curMark, count)` (none is the nil answer) and the constant
GATEWAY_ALGORITHM_CVID. -/
structure DistributedRelayEnv where
  ParseMAC : String → List Nat
  Split : String → List String
  ParseInt : String → Int
  md5 : List Nat → List Nat
  GetAsicDPluginList : List Nat
  GetBulkVlan : Nat → Int → Int → Option BulkVlanInfo
  GATEWAY_ALGORITHM_CVID : List Nat

/-- The fields of a DistributedRelay object that NewDistributedRelay and
DeleteDistributedRelay work on, on top of the gateway array and the gateway
digests. Ipplinks holds the ids of the IPP objects created for the relay (the
IPP objects are declared outside the given sources); drEvtResponseChanClosed
tells whether the channel drEvtResponseChan has been closed. -/
structure DistributedRelayObject extends DistributedRelayGateway where
  DrniId : Nat
  DrniName : String
  DrniPortalAddr : List Nat
  DrniPortalPriority : Nat
  DrniThreeSystemPortal : Bool
  DrniPortalSystemNumber : Nat
  DrniIntraPortalLinkList : List Nat
  DrniAggregator : Int
  DrniNeighborAdminConvPortListDigest : Md5Digest
  DrniGatewayAlgorithm : List Nat
  DrniNeighborAdminGatewayAlgorithm : List Nat
  DRFNeighborAdminGatewayAlgorithm : List Nat
  DrniNeighborAdminDRCPState : Nat
  DRFNeighborAdminDRCPState : Nat
  DrniEncapMethod : List Nat
  DrniIPLEncapMap : List Nat
  DrniNetEncapMap : List Nat
  DrniPortConversationControl : Bool
  DrniPortalPortProtocolIDA : List Nat
  GatewayVectorDatabase : List NeighborGatewayVector
  Ipplinks : List Nat
  drEvtResponseChanClosed : Bool

/-- The package variables of dr.go together with the relay objects allocated so
far. A pointer to a relay is its position in `heap`; DistributedRelayDB, a Go map
from name to pointer, is kept as an association list with one entry per key;
DistributedRelayDBList is a slice of pointers. -/
structure DistributedRelayGlobals where
  heap : List DistributedRelayObject
  DistributedRelayDB : List (String × Nat)
  DistributedRelayDBList : Lacp.GoSlice Nat
  ConversationIdMap : Nat → ConvIdTypeValue

/-- The map index expression `m[k]` with its presence flag. -/
def mapLookup (m : List (String × Nat)) (k : String) : Option Nat :=
  (m.find? (fun e => e.1 == k)).map (fun e => e.2)

/-- The map assignment `m[k] = v`: the entry of an existing key is replaced, a new
key gets a new entry. -/
def mapAssign (m : List (String × Nat)) (k : String) (v : Nat) : List (String × Nat) :=
  if (mapLookup m k).isSome then
    m.map (fun e => if e.1 == k then (k, v) else e)
  else
    m ++ [(k, v)]

/-- The statement `delete(m, k)`. -/
def mapDelete (m : List (String × Nat)) (k : String) : List (String × Nat) :=
  m.filter (fun e => !(e.1 == k))

/-- The call `strconv.Atoi` of the Go library on a string of one byte, with the
error dropped as the caller does: the value of a decimal digit (bytes 48 to 57),
and 0 for any other byte. -/
def AtoiByte (b : Nat) : Nat := if 48 ≤ b ∧ b ≤ 57 then b - 48 else 0

/-- The loop `for i, j := 0, uint32(7); i < 8; i, j = i+1, j-1` of
NewDistributedRelay with `n` iterations left: `st` holds
dr.DrniNeighborAdminDRCPState and dr.DRFNeighborAdminDRCPState. Slicing
`s[i : i+1]` panics when the string has fewer than `i + 1` bytes; the conversions
`uint8(..)` and `layers.DRCPState(..)` (a byte as well) keep the low eight bits;
`j - 1` wraps around as a uint32. -/
def NewDistributedRelayStateLoop (s : List Nat) : Nat → Nat → Nat → Nat × Nat → Option (Nat × Nat)
  | 0, _, _, st => some st
  | n + 1, i, j, st =>
      match s[i]? with
      | none => none
      | some b =>
          let val := AtoiByte b
          NewDistributedRelayStateLoop s n (i + 1) ((j + 4294967296 - 1) % 4294967296)
            (st.1 ||| ((val <<< j) % 256), st.2 ||| ((val <<< j) % 256))

/-- The loop `for i := 0; i < 16; i++` of NewDistributedRelay that copies the
configured port list digest; reading behind the end of the configured value
panics. -/
def NewDistributedRelayPortDigest (cfg : DistrubtedRelayConfig) : Option Md5Digest :=
  (List.range 16).mapM (fun i => cfg.DrniNeighborAdminConvPortListDigest[i]?)

/-- The conversion `uint8(v)` of an int64. -/
def toUint8 (v : Int) : Nat := (v % 256).toNat

/-- The four statements that parse one `"00:00:00:00"` value: the parts 0 to 3 of
the split string, each read as a hexadecimal number and cut to a byte. Indexing a
part that is not there panics. -/
def NewDistributedRelayParseFour (env : DistributedRelayEnv) (s : String) : Option (List Nat) :=
  match env.Split s with
  | a :: b :: c :: d :: _ =>
      some [toUint8 (env.ParseInt a), toUint8 (env.ParseInt b), toUint8 (env.ParseInt c),
        toUint8 (env.ParseInt d)]
  | _ => none

/-- The conversion `uint16(v)` of an int32. -/
def toUint16 (v : Int) : Nat := (v % 65536).toNat

/-- The loop `for i := 0; i < objCnt; i++` of GetAllCVIDConversations over one
bulk answer, with `n` iterations left: the entry of ConversationIdMap of each
reported VLAN is marked valid, gets the C-VID type and the VLAN, and has the
untagged ports of the VLAN appended to its port list. Reading behind the end of
VlanList panics, and so does an index behind the end of ConversationIdMap. -/
def GetAllCVIDConversationsVlans (GATEWAY_ALGORITHM_CVID : List Nat) (bulkVlanInfo : BulkVlanInfo) :
    Nat → Nat → (Nat → ConvIdTypeValue) → Option (Nat → ConvIdTypeValue)
  | 0, _, ConversationIdMap => some ConversationIdMap
  | n + 1, i, ConversationIdMap =>
      match bulkVlanInfo.VlanList[i]? with
      | none => none
      | some v =>
          let vlan := toUint16 v.VlanId
          if vlan < MAX_CONVERSATION_IDS then
            let ent := ConversationIdMap vlan
            let ent := { ent with
              valid := true
              idtype := GATEWAY_ALGORITHM_CVID
              cvlan := vlan
              portList := ent.portList ++ v.UntagIfIndexList }
            GetAllCVIDConversationsVlans GATEWAY_ALGORITHM_CVID bulkVlanInfo n (i + 1)
              (fun c => if c = vlan then ent else ConversationIdMap c)
          else
            none

/-- The state of the loops of GetAllCVIDConversations: the variables curMark and
more and the conversation map. -/
structure GetAllCVIDConversationsState where
  curMark : Int
  more : Bool
  ConversationIdMap : Nat → ConvIdTypeValue

/-- The loop `for _, client := range utils.GetAsicDPluginList()` of
GetAllCVIDConversations: each plugin is asked for the next hundred VLANs; a
plugin that gives the nil answer changes nothing. -/
def GetAllCVIDConversationsPlugins (env : DistributedRelayEnv) :
    List Nat → GetAllCVIDConversationsState → Option GetAllCVIDConversationsState
  | [], st => some st
  | client :: rest, st =>
      match env.GetBulkVlan client st.curMark 100 with
      | none => GetAllCVIDConversationsPlugins env rest st
      | some bulkVlanInfo =>
          match GetAllCVIDConversationsVlans env.GATEWAY_ALGORITHM_CVID bulkVlanInfo
              bulkVlanInfo.Count.toNat 0 st.ConversationIdMap with
          | none => none
          | some ConversationIdMap =>
              GetAllCVIDConversationsPlugins env rest
                { curMark := bulkVlanInfo.EndIdx
                  more := bulkVlanInfo.More
                  ConversationIdMap := ConversationIdMap }

/-- The loop `for more` of GetAllCVIDConversations with `fuel` rounds left. The
loop ends when a round leaves `more` false; it does not end when no plugin
answers, or when the last answer of every round asks for more. The result is
none when the function panics or when the rounds run out before the loop ends. -/
def GetAllCVIDConversationsLoop (env : DistributedRelayEnv) :
    Nat → Int → (Nat → ConvIdTypeValue) → Option (Nat → ConvIdTypeValue)
  | 0, _, _ => none
  | fuel + 1, curMark, ConversationIdMap =>
      match GetAllCVIDConversationsPlugins env env.GetAsicDPluginList
          { curMark := curMark, more := true, ConversationIdMap := ConversationIdMap } with
      | none => none
      | some st =>
          if st.more then GetAllCVIDConversationsLoop env fuel st.curMark st.ConversationIdMap
          else some st.ConversationIdMap

/-- GetAllCVIDConversations of dr.go: the conversation map after the call, when the
call returns within `fuel` rounds of its loop. -/
def GetAllCVIDConversations (env : DistributedRelayEnv) (fuel : Nat)
    (ConversationIdMap : Nat → ConvIdTypeValue) : Option (Nat → ConvIdTypeValue) :=
  GetAllCVIDConversationsLoop env fuel 0 ConversationIdMap

/-- The function setTimeSharingPortAndGatwewayDigest of dr.go: the relay and the
conversation map after the call; `fuel` bounds the rounds of the loop of
GetAllCVIDConversations. -/
def setTimeSharingPortAndGatwewayDigest (env : DistributedRelayEnv) (fuel : Nat)
    (ConversationIdMap : Nat → ConvIdTypeValue) (dr : DistributedRelayObject) :
    Option (DistributedRelayObject × (Nat → ConvIdTypeValue)) :=
  -- algorithm assumes 2P system only
  if dr.DrniGatewayAlgorithm = env.GATEWAY_ALGORITHM_CVID then
    match GetAllCVIDConversations env fuel ConversationIdMap with
    | none => none
    | some ConversationIdMap =>
        if !dr.DrniThreeSystemPortal then
          match setAdminConvGatewayAndNeighborGatewayListDigest env.md5 ConversationIdMap
              dr.toDistributedRelayGateway with
          | some gw => some ({ dr with toDistributedRelayGateway := gw }, ConversationIdMap)
          | none => none
        else
          some (dr, ConversationIdMap)
  else
    some (dr, ConversationIdMap)

/-- NewDistributedRelay of dr.go: the package variables after the call and the
pointer to the new relay; `none` is a run-time panic, or a call of
GetAllCVIDConversations that has not returned within `fuel` rounds of its loop.
The new object starts from the zero value (digests of sixteen zero bytes, state
bytes 0). -/
def NewDistributedRelay (env : DistributedRelayEnv) (fuel : Nat) (g : DistributedRelayGlobals)
    (cfg : DistrubtedRelayConfig) : Option (DistributedRelayGlobals × Nat) :=
  match NewDistributedRelayStateLoop cfg.DrniNeighborAdminDRCPState 8 0 7 (0, 0),
      NewDistributedRelayPortDigest cfg,
      NewDistributedRelayParseFour env cfg.DrniEncapMethod,
      NewDistributedRelayParseFour env cfg.DrniGatewayAlgorithm,
      NewDistributedRelayParseFour env cfg.DrniNeighborAdminGatewayAlgorithm with
  | some st, some portDigest, some encapmethod, some gatewayalgorithm,
      some neighborgatewayalgorithm =>
      let dr : DistributedRelayObject :=
        { DrniConvAdminGateway := cfg.DrniConvAdminGateway
          DrniNeighborAdminConvGatewayListDigest := List.replicate Md5DigestLength 0
          DRFNeighborAdminConversationGatewayListDigest := List.replicate Md5DigestLength 0
          DRFHomeConversationGatewayListDigest := List.replicate Md5DigestLength 0
          DrniId := cfg.DrniPortalSystemNumber
          DrniName := cfg.DrniName
          DrniPortalAddr := env.ParseMAC cfg.DrniPortalAddress
          DrniPortalPriority := cfg.DrniPortalPriority
          DrniThreeSystemPortal := cfg.DrniThreePortalSystem
          DrniPortalSystemNumber := cfg.DrniPortalSystemNumber
          DrniIntraPortalLinkList := cfg.DrniIntraPortalLinkList
          DrniAggregator := toInt32 cfg.DrniAggregator
          DrniNeighborAdminConvPortListDigest := portDigest
          DrniGatewayAlgorithm := gatewayalgorithm
          DrniNeighborAdminGatewayAlgorithm := neighborgatewayalgorithm
          DRFNeighborAdminGatewayAlgorithm := neighborgatewayalgorithm
          DrniNeighborAdminDRCPState := st.1
          DRFNeighborAdminDRCPState := st.2
          DrniEncapMethod := encapmethod
          DrniIPLEncapMap := cfg.DrniIPLEncapMap
          DrniNetEncapMap := cfg.DrniNetEncapMap
          DrniPortConversationControl := cfg.DrniPortConversationControl
          DrniPortalPortProtocolIDA := env.ParseMAC cfg.DrniIntraPortalPortProtocolDA
          GatewayVectorDatabase := []
          Ipplinks := []
          drEvtResponseChanClosed := false }
      -- set gateway info and digest
      match setTimeSharingPortAndGatwewayDigest env fuel g.ConversationIdMap dr with
      | none => none
      | some (dr, ConversationIdMap) =>
          -- add to the global db's
          let ptr := g.heap.length
          let dr := { dr with Ipplinks := dr.DrniIntraPortalLinkList.filter (fun ippid => ippid > 0) }
          some ({ heap := g.heap ++ [dr]
                  DistributedRelayDB := mapAssign g.DistributedRelayDB dr.DrniName ptr
                  DistributedRelayDBList := g.DistributedRelayDBList.append ptr
                  ConversationIdMap := ConversationIdMap }, ptr)
  | _, _, _, _, _ => none

/-- The loop `for i, deldr := range DistributedRelayDBList` of
DeleteDistributedRelay: `n` iterations are left, `i` is the loop index and `s` is
the current value of DistributedRelayDBList. The range walks the backing array
the slice had when the loop started, which is the array the loop body rewrites
in place. -/
def DeleteDistributedRelayLoop (dr : Nat) : Nat → Nat → Lacp.GoSlice Nat → Option (Lacp.GoSlice Nat)
  | 0, _, s => some s
  | n + 1, i, s =>
      match s.arr[i]? with
      | none => none
      | some deldr =>
          if deldr == dr then
            match s.removeAt i with
            | some s2 => DeleteDistributedRelayLoop dr n (i + 1) s2
            | none => none
          else
            DeleteDistributedRelayLoop dr n (i + 1) s

/-- DeleteDistributedRelay of dr.go on the relay the pointer `dr` refers to. The
call dr.Stop() stops the machines of the relay and closes drEvtResponseChan
(closing a closed channel panics); the machines and the IPP objects that
DeleteDRCPIpp removes are not part of the model. -/
def DeleteDistributedRelay (g : DistributedRelayGlobals) (dr : Nat) :
    Option DistributedRelayGlobals :=
  match g.heap[dr]? with
  | none => none
  | some r =>
      if r.drEvtResponseChanClosed then none
      else
        let g := { g with heap := g.heap.set dr { r with drEvtResponseChanClosed := true } }
        -- cleanup the tables hosting the dr data
        if (mapLookup g.DistributedRelayDB r.DrniName).isSome then
          let db := mapDelete g.DistributedRelayDB r.DrniName
          match DeleteDistributedRelayLoop dr g.DistributedRelayDBList.len 0
              g.DistributedRelayDBList with
          | some l => some { g with DistributedRelayDB := db, DistributedRelayDBList := l }
          | none => none
        else
          some g

/-- The value the specification gives to an eight-character string of the
characters 0 and 1 (bytes 48 and 49): the sum of b_i * 2^(7-i), the string read
most-significant bit first. -/
def bitStringValue (s : List Nat) : Nat :=
  ((List.range 8).map (fun i => (s.getD i 48 - 48) * 2 ^ (7 - i))).sum

/-- A conversation map with the VLANs 10 and 11 valid (each conversation id is
its VLAN) and every other entry invalid. -/
def exampleConversationIdMap : Nat → ConvIdTypeValue := fun cid =>
  { valid := cid = 10 ∨ cid = 11, idtype := [0, 0, 0, 0], isid := 0, cvlan := cid, svlan := 0,
    bvid := 0, psuedowire := 0, portList := [] }

/-- A stand-in for the hash function in closed evaluations: sixteen bytes, the
first of which is the length of the input modulo 256. -/
def exampleMd5 : List Nat → List Nat := fun b =>
  (b.length % 256) :: List.replicate 15 0

/-- A relay whose gateway array and digests are all zero. -/
def exampleRelayGateway : DistributedRelayGateway :=
  { DrniConvAdminGateway := fun _ => [0, 0, 0]
    DrniNeighborAdminConvGatewayListDigest := List.replicate Md5DigestLength 0
    DRFNeighborAdminConversationGatewayListDigest := List.replicate Md5DigestLength 0
    DRFHomeConversationGatewayListDigest := List.replicate Md5DigestLength 0 }

/-- The parts of a string between its colons, from the characters `cs` on; `acc`
holds the characters of the current part, last first. -/
def splitColonFrom : List Char → List Char → List String
  | acc, [] => [String.mk acc.reverse]
  | acc, c :: cs =>
      if c = ':' then String.mk acc.reverse :: splitColonFrom [] cs
      else splitColonFrom (c :: acc) cs

/-- The call `strings.Split(s, ":")` of the Go library: the parts of `s` between
its colons; a string without a colon, the empty string included, gives one
part. -/
def splitColon (s : String) : List String := splitColonFrom [] s.data

/-- The value of a hexadecimal digit. -/
def hexDigitValue (c : Char) : Option Nat :=
  if 48 ≤ c.toNat ∧ c.toNat ≤ 57 then some (c.toNat - 48)
  else if 97 ≤ c.toNat ∧ c.toNat ≤ 102 then some (c.toNat - 87)
  else if 65 ≤ c.toNat ∧ c.toNat ≤ 70 then some (c.toNat - 55)
  else none

/-- The value of a string of hexadecimal digits, after the digits read so far. -/
def hexDigitsValue : List Char → Nat → Option Nat
  | [], v => some v
  | c :: cs, v =>
      match hexDigitValue c with
      | some d => hexDigitsValue cs (16 * v + d)
      | none => none

/-- The call `strconv.ParseInt(s, 16, 16)` of the Go library with the error
dropped, on strings without a sign: the value of the hexadecimal digits, 0 for
the empty string and for a string with another character, and the largest int16
for a value out of range. -/
def parseHexInt16 (s : String) : Int :=
  match s.data with
  | [] => 0
  | cs =>
      match hexDigitsValue cs 0 with
      | some v => if v > 32767 then 32767 else v
      | none => 0

/-- The library and the hardware in closed evaluations: strings are split at
their colons and parsed as hexadecimal numbers, the one hardware plugin reports
the VLANs 10 and 11 in one answer, and the gateway algorithm constant is the
C-VID algorithm 00-80-C2-01. The hash and the MAC parser are stand-ins. -/
def exampleEnv : DistributedRelayEnv :=
  { ParseMAC := fun _ => [0, 0, 0, 0, 0, 0]
    Split := splitColon
    ParseInt := parseHexInt16
    md5 := exampleMd5
    GetAsicDPluginList := [0]
    GetBulkVlan := fun _ _ _ =>
      some { Count := 2, More := false, EndIdx := 2
             VlanList := [{ VlanId := 10, UntagIfIndexList := [1] },
                          { VlanId := 11, UntagIfIndexList := [2] }] }
    GATEWAY_ALGORITHM_CVID := [0, 128, 194, 1] }

/-- A configuration of the relay named `name` with the neighbor admin DRCP state
string 10000001. -/
def exampleRelayConfig (name : String) : DistrubtedRelayConfig :=
  { DrniName := name
    DrniPortalAddress := "00:00:00:00:00:64"
    DrniPortalPriority := 128
    DrniThreePortalSystem := false
    DrniPortalSystemNumber := 1
    DrniIntraPortalLinkList := [5, 0, 0]
    DrniAggregator := 100
    DrniConvAdminGateway := fun _ => [0, 0, 0]
    DrniNeighborAdminConvPortListDigest := List.replicate 16 0
    DrniGatewayAlgorithm := "00:80:C2:01"
    DrniNeighborAdminGatewayAlgorithm := "00:80:C2:01"
    DrniNeighborAdminDRCPState := [49, 48, 48, 48, 48, 48, 48, 49]
    DrniEncapMethod := "00:80:C2:01"
    DrniIPLEncapMap := []
    DrniNetEncapMap := []
    DrniPortConversationControl := false
    DrniIntraPortalPortProtocolDA := "01:80:C2:00:00:03" }

/-- The package variables before any relay is created. -/
def emptyGlobals : DistributedRelayGlobals :=
  { heap := []
    DistributedRelayDB := []
    DistributedRelayDBList := Lacp.GoSlice.ofList []
    ConversationIdMap := fun _ =>
      { valid := false, idtype := [0, 0, 0, 0], isid := 0, cvlan := 0, svlan := 0, bvid := 0,
        psuedowire := 0, portList := [] } }

/-- A relay whose gateway array sends every conversation to portal system 3 and
whose digests are all 255. -/
def otherRelayGateway : DistributedRelayGateway :=
  { DrniConvAdminGateway := fun _ => [3, 3, 3]
    DrniNeighborAdminConvGatewayListDigest := List.replicate Md5DigestLength 255
    DRFNeighborAdminConversationGatewayListDigest := List.replicate Md5DigestLength 255
    DRFHomeConversationGatewayListDigest := List.replicate Md5DigestLength 255 }

/-- The package variables with one relay registered: the relay dr1, held at
pointer 0, with a backing array of DistributedRelayDBList that has room for one
more pointer. -/
def oneRelayGlobals : DistributedRelayGlobals :=
  { heap :=
      [{ DrniConvAdminGateway := fun _ => [0, 0, 0]
         DrniNeighborAdminConvGatewayListDigest := List.replicate Md5DigestLength 0
         DRFNeighborAdminConversationGatewayListDigest := List.replicate Md5DigestLength 0
         DRFHomeConversationGatewayListDigest := List.replicate Md5DigestLength 0
         DrniId := 1
         DrniName := "dr1"
         DrniPortalAddr := [0, 0, 0, 0, 0, 100]
         DrniPortalPriority := 128
         DrniThreeSystemPortal := false
         DrniPortalSystemNumber := 1
         DrniIntraPortalLinkList := [5, 0, 0]
         DrniAggregator := 100
         DrniNeighborAdminConvPortListDigest := List.replicate Md5DigestLength 0
         DrniGatewayAlgorithm := [0, 128, 194, 1]
         DrniNeighborAdminGatewayAlgorithm := [0, 128, 194, 1]
         DRFNeighborAdminGatewayAlgorithm := [0, 128, 194, 1]
         DrniNeighborAdminDRCPState := 129
         DRFNeighborAdminDRCPState := 129
         DrniEncapMethod := [0, 128, 194, 1]
         DrniIPLEncapMap := []
         DrniNetEncapMap := []
         DrniPortConversationControl := false
         DrniPortalPortProtocolIDA := [1, 128, 194, 0, 0, 3]
         GatewayVectorDatabase := []
         Ipplinks := [5]
         drEvtResponseChanClosed := false }]
    DistributedRelayDB := [("dr1", 0)]
    DistributedRelayDBList := { arr := [0, 0], len := 1 }
    ConversationIdMap := exampleConversationIdMap }

end Drcp

/-! # Theorems -/

namespace Lacp

/-! ## Mux machine: lemmas -/

theorem LacpMuxmWaitingEvaluateSelected_Rules (muxm : LacpMuxMachine) :
    (LacpMuxmWaitingEvaluateSelected muxm).Rules = muxm.Rules := by
  unfold LacpMuxmWaitingEvaluateSelected
  split
  · dsimp only
    split <;> rfl
  · rfl

/-- What LacpMuxmWaiting gives: a panic when the aggregator of the port is found,
and otherwise the machine after the evaluation of the selection, with the state
LacpMuxmStateWaiting. -/
theorem LacpMuxmWaiting_eq (muxm : LacpMuxMachine) :
    LacpMuxmWaiting muxm =
      if (LaFindAggById muxm.aggs muxm.p.AggId).isSome then none
      else some (LacpMuxmWaitingEvaluateSelected muxm, LacpMuxmStateWaiting) := by
  unfold LacpMuxmWaiting
  dsimp only
  split <;> simp

theorem MuxAction_run_Rules (cb : MuxAction) (muxm : LacpMuxMachine)
    (r : LacpMuxMachine × Nat) (h : cb.run muxm = some r) : r.1.Rules = muxm.Rules := by
  cases cb <;> simp only [MuxAction.run, Option.some.injEq] at h <;>
    first
    | (subst h; rfl)
    | (rw [LacpMuxmWaiting_eq] at h
       split at h
       · cases h
       · cases h
         exact LacpMuxmWaitingEvaluateSelected_Rules muxm)

theorem MuxAction_run_snd (cb : MuxAction) (muxm : LacpMuxMachine)
    (r : LacpMuxMachine × Nat) (h : cb.run muxm = some r) :
    r.2 = LacpMuxmStateDetached ∨ r.2 = LacpMuxmStateWaiting := by
  cases cb <;> simp only [MuxAction.run, Option.some.injEq] at h <;>
    first
    | (subst h; exact Or.inl rfl)
    | (subst h; exact Or.inr rfl)
    | (rw [LacpMuxmWaiting_eq] at h
       split at h
       · cases h
       · cases h
         exact Or.inr rfl)

theorem ProcessEvent_Rules (muxm : LacpMuxMachine) (e : Nat) :
    (muxm.ProcessEvent e).Rules = muxm.Rules := by
  unfold LacpMuxMachine.ProcessEvent
  split
  · rfl
  · split
    · split
      · next r h => exact MuxAction_run_Rules _ _ r h
      · rfl
    · rfl

theorem ProcessEvent_Curr_cases (muxm : LacpMuxMachine) (e : Nat) :
    (muxm.ProcessEvent e).Curr = muxm.Curr ∨
      (muxm.ProcessEvent e).Curr = LacpMuxmStateDetached ∨
      (muxm.ProcessEvent e).Curr = LacpMuxmStateWaiting := by
  unfold LacpMuxMachine.ProcessEvent
  split
  · exact Or.inl rfl
  · split
    · split
      · next r h => exact Or.inr (MuxAction_run_snd _ _ r h)
      · exact Or.inl rfl
    · exact Or.inl rfl

theorem ProcessEvents_Curr_cases (es : List Nat) (muxm : LacpMuxMachine) :
    (muxm.ProcessEvents es).Curr = muxm.Curr ∨
      (muxm.ProcessEvents es).Curr = LacpMuxmStateDetached ∨
      (muxm.ProcessEvents es).Curr = LacpMuxmStateWaiting := by
  induction es generalizing muxm with
  | nil => exact Or.inl rfl
  | cons e es ih =>
    have h1 := ih (muxm.ProcessEvent e)
    have h2 := ProcessEvent_Curr_cases muxm e
    have h3 : muxm.ProcessEvents (e :: es) = (muxm.ProcessEvent e).ProcessEvents es := rfl
    rw [h3]
    rcases h1 with h1 | h1 | h1
    · rw [h1]; exact h2
    · exact Or.inr (Or.inl h1)
    · exact Or.inr (Or.inr h1)

theorem LacpMuxMachineMain_Curr (p : LaAggPort) (aggs : List LaAggregator) (c : Bool) :
    (LacpMuxMachineMain p aggs c).Curr = if c then LacpMuxmStateCNone else LacpMuxmStateNone := by
  cases c <;> rfl

theorem LacpMuxMachineMain_Rules (p : LaAggPort) (aggs : List LaAggregator) (c : Bool) :
    (LacpMuxMachineMain p aggs c).Rules = LacpMuxMachineFSMBuildRules := by
  cases c <;> rfl

/-- A machine that has panicked processes nothing. -/
theorem ProcessEvent_of_panicked (muxm : LacpMuxMachine) (e : Nat) (h : muxm.panicked = true) :
    muxm.ProcessEvent e = muxm := by
  unfold LacpMuxMachine.ProcessEvent
  rw [if_pos h]

/-- One event of a machine that has not panicked and whose ruleset holds an
action for the event. -/
theorem ProcessEvent_of_lookup_some (muxm : LacpMuxMachine) (e : Nat) (cb : MuxAction)
    (hp : muxm.panicked = false) (h : muxm.Rules.lookup muxm.Curr e = some cb) :
    muxm.ProcessEvent e =
      match cb.run muxm with
      | some r => { r.1 with Curr := r.2 }
      | none => { muxm with panicked := true } := by
  unfold LacpMuxMachine.ProcessEvent
  rw [if_neg (by simp [hp]), h]

theorem LacpMuxmWaitingEvaluateSelected_frame (muxm : LacpMuxMachine) :
    (LacpMuxmWaitingEvaluateSelected muxm).aggs = muxm.aggs ∧
    (LacpMuxmWaitingEvaluateSelected muxm).p.AggId = muxm.p.AggId ∧
    (LacpMuxmWaitingEvaluateSelected muxm).panicked = muxm.panicked ∧
    (LacpMuxmWaitingEvaluateSelected muxm).waitWhileTimer = muxm.waitWhileTimer := by
  unfold LacpMuxmWaitingEvaluateSelected
  split
  · dsimp only
    split <;> exact ⟨rfl, rfl, rfl, rfl⟩
  · exact ⟨rfl, rfl, rfl, rfl⟩

theorem LacpMuxmWaitingEvaluateSelected_effects (muxm : LacpMuxMachine) :
    (LacpMuxmWaitingEvaluateSelected muxm).effects = muxm.effects ∨
      (LacpMuxmWaitingEvaluateSelected muxm).effects
        = muxm.effects ++ [MuxEffect.LacpMuxCheckSelectionLogic] ∨
      (LacpMuxmWaitingEvaluateSelected muxm).effects
        = muxm.effects ++ [MuxEffect.UnableToFindAggregator] := by
  unfold LacpMuxmWaitingEvaluateSelected
  split
  · dsimp only
    split
    · exact Or.inr (Or.inl rfl)
    · exact Or.inr (Or.inr rfl)
  · exact Or.inl rfl

theorem LacpMuxmWaitingEvaluateSelected_no_timer (muxm : LacpMuxMachine) :
    MuxEffect.WaitWhileTimerStart ∉
      (LacpMuxmWaitingEvaluateSelected muxm).effects.drop muxm.effects.length := by
  rcases LacpMuxmWaitingEvaluateSelected_effects muxm with h | h | h <;> rw [h] <;> simp

/-- The machine started by LacpMuxMachineMain never leaves the set made of its
start pseudo-state, DETACHED and WAITING. -/
theorem mux_reachable_states (p : LaAggPort) (aggs : List LaAggregator) (muxCoupling : Bool)
    (es : List Nat) :
    ((LacpMuxMachineMain p aggs muxCoupling).ProcessEvents es).Curr = LacpMuxmStateNone ∨
    ((LacpMuxMachineMain p aggs muxCoupling).ProcessEvents es).Curr = LacpMuxmStateCNone ∨
    ((LacpMuxMachineMain p aggs muxCoupling).ProcessEvents es).Curr = LacpMuxmStateDetached ∨
    ((LacpMuxMachineMain p aggs muxCoupling).ProcessEvents es).Curr = LacpMuxmStateWaiting := by
  rcases ProcessEvents_Curr_cases es (LacpMuxMachineMain p aggs muxCoupling) with h | h | h
  · rw [h, LacpMuxMachineMain_Curr]
    cases muxCoupling
    · exact Or.inl rfl
    · exact Or.inr (Or.inl rfl)
  · exact Or.inr (Or.inr (Or.inl h))
  · exact Or.inr (Or.inr (Or.inr h))

/-- The independent-control machine after BEGIN: the coupled DETACHED entry action
(the one the ruleset keeps for BEGIN in LacpMuxmStateNone) has run. -/
theorem LacpMuxMachineMain_ProcessEvent_Begin (p : LaAggPort) (aggs : List LaAggregator) :
    (LacpMuxMachineMain p aggs false).ProcessEvent LacpMuxmEventBegin =
      { (LacpMuxmCDetached (LacpMuxMachineMain p aggs false)).1 with
          Curr := LacpMuxmStateDetached } := by
  rw [ProcessEvent_of_lookup_some _ _ MuxAction.LacpMuxmCDetached rfl
    (by rw [LacpMuxMachineMain_Rules, LacpMuxMachineMain_Curr]; decide)]
  rfl

/-! ## Mux machine: the claims -/

/-- C1 (what the code does on the independent-control path): started in
LacpMuxmStateNone, the machine processes BEGIN, SelectedEqualSelected,
SelectedEqualSelectedAndReady, SelectedEqualSelectedAndPartnerSync and
SelectedEqualSelectedPartnerSyncCollecting. When the aggregator of the port is
not registered it goes through DETACHED, WAITING, WAITING, WAITING, WAITING and
is left in WAITING, not in DISTRIBUTING: the ATTACHED entry action returns
LacpMuxmStateWaiting and the last two events have no rule in WAITING. When the
aggregator of the port is registered, the WAITING entry action panics on the
second event (it reads the ready flag through a nil pointer): the machine never
leaves DETACHED. In neither case does the machine reach DISTRIBUTING. -/
theorem mux_independent_path_ends_in_waiting (p : LaAggPort) (aggs : List LaAggregator) :
    (LaFindAggById aggs p.AggId = none →
      (LacpMuxMachineMain p aggs false).trace
          [LacpMuxmEventBegin, LacpMuxmEventSelectedEqualSelected,
           LacpMuxmEventSelectedEqualSelectedAndReady,
           LacpMuxmEventSelectedEqualSelectedAndPartnerSync,
           LacpMuxmEventSelectedEqualSelectedPartnerSyncCollecting]
        = [LacpMuxmStateDetached, LacpMuxmStateWaiting, LacpMuxmStateWaiting,
           LacpMuxmStateWaiting, LacpMuxmStateWaiting] ∧
      ((LacpMuxMachineMain p aggs false).ProcessEvents
          [LacpMuxmEventBegin, LacpMuxmEventSelectedEqualSelected,
           LacpMuxmEventSelectedEqualSelectedAndReady,
           LacpMuxmEventSelectedEqualSelectedAndPartnerSync,
           LacpMuxmEventSelectedEqualSelectedPartnerSyncCollecting]).Curr
        = LacpMuxmStateWaiting ∧
      ((LacpMuxMachineMain p aggs false).ProcessEvents
          [LacpMuxmEventBegin, LacpMuxmEventSelectedEqualSelected,
           LacpMuxmEventSelectedEqualSelectedAndReady,
           LacpMuxmEventSelectedEqualSelectedAndPartnerSync,
           LacpMuxmEventSelectedEqualSelectedPartnerSyncCollecting]).panicked = false) ∧
    (LaFindAggById aggs p.AggId ≠ none →
      (LacpMuxMachineMain p aggs false).trace
          [LacpMuxmEventBegin, LacpMuxmEventSelectedEqualSelected,
           LacpMuxmEventSelectedEqualSelectedAndReady,
           LacpMuxmEventSelectedEqualSelectedAndPartnerSync,
           LacpMuxmEventSelectedEqualSelectedPartnerSyncCollecting]
        = [LacpMuxmStateDetached, LacpMuxmStateDetached, LacpMuxmStateDetached,
           LacpMuxmStateDetached, LacpMuxmStateDetached] ∧
      ((LacpMuxMachineMain p aggs false).ProcessEvents
          [LacpMuxmEventBegin, LacpMuxmEventSelectedEqualSelected]).panicked = true) ∧
    (((LacpMuxMachineMain p aggs false).ProcessEvents
          [LacpMuxmEventBegin, LacpMuxmEventSelectedEqualSelected,
           LacpMuxmEventSelectedEqualSelectedAndReady,
           LacpMuxmEventSelectedEqualSelectedAndPartnerSync,
           LacpMuxmEventSelectedEqualSelectedPartnerSyncCollecting]).Curr
        ≠ LacpMuxmStateDistributing) ∧
    (LacpMuxMachineMain (selectedPort 1) [] false).trace
          [LacpMuxmEventBegin, LacpMuxmEventSelectedEqualSelected,
           LacpMuxmEventSelectedEqualSelectedAndReady,
           LacpMuxmEventSelectedEqualSelectedAndPartnerSync,
           LacpMuxmEventSelectedEqualSelectedPartnerSyncCollecting]
        = [LacpMuxmStateDetached, LacpMuxmStateWaiting, LacpMuxmStateWaiting,
           LacpMuxmStateWaiting, LacpMuxmStateWaiting] := by
  have hb := LacpMuxMachineMain_ProcessEvent_Begin p aggs
  have hne : ((LacpMuxMachineMain p aggs false).ProcessEvents
          [LacpMuxmEventBegin, LacpMuxmEventSelectedEqualSelected,
           LacpMuxmEventSelectedEqualSelectedAndReady,
           LacpMuxmEventSelectedEqualSelectedAndPartnerSync,
           LacpMuxmEventSelectedEqualSelectedPartnerSyncCollecting]).Curr
        ≠ LacpMuxmStateDistributing := by
    rcases mux_reachable_states p aggs false _ with h | h | h | h <;> rw [h] <;> decide
  refine ⟨?_, ?_, hne, by decide⟩
  · intro hf
    simp only [LacpMuxMachine.trace, LacpMuxMachine.ProcessEvents, List.foldl]
    rw [hb]
    generalize hm1 : ({ (LacpMuxmCDetached (LacpMuxMachineMain p aggs false)).1 with
          Curr := LacpMuxmStateDetached } : LacpMuxMachine) = m1
    have r1 : m1.Rules = LacpMuxMachineFSMBuildRules := by rw [← hm1]; rfl
    have c1 : m1.Curr = LacpMuxmStateDetached := by rw [← hm1]
    have p1 : m1.panicked = false := by rw [← hm1]; rfl
    have f1 : LaFindAggById m1.aggs m1.p.AggId = none := by rw [← hm1]; exact hf
    have e2 : m1.ProcessEvent LacpMuxmEventSelectedEqualSelected =
        { LacpMuxmWaitingEvaluateSelected m1 with Curr := LacpMuxmStateWaiting } := by
      rw [ProcessEvent_of_lookup_some _ _ MuxAction.LacpMuxmWaiting p1
        (by rw [r1, c1]; decide)]
      simp only [MuxAction.run]
      rw [LacpMuxmWaiting_eq, f1]
      rfl
    rw [e2]
    generalize hm2 : ({ LacpMuxmWaitingEvaluateSelected m1 with
          Curr := LacpMuxmStateWaiting } : LacpMuxMachine) = m2
    have fr := LacpMuxmWaitingEvaluateSelected_frame m1
    have r2 : m2.Rules = LacpMuxMachineFSMBuildRules := by
      rw [← hm2]; exact (LacpMuxmWaitingEvaluateSelected_Rules m1).trans r1
    have c2 : m2.Curr = LacpMuxmStateWaiting := by rw [← hm2]
    have p2 : m2.panicked = false := by rw [← hm2]; exact fr.2.2.1.trans p1
    have e3 : m2.ProcessEvent LacpMuxmEventSelectedEqualSelectedAndReady =
        { (LacpMuxmAttached m2).1 with Curr := LacpMuxmStateWaiting } := by
      rw [ProcessEvent_of_lookup_some _ _ MuxAction.LacpMuxmAttached p2
        (by rw [r2, c2]; decide)]
      rfl
    rw [e3]
    generalize hm3 : ({ (LacpMuxmAttached m2).1 with
          Curr := LacpMuxmStateWaiting } : LacpMuxMachine) = m3
    have r3 : m3.Rules = LacpMuxMachineFSMBuildRules := by rw [← hm3]; exact r2
    have c3 : m3.Curr = LacpMuxmStateWaiting := by rw [← hm3]
    have p3 : m3.panicked = false := by rw [← hm3]; exact p2
    have e4 : m3.ProcessEvent LacpMuxmEventSelectedEqualSelectedAndPartnerSync = m3 := by
      unfold LacpMuxMachine.ProcessEvent
      rw [if_neg (by simp [p3]), r3, c3]
      rfl
    have e5 : m3.ProcessEvent LacpMuxmEventSelectedEqualSelectedPartnerSyncCollecting = m3 := by
      unfold LacpMuxMachine.ProcessEvent
      rw [if_neg (by simp [p3]), r3, c3]
      rfl
    rw [e4, e5]
    exact ⟨by rw [c1, c2, c3], c3, p3⟩
  · intro hf
    simp only [LacpMuxMachine.trace, LacpMuxMachine.ProcessEvents, List.foldl]
    rw [hb]
    generalize hm1 : ({ (LacpMuxmCDetached (LacpMuxMachineMain p aggs false)).1 with
          Curr := LacpMuxmStateDetached } : LacpMuxMachine) = m1
    have r1 : m1.Rules = LacpMuxMachineFSMBuildRules := by rw [← hm1]; rfl
    have c1 : m1.Curr = LacpMuxmStateDetached := by rw [← hm1]
    have p1 : m1.panicked = false := by rw [← hm1]; rfl
    have f1 : (LaFindAggById m1.aggs m1.p.AggId).isSome = true := by
      rw [← hm1]
      exact Option.isSome_iff_ne_none.mpr hf
    have e2 : m1.ProcessEvent LacpMuxmEventSelectedEqualSelected =
        { m1 with panicked := true } := by
      rw [ProcessEvent_of_lookup_some _ _ MuxAction.LacpMuxmWaiting p1
        (by rw [r1, c1]; decide)]
      simp only [MuxAction.run]
      rw [LacpMuxmWaiting_eq, if_pos f1]
    rw [e2]
    have e3 : ∀ e, ({ m1 with panicked := true } : LacpMuxMachine).ProcessEvent e
        = { m1 with panicked := true } := fun e => ProcessEvent_of_panicked _ e rfl
    simp only [e3]
    refine ⟨?_, trivial⟩
    rw [c1]

/-- C2 (what the entry actions return): LacpMuxmDetached returns DETACHED, and
LacpMuxmWaiting returns WAITING whenever it returns (it panics when the
aggregator of the port is registered), but LacpMuxmAttached, LacpMuxmCollecting
and LacpMuxmDistributing all return LacpMuxmStateWaiting, for every machine and
port state; none of the three returns the state it implements. -/
theorem mux_entry_actions_returned_state (muxm : LacpMuxMachine) :
    (LacpMuxmDetached muxm).2 = LacpMuxmStateDetached ∧
    (LacpMuxmWaiting muxm).map Prod.snd =
      (if (LaFindAggById muxm.aggs muxm.p.AggId).isSome then none
       else some LacpMuxmStateWaiting) ∧
    (LacpMuxmAttached muxm).2 = LacpMuxmStateWaiting ∧
    (LacpMuxmCollecting muxm).2 = LacpMuxmStateWaiting ∧
    (LacpMuxmDistributing muxm).2 = LacpMuxmStateWaiting ∧
    LacpMuxmStateWaiting ≠ LacpMuxmStateAttached ∧
    LacpMuxmStateWaiting ≠ LacpMuxmStateCollecting ∧
    LacpMuxmStateWaiting ≠ LacpMuxmStateDistributing := by
  refine ⟨rfl, ?_, rfl, rfl, rfl, by decide, by decide, by decide⟩
  rw [LacpMuxmWaiting_eq]
  split <;> rfl

/-- C5 (what the WAITING entry action does): LacpMuxmWaiting never starts the
wait_while timer. When the aggregator of the port is not registered, so that it
is not found with its ready flag true, the action evaluates the selection at
once, issues no timer start and returns WAITING, where the claim has the timer
started. When the aggregator of the port is registered the action panics, since
it reads the ready flag through a pointer that is nil. The last lines evaluate
the action for a SELECTED port that refers to aggregator 1, first with an empty
registry and then with a registry that holds aggregator 1. -/
theorem LacpMuxmWaiting_timer_never_started (muxm : LacpMuxMachine) :
    (∀ r, LacpMuxmWaiting muxm = some r →
      MuxEffect.WaitWhileTimerStart ∉ r.1.effects.drop muxm.effects.length) ∧
    (LaFindAggById muxm.aggs muxm.p.AggId = none →
      LacpMuxmWaiting muxm
        = some (LacpMuxmWaitingEvaluateSelected muxm, LacpMuxmStateWaiting)) ∧
    (LaFindAggById muxm.aggs muxm.p.AggId ≠ none → LacpMuxmWaiting muxm = none) ∧
    (LacpMuxmWaiting (LacpMuxMachineFSMBuild (selectedPort 1) [])).map
        (fun r => (r.1.effects, r.1.p.readyN, r.2))
      = some ([MuxEffect.UnableToFindAggregator], true, LacpMuxmStateWaiting) ∧
    LacpMuxmWaiting (LacpMuxMachineFSMBuild (selectedPort 1) threeMemberSystem.aggs) = none := by
  refine ⟨?_, ?_, ?_, by decide, by decide⟩
  · intro r h
    rw [LacpMuxmWaiting_eq] at h
    split at h
    · cases h
    · cases h
      exact LacpMuxmWaitingEvaluateSelected_no_timer muxm
  · intro hf
    rw [LacpMuxmWaiting_eq, hf]
    rfl
  · intro hf
    rw [LacpMuxmWaiting_eq, if_pos (Option.isSome_iff_ne_none.mpr hf)]


/-! ## Configuration: the claims -/

/-- C10 (DeleteLaAgg on three members): the aggregator 1 of threeMemberSystem is
found by id and its PortNumList 1, 2, 3 is a duplicate-free list of existing
SELECTED ports; DeleteLaAgg(1) returns with port 2 still in the PortNumList (and
still in the port registry), because the loop over the PortNumList reads the
backing array that DeleteLaAggPortFromAgg shifts down under it: it visits 1,
then 3, then 3 again, and never visits 2. -/
theorem DeleteLaAgg_three_members_leaves_member :
    (LaFindAggById threeMemberSystem.aggs 1 = some 0 ∧
     (threeMemberSystem.aggs.map (fun a => a.PortNumList.toList)) = [[1, 2, 3]] ∧
     [1, 2, 3].Nodup ∧
     ∀ pId ∈ [1, 2, 3], ∃ i p, LaFindPortById threeMemberSystem.ports pId = some i ∧
       threeMemberSystem.ports[i]? = some p ∧ p.aggSelected = LacpAggSelected) ∧
    (DeleteLaAgg threeMemberSystem 1).map
        (fun sys => sys.aggs.map (fun a => a.PortNumList.toList)) = some [[2]] ∧
    (DeleteLaAgg threeMemberSystem 1).map
        (fun sys => sys.ports.map (fun p => p.portNum)) = some [2] := by
  refine ⟨⟨by decide, by decide, by decide, ?_⟩, by decide, by decide⟩
  intro pId h
  simp only [List.mem_cons, List.mem_singleton, List.not_mem_nil, or_false] at h
  rcases h with rfl | rfl | rfl
  · exact ⟨0, selectedPort 1, by decide, by decide, rfl⟩
  · exact ⟨1, selectedPort 2, by decide, by decide, rfl⟩
  · exact ⟨2, selectedPort 3, by decide, by decide, rfl⟩

end Lacp

namespace Drcp

/-! ## Gateway vector database: the claims -/

/-- C6 (a sequence number above every stored one is not stored): on the database
that holds the single sequence number 1, updateNeighborVector(2, vec) runs its
loop without a match and without an insertion, whatever the capacity of the slice
and whatever the vector; the database is unchanged and the lookup of 2 then
returns -1. -/
theorem updateNeighborVector_drops_larger_sequence (spare : Nat) (vec : List Bool) :
    updateNeighborVector { GatewayVectorDatabase := [NeighborGatewayVector.new 1] } spare 2 vec
      = some { GatewayVectorDatabase := [NeighborGatewayVector.new 1] } ∧
    (getNeighborVectorGatwaySequenceIndex
      { GatewayVectorDatabase := [NeighborGatewayVector.new 1] } 2 vec).1 = -1 :=
  ⟨rfl, rfl⟩

/-- C7 (ordering is not preserved): on the strictly increasing database with
sequence numbers 1, 3, updateNeighborVector(2, []) returns the database with
sequence numbers 2, 0, 0, whatever the capacity of the slice: the entry 3 is
overwritten by the copy, the entry 1 by the new entry, and two zero entries
follow. -/
theorem updateNeighborVector_breaks_order (spare : Nat) :
    SequenceStrictlyIncreasing [NeighborGatewayVector.new 1, NeighborGatewayVector.new 3] ∧
    ∃ dr2, updateNeighborVector
        { GatewayVectorDatabase := [NeighborGatewayVector.new 1, NeighborGatewayVector.new 3] }
        spare 2 [] = some dr2 ∧
      dr2.GatewayVectorDatabase.map (fun e => e.Sequence) = [2, 0, 0] ∧
      ¬ SequenceStrictlyIncreasing dr2.GatewayVectorDatabase := by
  refine ⟨by decide, ?_⟩
  have h : (updateNeighborVector
        { GatewayVectorDatabase := [NeighborGatewayVector.new 1, NeighborGatewayVector.new 3] }
        spare 2 []).map (fun d => d.GatewayVectorDatabase.map (fun e => e.Sequence))
      = some [2, 0, 0] := by
    cases spare with
    | zero => rfl
    | succ k =>
      simp [updateNeighborVector, updateNeighborVectorLoop, updateNeighborVectorStep,
        UpdateLoop.rangeRead, UpdateLoop.append, copyDown, storeEntry, writeVector,
        NeighborGatewayVector.new, NeighborGatewayVector.zero]
  cases hu : updateNeighborVector
      { GatewayVectorDatabase := [NeighborGatewayVector.new 1, NeighborGatewayVector.new 3] }
      spare 2 [] with
  | none => rw [hu] at h; cases h
  | some dr2 =>
    rw [hu] at h
    have h2 : dr2.GatewayVectorDatabase.map (fun e => e.Sequence) = [2, 0, 0] :=
      Option.some.inj h
    refine ⟨dr2, rfl, h2, ?_⟩
    unfold SequenceStrictlyIncreasing
    rw [h2]
    decide

/-- C8 (an equal sequence number that is not the last one): on the strictly
increasing database with sequence numbers 1, 2, updateNeighborVector(1, []) first
overwrites entry 0 and then, as the loop goes on to the larger entry 2, appends,
copies and stores again: the result has three entries with sequence numbers
1, 0, 0, so the length changed and entry 1 no longer holds sequence number 2. -/
theorem updateNeighborVector_equal_sequence_not_last (spare : Nat) :
    SequenceStrictlyIncreasing [NeighborGatewayVector.new 1, NeighborGatewayVector.new 2] ∧
    ∃ dr2, updateNeighborVector
        { GatewayVectorDatabase := [NeighborGatewayVector.new 1, NeighborGatewayVector.new 2] }
        spare 1 [] = some dr2 ∧
      dr2.GatewayVectorDatabase.map (fun e => e.Sequence) = [1, 0, 0] ∧
      dr2.GatewayVectorDatabase.length ≠ 2 ∧
      (dr2.GatewayVectorDatabase[1]?).map (fun e => e.Sequence) ≠ some 2 := by
  refine ⟨by decide, ?_⟩
  have h : (updateNeighborVector
        { GatewayVectorDatabase := [NeighborGatewayVector.new 1, NeighborGatewayVector.new 2] }
        spare 1 []).map (fun d => d.GatewayVectorDatabase.map (fun e => e.Sequence))
      = some [1, 0, 0] := by
    cases spare with
    | zero => rfl
    | succ k =>
      simp [updateNeighborVector, updateNeighborVectorLoop, updateNeighborVectorStep,
        UpdateLoop.rangeRead, UpdateLoop.append, copyDown, storeEntry, writeVector,
        NeighborGatewayVector.new, NeighborGatewayVector.zero]
  cases hu : updateNeighborVector
      { GatewayVectorDatabase := [NeighborGatewayVector.new 1, NeighborGatewayVector.new 2] }
      spare 1 [] with
  | none => rw [hu] at h; cases h
  | some dr2 =>
    rw [hu] at h
    have h2 : dr2.GatewayVectorDatabase.map (fun e => e.Sequence) = [1, 0, 0] :=
      Option.some.inj h
    have h3 : dr2.GatewayVectorDatabase.length = 3 := by
      have := congrArg List.length h2
      simpa using this
    refine ⟨dr2, rfl, h2, by omega, ?_⟩
    have h4 : (dr2.GatewayVectorDatabase[1]?).map (fun e => e.Sequence)
        = (dr2.GatewayVectorDatabase.map (fun e => e.Sequence))[1]? := by
      simp
    rw [h4, h2]
    decide


theorem toInt32_of_lt (i : Nat) (h : i < 2147483648) : toInt32 i = (i : Int) := by
  unfold toInt32
  omega

/-- What the lookup loop returns, from index `i` on. -/
theorem getNeighborVectorGatwaySequenceIndexLoop_spec (sequence : Nat) :
    ∀ (l : List NeighborGatewayVector) (i : Nat), i + l.length ≤ 2147483648 →
      (getNeighborVectorGatwaySequenceIndexLoop sequence i l = -1 ∧
        ∀ e ∈ l, e.Sequence ≠ sequence) ∨
      (∃ k, k < l.length ∧
        getNeighborVectorGatwaySequenceIndexLoop sequence i l = ((i + k : Nat) : Int) ∧
        (l[k]?).map (fun e => e.Sequence) = some sequence ∧
        ∀ j, j < k → (l[j]?).map (fun e => e.Sequence) ≠ some sequence) := by
  intro l
  induction l with
  | nil => intro i _; exact Or.inl ⟨rfl, by simp⟩
  | cons x rest ih =>
    intro i hi
    simp only [List.length_cons] at hi
    by_cases hx : x.Sequence = sequence
    · refine Or.inr ⟨0, by simp, ?_, by simp [hx], by simp⟩
      simp only [getNeighborVectorGatwaySequenceIndexLoop, hx, beq_self_eq_true, if_true]
      exact toInt32_of_lt i (by omega)
    · have hstep : getNeighborVectorGatwaySequenceIndexLoop sequence i (x :: rest)
          = getNeighborVectorGatwaySequenceIndexLoop sequence (i + 1) rest := by
        simp [getNeighborVectorGatwaySequenceIndexLoop, hx]
      rcases ih (i + 1) (by omega) with ⟨h1, h2⟩ | ⟨k, hk, h1, h2, h3⟩
      · refine Or.inl ⟨by rw [hstep, h1], ?_⟩
        intro e he
        rcases List.mem_cons.mp he with rfl | he
        · exact hx
        · exact h2 e he
      · refine Or.inr ⟨k + 1, by simp; omega, ?_, by simpa using h2, ?_⟩
        · rw [hstep, h1]
          congr 1
          omega
        · intro j hj
          cases j with
          | zero => simp [hx]
          | succ j => simpa using h3 j (by omega)

/-- C9: for a database of at most 2^31 entries (so that every index fits the
int32 result), getNeighborVectorGatwaySequenceIndex returns -1 if and only if no
entry has the given sequence number; when some entry has it, the result is the
smallest index whose entry has it; and the relay is not modified. -/
theorem getNeighborVectorGatwaySequenceIndex_spec (dr : DistributedRelay) (sequence : Nat)
    (vector : List Bool) (hlen : dr.GatewayVectorDatabase.length ≤ 2147483648) :
    ((getNeighborVectorGatwaySequenceIndex dr sequence vector).1 = -1 ↔
      ∀ e ∈ dr.GatewayVectorDatabase, e.Sequence ≠ sequence) ∧
    ((∃ e ∈ dr.GatewayVectorDatabase, e.Sequence = sequence) →
      ∃ k, k < dr.GatewayVectorDatabase.length ∧
        (getNeighborVectorGatwaySequenceIndex dr sequence vector).1 = (k : Int) ∧
        (dr.GatewayVectorDatabase[k]?).map (fun e => e.Sequence) = some sequence ∧
        ∀ j, j < k → (dr.GatewayVectorDatabase[j]?).map (fun e => e.Sequence) ≠ some sequence) ∧
    (getNeighborVectorGatwaySequenceIndex dr sequence vector).2 = dr := by
  have hfst : (getNeighborVectorGatwaySequenceIndex dr sequence vector).1
      = getNeighborVectorGatwaySequenceIndexLoop sequence 0 dr.GatewayVectorDatabase := by
    unfold getNeighborVectorGatwaySequenceIndex
    split
    · rfl
    · rename_i h
      have h0 : dr.GatewayVectorDatabase = [] := by
        cases hdb : dr.GatewayVectorDatabase with
        | nil => rfl
        | cons a b => rw [hdb] at h; simp at h
      rw [h0]
      rfl
  have hsnd : (getNeighborVectorGatwaySequenceIndex dr sequence vector).2 = dr := by
    unfold getNeighborVectorGatwaySequenceIndex
    split <;> rfl
  rw [hfst]
  rcases getNeighborVectorGatwaySequenceIndexLoop_spec sequence dr.GatewayVectorDatabase 0
      (by omega) with ⟨h1, h2⟩ | ⟨k, hk, h1, h2, h3⟩
  · refine ⟨⟨fun _ => h2, fun _ => h1⟩, ?_, hsnd⟩
    rintro ⟨e, he, hes⟩
    exact absurd hes (h2 e he)
  · have hmem : ∃ e ∈ dr.GatewayVectorDatabase, e.Sequence = sequence := by
      have hk2 : dr.GatewayVectorDatabase[k]? = some (dr.GatewayVectorDatabase[k]) :=
        List.getElem?_eq_getElem hk
      rw [hk2] at h2
      exact ⟨dr.GatewayVectorDatabase[k], List.getElem_mem hk, by simpa using h2⟩
    refine ⟨⟨?_, ?_⟩, ?_, hsnd⟩
    · intro h
      rw [h1] at h
      omega
    · intro h
      obtain ⟨e, he, hes⟩ := hmem
      exact absurd hes (h e he)
    · intro _
      exact ⟨k, hk, by rw [h1]; simp, h2, h3⟩

/-- Witness for C9: the database with sequence numbers 1, 3, 5 and the lookup
of 5, which is found at index 2. -/
theorem getNeighborVectorGatwaySequenceIndex_spec_witness :
    exampleRelay.GatewayVectorDatabase.length ≤ 2147483648 ∧
    (((getNeighborVectorGatwaySequenceIndex exampleRelay 5 []).1 = -1 ↔
      ∀ e ∈ exampleRelay.GatewayVectorDatabase, e.Sequence ≠ 5) ∧
    ((∃ e ∈ exampleRelay.GatewayVectorDatabase, e.Sequence = 5) →
      ∃ k, k < exampleRelay.GatewayVectorDatabase.length ∧
        (getNeighborVectorGatwaySequenceIndex exampleRelay 5 []).1 = (k : Int) ∧
        (exampleRelay.GatewayVectorDatabase[k]?).map (fun e => e.Sequence) = some 5 ∧
        ∀ j, j < k → (exampleRelay.GatewayVectorDatabase[j]?).map (fun e => e.Sequence) ≠ some 5) ∧
    (getNeighborVectorGatwaySequenceIndex exampleRelay 5 []).2 = exampleRelay) :=
  ⟨by decide, getNeighborVectorGatwaySequenceIndex_spec exampleRelay 5 [] (by decide)⟩

end Drcp

namespace Lacp

/-! ## State bytes: lemmas -/

theorem and_two_pow_eq (s k : Nat) : s &&& 2 ^ k = if s.testBit k then 2 ^ k else 0 := by
  apply Nat.eq_of_testBit_eq
  intro i
  rw [Nat.testBit_and, Nat.testBit_two_pow]
  by_cases hs : s.testBit k = true
  · rw [if_pos hs, Nat.testBit_two_pow]
    by_cases hki : k = i
    · subst hki
      simp [hs]
    · simp [hki]
  · rw [if_neg hs, Nat.zero_testBit]
    by_cases hki : k = i
    · subst hki
      simp [hs]
    · simp [hki]

theorem LacpStateIsSet_two_pow (s k : Nat) : LacpStateIsSet s (2 ^ k) = s.testBit k := by
  unfold LacpStateIsSet
  rw [and_two_pow_eq]
  have hpos : 2 ^ k ≠ 0 := Nat.pos_iff_ne_zero.mp (Nat.two_pow_pos k)
  by_cases hs : s.testBit k = true
  · simp [hs]
  · have hs2 : s.testBit k = false := by simpa using hs
    have hne : (0 : Nat) ≠ 2 ^ k := fun h => hpos h.symm
    simp [hs2, hne]

theorem LacpStateSet_testBit (s b k : Nat) :
    (LacpStateSet s b).testBit k = (decide (k < 8) && (s.testBit k || b.testBit k)) := by
  unfold LacpStateSet
  have h256 : (256 : Nat) = 2 ^ 8 := by norm_num
  rw [h256, Nat.testBit_mod_two_pow, Nat.testBit_or]

theorem LacpStateClear_testBit (s b k : Nat) :
    (LacpStateClear s b).testBit k = (decide (k < 8) && (s.testBit k && !b.testBit k)) := by
  unfold LacpStateClear
  have h256 : (256 : Nat) = 2 ^ 8 := by norm_num
  have h255 : (255 : Nat) = 2 ^ 8 - 1 := by norm_num
  rw [Nat.testBit_and, Nat.testBit_xor, h255, Nat.testBit_two_pow_sub_one, h256,
    Nat.testBit_mod_two_pow, Nat.testBit_mod_two_pow]
  generalize s.testBit k = x
  generalize b.testBit k = y
  by_cases hk : k < 8 <;> cases x <;> cases y <;> simp [hk]

theorem LacpStateIsSet_ActivityBit (s : Nat) :
    LacpStateIsSet s LacpStateActivityBit = s.testBit 0 :=
  LacpStateIsSet_two_pow s 0

theorem LacpStateActivityBit_testBit (k : Nat) :
    LacpStateActivityBit.testBit k = decide (0 = k) := by
  show (2 ^ 0).testBit k = decide (0 = k)
  exact Nat.testBit_two_pow

theorem LacpStateIsSet_TimeoutBit (s : Nat) :
    LacpStateIsSet s LacpStateTimeoutBit = s.testBit 1 :=
  LacpStateIsSet_two_pow s 1

theorem LacpStateTimeoutBit_testBit (k : Nat) :
    LacpStateTimeoutBit.testBit k = decide (1 = k) := by
  show (2 ^ 1).testBit k = decide (1 = k)
  exact Nat.testBit_two_pow

theorem LacpStateIsSet_AggregationBit (s : Nat) :
    LacpStateIsSet s LacpStateAggregationBit = s.testBit 2 :=
  LacpStateIsSet_two_pow s 2

theorem LacpStateAggregationBit_testBit (k : Nat) :
    LacpStateAggregationBit.testBit k = decide (2 = k) := by
  show (2 ^ 2).testBit k = decide (2 = k)
  exact Nat.testBit_two_pow

theorem LacpStateIsSet_SyncBit (s : Nat) :
    LacpStateIsSet s LacpStateSyncBit = s.testBit 3 :=
  LacpStateIsSet_two_pow s 3

theorem LacpStateSyncBit_testBit (k : Nat) :
    LacpStateSyncBit.testBit k = decide (3 = k) := by
  show (2 ^ 3).testBit k = decide (3 = k)
  exact Nat.testBit_two_pow

theorem LacpStateIsSet_CollectingBit (s : Nat) :
    LacpStateIsSet s LacpStateCollectingBit = s.testBit 4 :=
  LacpStateIsSet_two_pow s 4

theorem LacpStateCollectingBit_testBit (k : Nat) :
    LacpStateCollectingBit.testBit k = decide (4 = k) := by
  show (2 ^ 4).testBit k = decide (4 = k)
  exact Nat.testBit_two_pow

theorem LacpStateIsSet_DistributingBit (s : Nat) :
    LacpStateIsSet s LacpStateDistributingBit = s.testBit 5 :=
  LacpStateIsSet_two_pow s 5

theorem LacpStateDistributingBit_testBit (k : Nat) :
    LacpStateDistributingBit.testBit k = decide (5 = k) := by
  show (2 ^ 5).testBit k = decide (5 = k)
  exact Nat.testBit_two_pow

theorem LacpStateIsSet_DefaultedBit (s : Nat) :
    LacpStateIsSet s LacpStateDefaultedBit = s.testBit 6 :=
  LacpStateIsSet_two_pow s 6

theorem LacpStateDefaultedBit_testBit (k : Nat) :
    LacpStateDefaultedBit.testBit k = decide (6 = k) := by
  show (2 ^ 6).testBit k = decide (6 = k)
  exact Nat.testBit_two_pow

theorem LacpStateIsSet_ExpiredBit (s : Nat) :
    LacpStateIsSet s LacpStateExpiredBit = s.testBit 7 :=
  LacpStateIsSet_two_pow s 7

theorem LacpStateExpiredBit_testBit (k : Nat) :
    LacpStateExpiredBit.testBit k = decide (7 = k) := by
  show (2 ^ 7).testBit k = decide (7 = k)
  exact Nat.testBit_two_pow


/-! ## Configuration: lemmas on unknown ports -/

theorem LaFindPortById_eq_none_iff (ports : List LaAggPort) (pId : Nat) :
    LaFindPortById ports pId = none ↔ ∀ p ∈ ports, p.portNum ≠ pId := by
  unfold LaFindPortById
  rw [List.findIdx?_eq_none_iff]
  constructor
  · intro h p hp heq
    have := h p hp
    simp [heq] at this
  · intro h p hp
    simpa using h p hp

theorem DeleteLaAggPortFromAgg_of_not_found (sys : LacpSysGlobalInfo) (aggId : Int) (pId : Nat)
    (h : LaFindPortById sys.ports pId = none) :
    DeleteLaAggPortFromAgg sys aggId pId = some sys := by
  unfold DeleteLaAggPortFromAgg
  rw [h]
  cases LaFindAggById sys.aggs aggId <;> rfl

theorem DeleteLaAggPort_of_not_found (sys : LacpSysGlobalInfo) (pId : Nat)
    (h : LaFindPortById sys.ports pId = none) : DeleteLaAggPort sys pId = sys := by
  unfold DeleteLaAggPort
  rw [h]

theorem DisableLaAggPort_of_not_found (sys : LacpSysGlobalInfo) (pId : Nat)
    (h : LaFindPortById sys.ports pId = none) : DisableLaAggPort sys pId = sys := by
  unfold DisableLaAggPort
  rw [h]

theorem EnableLaAggPort_of_not_found (m : LaAggPortMethods) (sys : LacpSysGlobalInfo) (pId : Nat)
    (h : LaFindPortById sys.ports pId = none) : EnableLaAggPort m sys pId = sys := by
  unfold EnableLaAggPort
  rw [h]

theorem SetLaAggPortLacpMode_of_not_found (m : LaAggPortMethods) (sys : LacpSysGlobalInfo)
    (pId : Nat) (mode : LacpMode) (timeout : Int)
    (h : LaFindPortById sys.ports pId = none) :
    SetLaAggPortLacpMode m sys pId mode timeout = sys := by
  unfold SetLaAggPortLacpMode
  rw [h]

theorem AddLaAggPortToAgg_of_not_found (sys : LacpSysGlobalInfo) (aggId : Int) (pId : Nat)
    (h : LaFindPortById sys.ports pId = none) : AddLaAggPortToAgg sys aggId pId = sys := by
  unfold AddLaAggPortToAgg
  rw [h]
  cases LaFindAggById sys.aggs aggId <;> rfl

/-- With an empty port registry the loop of DeleteLaAgg changes nothing. -/
theorem DeleteLaAggLoop_no_ports (Id : Int) (ai : Nat) (a : LaAggregator)
    (sys : LacpSysGlobalInfo) (hp : sys.ports = []) (ha : sys.aggs[ai]? = some a) :
    ∀ n k, k + n ≤ a.PortNumList.arr.length → DeleteLaAggLoop Id ai n k sys = some sys := by
  intro n
  induction n with
  | zero => intro k _; rfl
  | succ n ih =>
    intro k hk
    have hfind : ∀ pId, LaFindPortById sys.ports pId = none := by
      intro pId
      rw [hp]
      rfl
    have hk2 : k < a.PortNumList.arr.length := by omega
    simp only [DeleteLaAggLoop, ha, List.getElem?_eq_getElem hk2,
      DeleteLaAggPortFromAgg_of_not_found sys Id _ (hfind _),
      DeleteLaAggPort_of_not_found sys _ (hfind _)]
    exact ih (k + 1) (by omega)

/-! ## Configuration: the claims C11 to C17 -/

/-- C11 (create, then DeleteLaAgg of config.go): for every aggregator
configuration, creating the aggregator in a freshly initialised system and then
calling DeleteLaAgg with its id returns with the aggregator still in the
registry: its id and key are zeroed and its ready flag cleared, but it is not
removed, and its PortNumList still holds the configured members. The aggregator
registry is not empty. -/
theorem DeleteLaAgg_after_create_keeps_aggregator (ac : LaAggConfig) :
    DeleteLaAgg (NewLaAggregator LacpSysGlobalInfoInit ac).2 ac.Id =
      some { aggs := [{ aggId := 0, aggName := ac.Name, actorAdminKey := 0,
                        partnerSystemId := [0, 0, 0, 0, 0, 0], ready := false,
                        PortNumList := GoSlice.ofList ac.LagMembers }]
             ports := [] } ∧
    ∀ sys, DeleteLaAgg (NewLaAggregator LacpSysGlobalInfoInit ac).2 ac.Id = some sys →
      sys.aggs ≠ [] := by
  have hnew : (NewLaAggregator LacpSysGlobalInfoInit ac).2 =
      { aggs := [{ aggId := ac.Id, aggName := ac.Name, actorAdminKey := ac.Key,
                   partnerSystemId := [0, 0, 0, 0, 0, 0], ready := true,
                   PortNumList := GoSlice.ofList ac.LagMembers }]
        ports := [] } := by
    simp [NewLaAggregator, LacpSysGlobalInfoInit, LaFindAggById, LaFindAggByName, LaFindAggByKey]
  have hdel : DeleteLaAgg (NewLaAggregator LacpSysGlobalInfoInit ac).2 ac.Id =
      some { aggs := [{ aggId := 0, aggName := ac.Name, actorAdminKey := 0,
                        partnerSystemId := [0, 0, 0, 0, 0, 0], ready := false,
                        PortNumList := GoSlice.ofList ac.LagMembers }]
             ports := [] } := by
    rw [hnew]
    have hfind : LaFindAggById
        [({ aggId := ac.Id, aggName := ac.Name, actorAdminKey := ac.Key,
            partnerSystemId := [0, 0, 0, 0, 0, 0], ready := true,
            PortNumList := GoSlice.ofList ac.LagMembers } : LaAggregator)] ac.Id = some 0 := by
      simp [LaFindAggById]
    have hloop := DeleteLaAggLoop_no_ports ac.Id 0
      { aggId := ac.Id, aggName := ac.Name, actorAdminKey := ac.Key,
        partnerSystemId := [0, 0, 0, 0, 0, 0], ready := true,
        PortNumList := GoSlice.ofList ac.LagMembers }
      { aggs := [{ aggId := ac.Id, aggName := ac.Name, actorAdminKey := ac.Key,
                   partnerSystemId := [0, 0, 0, 0, 0, 0], ready := true,
                   PortNumList := GoSlice.ofList ac.LagMembers }]
        ports := [] } rfl rfl (GoSlice.ofList ac.LagMembers).len 0
      (by simp [GoSlice.ofList])
    simp only [DeleteLaAgg, hfind, List.getElem?_cons_zero, hloop]
    simp [updateAggAt]
  refine ⟨hdel, ?_⟩
  intro sys hsys
  rw [hdel] at hsys
  cases hsys
  simp


/-- C12: a call of NewLaAggregator with a configuration whose id, name or key is
already held by an aggregator of the registry returns nil and leaves the
registries as they were. -/
theorem NewLaAggregator_duplicate_rejected (sys : LacpSysGlobalInfo) (ac : LaAggConfig)
    (h : ∃ a ∈ sys.aggs, a.aggId = ac.Id ∨ a.aggName = ac.Name ∨ a.actorAdminKey = ac.Key) :
    (NewLaAggregator sys ac).1 = none ∧ (NewLaAggregator sys ac).2 = sys := by
  obtain ⟨a, ha, hdup⟩ := h
  have hcond : (LaFindAggById sys.aggs ac.Id).isSome ∨ (LaFindAggByName sys.aggs ac.Name).isSome ∨
      (LaFindAggByKey sys.aggs ac.Key).isSome := by
    unfold LaFindAggById LaFindAggByName LaFindAggByKey
    simp only [List.findIdx?_isSome, List.any_eq_true]
    rcases hdup with h1 | h1 | h1
    · exact Or.inl ⟨a, ha, by simp [h1]⟩
    · exact Or.inr (Or.inl ⟨a, ha, by simp [h1]⟩)
    · exact Or.inr (Or.inr ⟨a, ha, by simp [h1]⟩)
  unfold NewLaAggregator
  rw [if_pos hcond]
  exact ⟨rfl, rfl⟩

/-- Witness for C12: the scenario of TestDuplicateAdd, the same configuration
created twice in a freshly initialised system. -/
theorem NewLaAggregator_duplicate_rejected_witness :
    (∃ a ∈ (NewLaAggregator LacpSysGlobalInfoInit testAggConfig).2.aggs,
      a.aggId = testAggConfig.Id ∨ a.aggName = testAggConfig.Name ∨
        a.actorAdminKey = testAggConfig.Key) ∧
    ((NewLaAggregator (NewLaAggregator LacpSysGlobalInfoInit testAggConfig).2 testAggConfig).1
        = none ∧
     (NewLaAggregator (NewLaAggregator LacpSysGlobalInfoInit testAggConfig).2 testAggConfig).2
        = (NewLaAggregator LacpSysGlobalInfoInit testAggConfig).2) :=
  have h : ∃ a ∈ (NewLaAggregator LacpSysGlobalInfoInit testAggConfig).2.aggs,
      a.aggId = testAggConfig.Id ∨ a.aggName = testAggConfig.Name ∨
        a.actorAdminKey = testAggConfig.Key :=
    ⟨{ aggId := 2000, aggName := "agg2000", actorAdminKey := 50,
       partnerSystemId := [0, 0, 0, 0, 0, 0], ready := true,
       PortNumList := GoSlice.ofList [] }, by decide, Or.inl rfl⟩
  ⟨h, NewLaAggregator_duplicate_rejected _ testAggConfig h⟩

theorem findIdx?_append_singleton_fresh {α : Type} (l : List α) (a : α) (p : α → Bool)
    (h : l.findIdx? p = none) :
    (l ++ [a]).findIdx? p = if p a then some l.length else none := by
  rw [List.findIdx?_append, h]
  by_cases hp : p a = true <;> simp [hp]

/-- C13: in a registry that holds no aggregator with the id, the name or the key
of a configuration (each lookup is false before creation), NewLaAggregator
returns the new aggregator and from then on LaFindAggById, LaFindAggByName and
LaFindAggByKey find it by its id, name and key; every other id, name or key that
was not found before is still not found; and once the aggregator has been deleted
the three lookups are false again. -/
theorem registry_lookups_follow_existence (sys : LacpSysGlobalInfo) (ac : LaAggConfig)
    (hId : LaFindAggById sys.aggs ac.Id = none)
    (hName : LaFindAggByName sys.aggs ac.Name = none)
    (hKey : LaFindAggByKey sys.aggs ac.Key = none) :
    (NewLaAggregator sys ac).1 = some sys.aggs.length ∧
    (LaFindAggById (NewLaAggregator sys ac).2.aggs ac.Id = some sys.aggs.length ∧
     LaFindAggByName (NewLaAggregator sys ac).2.aggs ac.Name = some sys.aggs.length ∧
     LaFindAggByKey (NewLaAggregator sys ac).2.aggs ac.Key = some sys.aggs.length) ∧
    ((∀ id, id ≠ ac.Id → LaFindAggById sys.aggs id = none →
        LaFindAggById (NewLaAggregator sys ac).2.aggs id = none) ∧
     (∀ name, name ≠ ac.Name → LaFindAggByName sys.aggs name = none →
        LaFindAggByName (NewLaAggregator sys ac).2.aggs name = none) ∧
     (∀ key, key ≠ ac.Key → LaFindAggByKey sys.aggs key = none →
        LaFindAggByKey (NewLaAggregator sys ac).2.aggs key = none)) ∧
    (LaFindAggById (LaAggregator.DeleteLaAgg (NewLaAggregator sys ac).2 sys.aggs.length).aggs
        ac.Id = none ∧
     LaFindAggByName (LaAggregator.DeleteLaAgg (NewLaAggregator sys ac).2 sys.aggs.length).aggs
        ac.Name = none ∧
     LaFindAggByKey (LaAggregator.DeleteLaAgg (NewLaAggregator sys ac).2 sys.aggs.length).aggs
        ac.Key = none) := by
  have hnew : NewLaAggregator sys ac = (some sys.aggs.length,
      { sys with aggs := sys.aggs ++
        [{ aggId := ac.Id, aggName := ac.Name, actorAdminKey := ac.Key,
           partnerSystemId := [0, 0, 0, 0, 0, 0], ready := true,
           PortNumList := GoSlice.ofList ac.LagMembers }] }) := by
    unfold NewLaAggregator
    rw [hId, hName, hKey]
    simp
  rw [hnew]
  have hdel : (LaAggregator.DeleteLaAgg
      { sys with aggs := sys.aggs ++
        [({ aggId := ac.Id, aggName := ac.Name, actorAdminKey := ac.Key,
            partnerSystemId := [0, 0, 0, 0, 0, 0], ready := true,
            PortNumList := GoSlice.ofList ac.LagMembers } : LaAggregator)] }
      sys.aggs.length).aggs = sys.aggs := by
    simp [LaAggregator.DeleteLaAgg, List.eraseIdx_append_of_length_le]
  refine ⟨rfl, ⟨?_, ?_, ?_⟩, ⟨?_, ?_, ?_⟩, ⟨?_, ?_, ?_⟩⟩
  · unfold LaFindAggById at hId ⊢
    rw [findIdx?_append_singleton_fresh _ _ _ hId]
    simp
  · unfold LaFindAggByName at hName ⊢
    rw [findIdx?_append_singleton_fresh _ _ _ hName]
    simp
  · unfold LaFindAggByKey at hKey ⊢
    rw [findIdx?_append_singleton_fresh _ _ _ hKey]
    simp
  · intro id hne h
    unfold LaFindAggById at h ⊢
    rw [findIdx?_append_singleton_fresh _ _ _ h]
    simp [Ne.symm hne]
  · intro name hne h
    unfold LaFindAggByName at h ⊢
    rw [findIdx?_append_singleton_fresh _ _ _ h]
    simp [Ne.symm hne]
  · intro key hne h
    unfold LaFindAggByKey at h ⊢
    rw [findIdx?_append_singleton_fresh _ _ _ h]
    simp [Ne.symm hne]
  · rw [hdel]; exact hId
  · rw [hdel]; exact hName
  · rw [hdel]; exact hKey


/-- Witness for C13: the freshly initialised system and the configuration of the
tests (agg2000, id 2000, key 50). -/
theorem registry_lookups_follow_existence_witness :
    (LaFindAggById LacpSysGlobalInfoInit.aggs testAggConfig.Id = none ∧
     LaFindAggByName LacpSysGlobalInfoInit.aggs testAggConfig.Name = none ∧
     LaFindAggByKey LacpSysGlobalInfoInit.aggs testAggConfig.Key = none) ∧
    ((NewLaAggregator LacpSysGlobalInfoInit testAggConfig).1 = some 0 ∧
    (LaFindAggById (NewLaAggregator LacpSysGlobalInfoInit testAggConfig).2.aggs 2000 = some 0 ∧
     LaFindAggByName (NewLaAggregator LacpSysGlobalInfoInit testAggConfig).2.aggs "agg2000"
        = some 0 ∧
     LaFindAggByKey (NewLaAggregator LacpSysGlobalInfoInit testAggConfig).2.aggs 50 = some 0) ∧
    ((∀ id, id ≠ testAggConfig.Id → LaFindAggById LacpSysGlobalInfoInit.aggs id = none →
        LaFindAggById (NewLaAggregator LacpSysGlobalInfoInit testAggConfig).2.aggs id = none) ∧
     (∀ name, name ≠ testAggConfig.Name → LaFindAggByName LacpSysGlobalInfoInit.aggs name = none →
        LaFindAggByName (NewLaAggregator LacpSysGlobalInfoInit testAggConfig).2.aggs name = none) ∧
     (∀ key, key ≠ testAggConfig.Key → LaFindAggByKey LacpSysGlobalInfoInit.aggs key = none →
        LaFindAggByKey (NewLaAggregator LacpSysGlobalInfoInit testAggConfig).2.aggs key = none)) ∧
    (LaFindAggById (LaAggregator.DeleteLaAgg
        (NewLaAggregator LacpSysGlobalInfoInit testAggConfig).2 0).aggs 2000 = none ∧
     LaFindAggByName (LaAggregator.DeleteLaAgg
        (NewLaAggregator LacpSysGlobalInfoInit testAggConfig).2 0).aggs "agg2000" = none ∧
     LaFindAggByKey (LaAggregator.DeleteLaAgg
        (NewLaAggregator LacpSysGlobalInfoInit testAggConfig).2 0).aggs 50 = none)) :=
  ⟨⟨rfl, rfl, rfl⟩,
   registry_lookups_follow_existence LacpSysGlobalInfoInit testAggConfig rfl rfl rfl⟩

/-- C14 (DeleteLaAggPortFromAgg leaves the back-reference behind): oneMemberSystem
satisfies the membership back-reference invariant; DeleteLaAggPortFromAgg(1, 1)
takes port 1 out of the PortNumList of aggregator 1 but leaves p.AggId = 1, so
the invariant does not hold afterwards. -/
theorem DeleteLaAggPortFromAgg_breaks_back_reference :
    BackReferenceInvariant oneMemberSystem ∧
    (DeleteLaAggPortFromAgg oneMemberSystem 1 1).map
        (fun sys => (sys.aggs.map (fun a => (a.aggId, a.PortNumList.toList)),
                     sys.ports.map (fun p => (p.portNum, p.AggId))))
      = some ([(1, [])], [(1, 1)]) ∧
    ∀ sys, DeleteLaAggPortFromAgg oneMemberSystem 1 1 = some sys →
      ¬ BackReferenceInvariant sys := by
  refine ⟨by decide, by decide, ?_⟩
  intro sys h
  have h2 : (DeleteLaAggPortFromAgg oneMemberSystem 1 1).map
      (fun sys => decide (BackReferenceInvariant sys)) = some false := by decide
  rw [h] at h2
  simpa using h2

/-- C15: for every port that exists and is still listed in the PortNumList of the
aggregator p.AggId, DeleteLaAggPort returns without any change: the port registry
(so the port and its state) and every aggregator (so the PortNumList) are as
before. -/
theorem DeleteLaAggPort_attached_unchanged (sys : LacpSysGlobalInfo) (pId pi : Nat)
    (p : LaAggPort) (hfind : LaFindPortById sys.ports pId = some pi)
    (hp : sys.ports[pi]? = some p)
    (hlisted : LaAggPortNumListPortIdExist sys.aggs p.AggId pId = true) :
    DeleteLaAggPort sys pId = sys := by
  unfold DeleteLaAggPort
  rw [hfind]
  simp only [hp, hlisted, if_true]

/-- Witness for C15: port 1 of threeMemberSystem, listed in aggregator 1. -/
theorem DeleteLaAggPort_attached_unchanged_witness :
    (LaFindPortById threeMemberSystem.ports 1 = some 0 ∧
     threeMemberSystem.ports[0]? = some (selectedPort 1) ∧
     LaAggPortNumListPortIdExist threeMemberSystem.aggs (selectedPort 1).AggId 1 = true) ∧
    DeleteLaAggPort threeMemberSystem 1 = threeMemberSystem :=
  ⟨⟨by decide, by decide, by decide⟩,
   DeleteLaAggPort_attached_unchanged threeMemberSystem 1 0 (selectedPort 1)
     (by decide) (by decide) (by decide)⟩

/-- C16: for every port configuration whose Id is the number of a port of the
registry, CreateLaAggPort returns the registries as they were: the port registry,
the existing port and every aggregator are unchanged, whatever the port methods
do. -/
theorem CreateLaAggPort_duplicate_unchanged (m : LaAggPortMethods) (sys : LacpSysGlobalInfo)
    (port : LaAggPortConfig) (h : ∃ p ∈ sys.ports, p.portNum = port.Id) :
    CreateLaAggPort m sys port = sys := by
  have hsome : (LaFindPortById sys.ports port.Id).isSome = true := by
    unfold LaFindPortById
    rw [List.findIdx?_isSome, List.any_eq_true]
    obtain ⟨p, hp, hpn⟩ := h
    exact ⟨p, hp, by simp [hpn]⟩
  unfold CreateLaAggPort
  cases hf : LaFindPortById sys.ports port.Id with
  | none => rw [hf] at hsome; cases hsome
  | some i => rfl

/-- Witness for C16: a configuration for port 1 in threeMemberSystem. -/
theorem CreateLaAggPort_duplicate_unchanged_witness :
    (∃ p ∈ threeMemberSystem.ports, p.portNum = (testPortConfig 1).Id) ∧
    CreateLaAggPort idleMethods threeMemberSystem (testPortConfig 1) = threeMemberSystem :=
  have h : ∃ p ∈ threeMemberSystem.ports, p.portNum = (testPortConfig 1).Id :=
    ⟨selectedPort 1, by decide, rfl⟩
  ⟨h, CreateLaAggPort_duplicate_unchanged idleMethods threeMemberSystem (testPortConfig 1) h⟩

/-- C17: for every port number that no port of the registry has, DeleteLaAggPort,
DisableLaAggPort, EnableLaAggPort, SetLaAggPortLacpMode, AddLaAggPortToAgg and
DeleteLaAggPortFromAgg return the registries as they were (all port and
aggregator state unchanged, for every aggregator id, mode and timeout and
whatever the port methods do), and GetLaAggPortActorOperState and
GetLaAggPortPartnerOperState return 0. -/
theorem unknown_port_unchanged (m : LaAggPortMethods) (sys : LacpSysGlobalInfo) (pId : Nat)
    (aggId : Int) (mode : LacpMode) (timeout : Int)
    (h : ∀ p ∈ sys.ports, p.portNum ≠ pId) :
    DeleteLaAggPort sys pId = sys ∧
    DisableLaAggPort sys pId = sys ∧
    EnableLaAggPort m sys pId = sys ∧
    SetLaAggPortLacpMode m sys pId mode timeout = sys ∧
    AddLaAggPortToAgg sys aggId pId = sys ∧
    DeleteLaAggPortFromAgg sys aggId pId = some sys ∧
    GetLaAggPortActorOperState sys pId = 0 ∧
    GetLaAggPortPartnerOperState sys pId = 0 := by
  have hnone := (LaFindPortById_eq_none_iff sys.ports pId).mpr h
  refine ⟨DeleteLaAggPort_of_not_found sys pId hnone,
    DisableLaAggPort_of_not_found sys pId hnone,
    EnableLaAggPort_of_not_found m sys pId hnone,
    SetLaAggPortLacpMode_of_not_found m sys pId mode timeout hnone,
    AddLaAggPortToAgg_of_not_found sys aggId pId hnone,
    DeleteLaAggPortFromAgg_of_not_found sys aggId pId hnone, ?_, ?_⟩
  · unfold GetLaAggPortActorOperState
    rw [hnone]
  · unfold GetLaAggPortPartnerOperState
    rw [hnone]

/-- Witness for C17: port number 9 in threeMemberSystem, whose ports are 1, 2, 3. -/
theorem unknown_port_unchanged_witness :
    (∀ p ∈ threeMemberSystem.ports, p.portNum ≠ 9) ∧
    (DeleteLaAggPort threeMemberSystem 9 = threeMemberSystem ∧
     DisableLaAggPort threeMemberSystem 9 = threeMemberSystem ∧
     EnableLaAggPort idleMethods threeMemberSystem 9 = threeMemberSystem ∧
     SetLaAggPortLacpMode idleMethods threeMemberSystem 9 LacpModeActive LacpShortTimeoutTime
        = threeMemberSystem ∧
     AddLaAggPortToAgg threeMemberSystem 1 9 = threeMemberSystem ∧
     DeleteLaAggPortFromAgg threeMemberSystem 1 9 = some threeMemberSystem ∧
     GetLaAggPortActorOperState threeMemberSystem 9 = 0 ∧
     GetLaAggPortPartnerOperState threeMemberSystem 9 = 0) :=
  ⟨by decide,
   unknown_port_unchanged idleMethods threeMemberSystem 9 1 LacpModeActive LacpShortTimeoutTime
     (by decide)⟩


/-! ## Configuration: the claims C18 and C19 -/

/-- C18: after the mode and timeout step of CreateLaAggPort, whatever state
NewLaAggPort gave the new port, the Aggregation bit of actorAdmin.state is set if
and only if Mode is not ON, the Activity bit if and only if Mode is ACTIVE, the
Timeout bit if and only if Timeout is the short timeout, and lacpEnabled is true
if and only if Mode is not ON. -/
theorem CreateLaAggPortModeStep_admin_state (port : LaAggPortConfig) (p : LaAggPort) :
    (LacpStateIsSet (CreateLaAggPortModeStep port p).actorAdmin.state LacpStateAggregationBit
        = true ↔ port.Mode ≠ LacpModeOn) ∧
    (LacpStateIsSet (CreateLaAggPortModeStep port p).actorAdmin.state LacpStateActivityBit
        = true ↔ port.Mode = LacpModeActive) ∧
    (LacpStateIsSet (CreateLaAggPortModeStep port p).actorAdmin.state LacpStateTimeoutBit
        = true ↔ port.Timeout = LacpShortTimeoutTime) ∧
    ((CreateLaAggPortModeStep port p).lacpEnabled = true ↔ port.Mode ≠ LacpModeOn) := by
  unfold CreateLaAggPortModeStep
  by_cases ht : port.Timeout = LacpShortTimeoutTime <;> cases hm : port.Mode <;>
    simp only [ht, LaAggPort.actorAdminSet, LaAggPort.actorAdminClear,
      LacpStateIsSet_ActivityBit, LacpStateIsSet_TimeoutBit, LacpStateIsSet_AggregationBit,
      LacpStateActivityBit_testBit, LacpStateTimeoutBit_testBit, LacpStateAggregationBit_testBit,
      LacpStateSet_testBit, LacpStateClear_testBit, if_true, if_false, ne_eq, not_true_eq_false,
      not_false_eq_true, reduceCtorEq] <;>
    simp


theorem SetLaAggPortLacpMode_same_mode (m : LaAggPortMethods) (sys : LacpSysGlobalInfo)
    (pId pi : Nat) (p : LaAggPort) (timeout : Int)
    (hfind : LaFindPortById sys.ports pId = some pi) (hp : sys.ports[pi]? = some p) :
    SetLaAggPortLacpMode m sys pId (LacpModeGet p.actorOper.state p.lacpEnabled) timeout =
      { sys with ports := sys.ports.set pi (SetLaAggPortLacpModeTimeout p timeout) } := by
  unfold SetLaAggPortLacpMode
  rw [hfind]
  simp [hp]

theorem SetLaAggPortLacpModeTimeout_bits (p : LaAggPort)
    (hagree : LacpStateIsSet p.actorAdmin.state LacpStateTimeoutBit = true →
      LacpStateIsSet p.actorOper.state LacpStateTimeoutBit = true) :
    (LacpStateIsSet (SetLaAggPortLacpModeTimeout p LacpShortTimeoutTime).actorAdmin.state
        LacpStateTimeoutBit = true ∧
     LacpStateIsSet (SetLaAggPortLacpModeTimeout p LacpShortTimeoutTime).actorOper.state
        LacpStateTimeoutBit = true) ∧
    (LacpStateIsSet (SetLaAggPortLacpModeTimeout p LacpLongTimeoutTime).actorAdmin.state
        LacpStateTimeoutBit = false ∧
     LacpStateIsSet (SetLaAggPortLacpModeTimeout p LacpLongTimeoutTime).actorOper.state
        LacpStateTimeoutBit = false) ∧
    SetLaAggPortLacpModeTimeout p 0 = p := by
  have hs0 : LacpShortTimeoutTime ≠ 0 := by decide
  have hl0 : LacpLongTimeoutTime ≠ 0 := by decide
  have hsl : LacpShortTimeoutTime ≠ LacpLongTimeoutTime := by decide
  have hls : LacpLongTimeoutTime ≠ LacpShortTimeoutTime := by decide
  unfold SetLaAggPortLacpModeTimeout
  cases ha : LacpStateIsSet p.actorAdmin.state LacpStateTimeoutBit <;>
    cases ho : LacpStateIsSet p.actorOper.state LacpStateTimeoutBit <;>
    simp only [ha, ho, hs0, hl0, hsl, hls, ne_eq, not_false_eq_true, not_true_eq_false,
      if_true, if_false, and_true, and_false, true_and, false_and, Bool.false_eq_true,
      LaAggPort.actorAdminSet, LaAggPort.actorAdminClear, LaAggPort.actorOperSet,
      LaAggPort.actorOperClear, LacpStateIsSet_TimeoutBit, LacpStateTimeoutBit_testBit,
      LacpStateSet_testBit, LacpStateClear_testBit] <;>
    simp_all [LacpStateIsSet_TimeoutBit]


/-- C19 as stated fails: timeoutMismatchPort is in mode ON (its current mode), its
Timeout bit is set in actorAdmin.state and clear in actorOper.state; after
SetLaAggPortLacpMode(1, ON, SHORT) the Timeout bit of actorOper.state is still
clear, and after SetLaAggPortLacpMode(1, ON, LONG) the Timeout bit of
actorAdmin.state is still set. -/
theorem SetLaAggPortLacpMode_timeout_mismatch_counterexample :
    LaFindPortById [timeoutMismatchPort] 1 = some 0 ∧
    LacpModeGet timeoutMismatchPort.actorOper.state timeoutMismatchPort.lacpEnabled
      = LacpModeOn ∧
    (SetLaAggPortLacpMode idleMethods { aggs := [], ports := [timeoutMismatchPort] } 1
        LacpModeOn LacpShortTimeoutTime).ports.map
      (fun p => LacpStateIsSet p.actorOper.state LacpStateTimeoutBit) = [false] ∧
    (SetLaAggPortLacpMode idleMethods { aggs := [], ports := [timeoutMismatchPort] } 1
        LacpModeOn LacpLongTimeoutTime).ports.map
      (fun p => LacpStateIsSet p.actorAdmin.state LacpStateTimeoutBit) = [true] := by
  decide

/-- C19 (amended): for every existing port whose actorOper.state has the Timeout
bit set whenever its actorAdmin.state has it, and mode equal to the current mode
of the port, after SetLaAggPortLacpMode(p, mode, SHORT) the Timeout bit is set in
both actorAdmin.state and actorOper.state, after SetLaAggPortLacpMode(p, mode,
LONG) it is clear in both, and with timeout 0 nothing changes (so both Timeout
bits are unchanged), whatever the port methods do. -/
theorem SetLaAggPortLacpMode_timeout_when_bits_agree (m : LaAggPortMethods)
    (sys : LacpSysGlobalInfo) (pId pi : Nat) (p : LaAggPort)
    (hfind : LaFindPortById sys.ports pId = some pi) (hp : sys.ports[pi]? = some p)
    (hagree : LacpStateIsSet p.actorAdmin.state LacpStateTimeoutBit = true →
      LacpStateIsSet p.actorOper.state LacpStateTimeoutBit = true) :
    (∃ q, (SetLaAggPortLacpMode m sys pId (LacpModeGet p.actorOper.state p.lacpEnabled)
          LacpShortTimeoutTime).ports[pi]? = some q ∧
        LacpStateIsSet q.actorAdmin.state LacpStateTimeoutBit = true ∧
        LacpStateIsSet q.actorOper.state LacpStateTimeoutBit = true) ∧
    (∃ q, (SetLaAggPortLacpMode m sys pId (LacpModeGet p.actorOper.state p.lacpEnabled)
          LacpLongTimeoutTime).ports[pi]? = some q ∧
        LacpStateIsSet q.actorAdmin.state LacpStateTimeoutBit = false ∧
        LacpStateIsSet q.actorOper.state LacpStateTimeoutBit = false) ∧
    SetLaAggPortLacpMode m sys pId (LacpModeGet p.actorOper.state p.lacpEnabled) 0 = sys := by
  have hlt : pi < sys.ports.length := by
    rcases Nat.lt_or_ge pi sys.ports.length with h | h
    · exact h
    · rw [List.getElem?_eq_none h] at hp
      cases hp
  have hbits := SetLaAggPortLacpModeTimeout_bits p hagree
  refine ⟨⟨SetLaAggPortLacpModeTimeout p LacpShortTimeoutTime, ?_, hbits.1.1, hbits.1.2⟩,
    ⟨SetLaAggPortLacpModeTimeout p LacpLongTimeoutTime, ?_, hbits.2.1.1, hbits.2.1.2⟩, ?_⟩
  · rw [SetLaAggPortLacpMode_same_mode m sys pId pi p _ hfind hp]
    exact List.getElem?_set_self hlt
  · rw [SetLaAggPortLacpMode_same_mode m sys pId pi p _ hfind hp]
    exact List.getElem?_set_self hlt
  · rw [SetLaAggPortLacpMode_same_mode m sys pId pi p _ hfind hp, hbits.2.2]
    have hset : sys.ports.set pi p = sys.ports := by
      apply List.ext_getElem?
      intro i
      by_cases hi : i = pi
      · subst hi
        rw [List.getElem?_set_self hlt, hp]
      · rw [List.getElem?_set_ne (Ne.symm hi)]
    rw [hset]

/-- Witness for C19 (amended): port 1 of threeMemberSystem, whose Timeout bit is
clear in both state bytes; its current mode is PASSIVE. -/
theorem SetLaAggPortLacpMode_timeout_when_bits_agree_witness :
    (LaFindPortById threeMemberSystem.ports 1 = some 0 ∧
     threeMemberSystem.ports[0]? = some (selectedPort 1) ∧
     (LacpStateIsSet (selectedPort 1).actorAdmin.state LacpStateTimeoutBit = true →
      LacpStateIsSet (selectedPort 1).actorOper.state LacpStateTimeoutBit = true)) ∧
    ((∃ q, (SetLaAggPortLacpMode idleMethods threeMemberSystem 1
          (LacpModeGet (selectedPort 1).actorOper.state (selectedPort 1).lacpEnabled)
          LacpShortTimeoutTime).ports[0]? = some q ∧
        LacpStateIsSet q.actorAdmin.state LacpStateTimeoutBit = true ∧
        LacpStateIsSet q.actorOper.state LacpStateTimeoutBit = true) ∧
    (∃ q, (SetLaAggPortLacpMode idleMethods threeMemberSystem 1
          (LacpModeGet (selectedPort 1).actorOper.state (selectedPort 1).lacpEnabled)
          LacpLongTimeoutTime).ports[0]? = some q ∧
        LacpStateIsSet q.actorAdmin.state LacpStateTimeoutBit = false ∧
        LacpStateIsSet q.actorOper.state LacpStateTimeoutBit = false) ∧
    SetLaAggPortLacpMode idleMethods threeMemberSystem 1
        (LacpModeGet (selectedPort 1).actorOper.state (selectedPort 1).lacpEnabled) 0
      = threeMemberSystem) :=
  ⟨⟨by decide, by decide, by decide⟩,
   SetLaAggPortLacpMode_timeout_when_bits_agree idleMethods threeMemberSystem 1 0
     (selectedPort 1) (by decide) (by decide) (by decide)⟩

/-! ## Mux machine: the claims C20 to C26 -/

/-- C20 (what the DETACHED entry actions do): for every machine LacpMuxmDetached
and the coupled LacpMuxmCDetached command the hardware to detach and to disable
collecting and distributing, send exactly one NTT event and return DETACHED, but
they leave the port as it is: the calls of LacpStateClear get the byte
actorOper.state by value and their results are not used. For the port whose byte
is 255 the byte is still 255 afterwards, with the Sync, Collecting and
Distributing bits set. -/
theorem LacpMuxmDetached_entry_action (muxm : LacpMuxMachine) :
    ((LacpMuxmDetached muxm).1.p = muxm.p ∧
     (LacpMuxmDetached muxm).1.effects = muxm.effects ++
        [MuxEffect.DetachMuxFromAggregator, MuxEffect.DisableDistributing,
         MuxEffect.DisableCollecting, MuxEffect.LacpTxmEventNtt] ∧
     ((LacpMuxmDetached muxm).1.effects.drop muxm.effects.length).count
        MuxEffect.LacpTxmEventNtt = 1 ∧
     (LacpMuxmDetached muxm).2 = LacpMuxmStateDetached) ∧
    ((LacpMuxmCDetached muxm).1.p = muxm.p ∧
     (LacpMuxmCDetached muxm).1.effects = muxm.effects ++
        [MuxEffect.DetachMuxFromAggregator, MuxEffect.DisableCollectingDistributing,
         MuxEffect.LacpTxmEventNtt] ∧
     ((LacpMuxmCDetached muxm).1.effects.drop muxm.effects.length).count
        MuxEffect.LacpTxmEventNtt = 1 ∧
     (LacpMuxmCDetached muxm).2 = LacpMuxmStateDetached) ∧
    ((LacpMuxmDetached (LacpMuxMachineFSMBuild allBitsPort [])).1.p.actorOper.state = 255 ∧
     LacpStateIsSet (LacpMuxmDetached (LacpMuxMachineFSMBuild allBitsPort [])).1.p.actorOper.state
        LacpStateSyncBit = true ∧
     LacpStateIsSet (LacpMuxmDetached (LacpMuxMachineFSMBuild allBitsPort [])).1.p.actorOper.state
        LacpStateCollectingBit = true ∧
     LacpStateIsSet (LacpMuxmDetached (LacpMuxMachineFSMBuild allBitsPort [])).1.p.actorOper.state
        LacpStateDistributingBit = true) ∧
    ((LacpMuxmCDetached (LacpMuxMachineFSMBuild allBitsPort [])).1.p.actorOper.state = 255 ∧
     LacpStateIsSet (LacpMuxmCDetached (LacpMuxMachineFSMBuild allBitsPort [])).1.p.actorOper.state
        LacpStateSyncBit = true ∧
     LacpStateIsSet (LacpMuxmCDetached (LacpMuxMachineFSMBuild allBitsPort [])).1.p.actorOper.state
        LacpStateCollectingBit = true ∧
     LacpStateIsSet (LacpMuxmCDetached (LacpMuxMachineFSMBuild allBitsPort [])).1.p.actorOper.state
        LacpStateDistributingBit = true) := by
  have he1 : (LacpMuxmDetached muxm).1.effects = muxm.effects ++
      [MuxEffect.DetachMuxFromAggregator, MuxEffect.DisableDistributing,
       MuxEffect.DisableCollecting, MuxEffect.LacpTxmEventNtt] := by
    simp [LacpMuxmDetached, LacpMuxMachine.emit, LacpMuxMachine.actorOperClear]
  have he2 : (LacpMuxmCDetached muxm).1.effects = muxm.effects ++
      [MuxEffect.DetachMuxFromAggregator, MuxEffect.DisableCollectingDistributing,
       MuxEffect.LacpTxmEventNtt] := by
    simp [LacpMuxmCDetached, LacpMuxMachine.emit, LacpMuxMachine.actorOperClear]
  refine ⟨⟨rfl, he1, ?_, rfl⟩, ⟨rfl, he2, ?_, rfl⟩, by decide, by decide⟩
  · rw [he1, List.drop_left]
    decide
  · rw [he2, List.drop_left]
    decide

/-- C21 (what the coupled COLLECTING_DISTRIBUTING entry action does): for every
machine LacpMuxmCCollectingDistributing enables collecting-distributing in
hardware and sends one NTT event, but it leaves the port as it is: it calls
LacpStateSet twice with the Distributing bit, never with the Collecting bit, and
both calls get the byte actorOper.state by value and their results are not used.
For the port selectedPort 1, whose byte is 4, the byte is still 4 afterwards:
neither the Collecting bit nor the Distributing bit is set. -/
theorem LacpMuxmCCollectingDistributing_entry_action (muxm : LacpMuxMachine) :
    (LacpMuxmCCollectingDistributing muxm).1.p = muxm.p ∧
    (LacpMuxmCCollectingDistributing muxm).1.effects = muxm.effects ++
        [MuxEffect.EnableCollectingDistributing, MuxEffect.LacpTxmEventNtt] ∧
    (selectedPort 1).actorOper.state = 4 ∧
    (LacpMuxmCCollectingDistributing
        (LacpMuxMachineMain (selectedPort 1) [] true)).1.p.actorOper.state = 4 ∧
    LacpStateIsSet (LacpMuxmCCollectingDistributing
        (LacpMuxMachineMain (selectedPort 1) [] true)).1.p.actorOper.state
        LacpStateCollectingBit = false ∧
    LacpStateIsSet (LacpMuxmCCollectingDistributing
        (LacpMuxMachineMain (selectedPort 1) [] true)).1.p.actorOper.state
        LacpStateDistributingBit = false := by
  refine ⟨rfl, ?_, by decide, by decide, by decide, by decide⟩
  simp [LacpMuxmCCollectingDistributing, LacpMuxMachine.emit, LacpMuxMachine.actorOperSet]

/-- C22 (what the DISTRIBUTING entry action does): for every machine
LacpMuxmDistributing issues the one command to enable distributing and sends no
NTT event, but it leaves the port as it is: the call of LacpStateSet gets the
byte actorOper.state by value and its result is not used. For the port
selectedPort 1, whose byte is 4, the byte is still 4 afterwards and the
Distributing bit is not set. -/
theorem LacpMuxmDistributing_entry_action (muxm : LacpMuxMachine) :
    (LacpMuxmDistributing muxm).1.p = muxm.p ∧
    (LacpMuxmDistributing muxm).1.effects = muxm.effects ++ [MuxEffect.EnableDistributing] ∧
    MuxEffect.LacpTxmEventNtt ∉ (LacpMuxmDistributing muxm).1.effects.drop muxm.effects.length ∧
    (selectedPort 1).actorOper.state = 4 ∧
    (LacpMuxmDistributing
        (LacpMuxMachineMain (selectedPort 1) [] false)).1.p.actorOper.state = 4 ∧
    LacpStateIsSet (LacpMuxmDistributing
        (LacpMuxMachineMain (selectedPort 1) [] false)).1.p.actorOper.state
        LacpStateDistributingBit = false := by
  have he : (LacpMuxmDistributing muxm).1.effects
      = muxm.effects ++ [MuxEffect.EnableDistributing] := by
    simp [LacpMuxmDistributing, LacpMuxMachine.emit, LacpMuxMachine.actorOperSet]
  refine ⟨rfl, he, ?_, by decide, by decide, by decide⟩
  rw [he, List.drop_left]
  decide

theorem Ruleset_lookup_none_of_state (r : Ruleset) (s e : Nat)
    (h : ∀ x ∈ r, x.state ≠ s) : r.lookup s e = none := by
  unfold Ruleset.lookup
  have : r.find? (fun x => x.state == s && x.event == e) = none := by
    rw [List.find?_eq_none]
    intro x hx
    simp [h x hx]
  rw [this]
  rfl

theorem ProcessEvent_of_lookup_none (muxm : LacpMuxMachine) (e : Nat)
    (h : muxm.Rules.lookup muxm.Curr e = none) : muxm.ProcessEvent e = muxm := by
  unfold LacpMuxMachine.ProcessEvent
  rw [h]
  split <;> rfl

theorem ProcessEvent_CNone (muxm : LacpMuxMachine) (e : Nat)
    (hR : muxm.Rules = LacpMuxMachineFSMBuildRules) (hC : muxm.Curr = LacpMuxmStateCNone) :
    muxm.ProcessEvent e = muxm := by
  apply ProcessEvent_of_lookup_none
  rw [hR, hC]
  exact Ruleset_lookup_none_of_state _ _ _ (by decide)

/-- C23 (what the code does on the coupled-control path): started in
LacpMuxmStateCNone, the machine has no rule at all, since the coupled BEGIN rule
is registered for LacpMuxmStateNone; BEGIN, SelectedEqualSelected,
SelectedEqualSelectedAndReady and SelectedEqualSelectedAndPartnerSync are all
dropped, the machine stays in LacpMuxmStateCNone throughout and issues no effect;
it never reaches COLLECTING_DISTRIBUTING. -/
theorem mux_coupled_path_stays_in_cnone (p : LaAggPort) (aggs : List LaAggregator) :
    (LacpMuxMachineMain p aggs true).trace
        [LacpMuxmEventBegin, LacpMuxmEventSelectedEqualSelected,
         LacpMuxmEventSelectedEqualSelectedAndReady,
         LacpMuxmEventSelectedEqualSelectedAndPartnerSync]
      = [LacpMuxmStateCNone, LacpMuxmStateCNone, LacpMuxmStateCNone, LacpMuxmStateCNone] ∧
    (LacpMuxMachineMain p aggs true).ProcessEvents
        [LacpMuxmEventBegin, LacpMuxmEventSelectedEqualSelected,
         LacpMuxmEventSelectedEqualSelectedAndReady,
         LacpMuxmEventSelectedEqualSelectedAndPartnerSync]
      = LacpMuxMachineMain p aggs true ∧
    (LacpMuxMachineMain p aggs true).Curr = LacpMuxmStateCNone ∧
    LacpMuxmStateCNone ≠ LacpMuxStateCCollectingDistributing := by
  have hR := LacpMuxMachineMain_Rules p aggs true
  have hC : (LacpMuxMachineMain p aggs true).Curr = LacpMuxmStateCNone := rfl
  have hstep : ∀ e, (LacpMuxMachineMain p aggs true).ProcessEvent e
      = LacpMuxMachineMain p aggs true := fun e => ProcessEvent_CNone _ e hR hC
  refine ⟨?_, ?_, hC, by decide⟩
  · simp only [LacpMuxMachine.trace, hstep, hC]
  · simp only [LacpMuxMachine.ProcessEvents, List.foldl, hstep]

/-- C24 (what the code does with BEGIN): LacpMuxMachineFSMBuild registers a rule
for BEGIN in the initial pseudo-state LacpMuxmStateNone only; in each of the
twelve other states the ruleset has no rule for BEGIN, and a machine that runs
the ruleset in one of them is left as it is by BEGIN. The independent-control
machine that has processed BEGIN and SelectedEqualSelected is in WAITING, and a
further BEGIN leaves it in WAITING, not in DETACHED. From the initial
pseudo-state BEGIN does lead to DETACHED, yet the port is left as it is: for the
port whose byte actorOper.state is 255 the Sync, Collecting and Distributing
bits are still set. -/
theorem mux_begin_only_from_initial_state :
    (∀ s ∈ [LacpMuxmStateDetached, LacpMuxmStateWaiting, LacpMuxmStateAttached,
        LacpMuxmStateCollecting, LacpMuxmStateDistributing, LacpMuxmStateCNone,
        LacpMuxmStateCDetached, LacpMuxmStateCWaiting, LacpMuxmStateCAttached,
        LacpMuxmStateCCollecting, LacpMuxmStateCDistributing,
        LacpMuxStateCCollectingDistributing],
      LacpMuxMachineFSMBuildRules.lookup s LacpMuxmEventBegin = none) ∧
    (∀ muxm : LacpMuxMachine, muxm.Rules = LacpMuxMachineFSMBuildRules →
      muxm.Curr ∈ [LacpMuxmStateDetached, LacpMuxmStateWaiting, LacpMuxmStateAttached,
        LacpMuxmStateCollecting, LacpMuxmStateDistributing, LacpMuxmStateCNone,
        LacpMuxmStateCDetached, LacpMuxmStateCWaiting, LacpMuxmStateCAttached,
        LacpMuxmStateCCollecting, LacpMuxmStateCDistributing,
        LacpMuxStateCCollectingDistributing] →
      muxm.ProcessEvent LacpMuxmEventBegin = muxm) ∧
    (((LacpMuxMachineMain (selectedPort 1) [] false).ProcessEvents
        [LacpMuxmEventBegin, LacpMuxmEventSelectedEqualSelected]).Curr = LacpMuxmStateWaiting ∧
     ((LacpMuxMachineMain (selectedPort 1) [] false).ProcessEvents
        [LacpMuxmEventBegin, LacpMuxmEventSelectedEqualSelected, LacpMuxmEventBegin]).Curr
        = LacpMuxmStateWaiting ∧
     LacpMuxmStateWaiting ≠ LacpMuxmStateDetached) ∧
    (((LacpMuxMachineMain allBitsPort [] false).ProcessEvent LacpMuxmEventBegin).Curr
        = LacpMuxmStateDetached ∧
     ((LacpMuxMachineMain allBitsPort [] false).ProcessEvent
        LacpMuxmEventBegin).p.actorOper.state = 255 ∧
     LacpStateIsSet ((LacpMuxMachineMain allBitsPort [] false).ProcessEvent
        LacpMuxmEventBegin).p.actorOper.state LacpStateSyncBit = true ∧
     LacpStateIsSet ((LacpMuxMachineMain allBitsPort [] false).ProcessEvent
        LacpMuxmEventBegin).p.actorOper.state LacpStateCollectingBit = true ∧
     LacpStateIsSet ((LacpMuxMachineMain allBitsPort [] false).ProcessEvent
        LacpMuxmEventBegin).p.actorOper.state LacpStateDistributingBit = true) := by
  have h1 : ∀ s ∈ [LacpMuxmStateDetached, LacpMuxmStateWaiting, LacpMuxmStateAttached,
        LacpMuxmStateCollecting, LacpMuxmStateDistributing, LacpMuxmStateCNone,
        LacpMuxmStateCDetached, LacpMuxmStateCWaiting, LacpMuxmStateCAttached,
        LacpMuxmStateCCollecting, LacpMuxmStateCDistributing,
        LacpMuxStateCCollectingDistributing],
      LacpMuxMachineFSMBuildRules.lookup s LacpMuxmEventBegin = none := by decide
  refine ⟨h1, ?_, by decide, by decide⟩
  intro muxm hR hC
  exact ProcessEvent_of_lookup_none muxm _ (by rw [hR]; exact h1 _ hC)

/-- C25: for every machine that runs the ruleset built by LacpMuxMachineFSMBuild,
in whatever state, and every event for which the ruleset has no rule in that
state, processing the event leaves the machine as it was: the current state and
the actor operational state of the port are unchanged and no effect is issued, so
no NTT event is sent. -/
theorem mux_unknown_transition_dropped (muxm : LacpMuxMachine) (e : Nat)
    (hR : muxm.Rules = LacpMuxMachineFSMBuildRules)
    (h : LacpMuxMachineFSMBuildRules.lookup muxm.Curr e = none) :
    (muxm.ProcessEvent e).Curr = muxm.Curr ∧
    (muxm.ProcessEvent e).p.actorOper.state = muxm.p.actorOper.state ∧
    (muxm.ProcessEvent e).effects = muxm.effects ∧
    MuxEffect.LacpTxmEventNtt ∉ (muxm.ProcessEvent e).effects.drop muxm.effects.length ∧
    muxm.ProcessEvent e = muxm := by
  have hm : muxm.ProcessEvent e = muxm := ProcessEvent_of_lookup_none muxm e (by rw [hR]; exact h)
  rw [hm]
  simp

/-- Witness for C25: the machine in WAITING and the event
SelectedEqualSelectedAndPartnerSync, which has no rule there. -/
theorem mux_unknown_transition_dropped_witness :
    (({ LacpMuxMachineFSMBuild (selectedPort 1) [] with
          Curr := LacpMuxmStateWaiting } : LacpMuxMachine).Rules
        = LacpMuxMachineFSMBuildRules ∧
     LacpMuxMachineFSMBuildRules.lookup LacpMuxmStateWaiting
        LacpMuxmEventSelectedEqualSelectedAndPartnerSync = none) ∧
    (({ LacpMuxMachineFSMBuild (selectedPort 1) [] with
          Curr := LacpMuxmStateWaiting } : LacpMuxMachine).ProcessEvent
        LacpMuxmEventSelectedEqualSelectedAndPartnerSync).Curr = LacpMuxmStateWaiting :=
  ⟨⟨rfl, by decide⟩,
   (mux_unknown_transition_dropped
      { LacpMuxMachineFSMBuild (selectedPort 1) [] with Curr := LacpMuxmStateWaiting }
      LacpMuxmEventSelectedEqualSelectedAndPartnerSync rfl (by decide)).1⟩

/-- C26 as stated fails: for a port whose selection is STANDBY and whose readyN is
false, LacpMuxmWaitingEvaluateSelected sets readyN to true. -/
theorem LacpMuxmWaitingEvaluateSelected_standby_counterexample :
    ({ selectedPort 1 with aggSelected := LacpAggStandby } : LaAggPort).readyN = false ∧
    (LacpMuxmWaitingEvaluateSelected
      (LacpMuxMachineFSMBuild { selectedPort 1 with aggSelected := LacpAggStandby } [])).p.readyN
      = true := by
  decide

/-- C26 (amended): LacpMuxmWaitingEvaluateSelected sets readyN of the port to true
when the selection of the port is SELECTED or STANDBY, and leaves readyN
unchanged when the selection is UNSELECTED. -/
theorem LacpMuxmWaitingEvaluateSelected_readyN (muxm : LacpMuxMachine) :
    (LacpMuxmWaitingEvaluateSelected muxm).p.readyN =
      (if muxm.p.aggSelected = LacpAggSelected ∨ muxm.p.aggSelected = LacpAggStandby then true
       else muxm.p.readyN) := by
  unfold LacpMuxmWaitingEvaluateSelected
  split
  · dsimp only
    split <;> rfl
  · rfl

end Lacp

namespace Drcp

/-! ## Gateway assignment and digest: lemmas -/

/-- The bytes `uint8(cid >> 8 & 0xff)` and `uint8(cid & 0xff)` are the high byte
and the low byte of cid. -/
theorem cid_bytes (cid : Nat) :
    ((cid >>> 8) &&& 0xff) % 256 = cid / 256 % 256 ∧ (cid &&& 0xff) % 256 = cid % 256 := by
  constructor
  · rw [Nat.shiftRight_eq_div_pow]
    have h := Nat.and_pow_two_sub_one_eq_mod (cid / 2 ^ 8) 8
    simp at h ⊢
    omega
  · have h := Nat.and_pow_two_sub_one_eq_mod cid 8
    simp at h ⊢
    omega

/-- One iteration of the first loop, spelled out. -/
theorem setAdminConvGatewayStep_eq (m : Nat → ConvIdTypeValue) (st : GatewayDigestLoop)
    (cid : Nat) :
    (∀ c, (setAdminConvGatewayStep m st cid).dr.DrniConvAdminGateway c =
      if c = cid ∧ (m cid).valid = true then
        (if (m cid).cvlan % 2 = 0 then [2, 1, 0] else [1, 2, 0])
      else st.dr.DrniConvAdminGateway c) ∧
    (setAdminConvGatewayStep m st cid).ghash = st.ghash ++
      (if (m cid).valid = true then
        [(if (m cid).cvlan % 2 = 0 then [2, 1, 0] else [1, 2, 0]).getD 0 0,
          (if (m cid).cvlan % 2 = 0 then [2, 1, 0] else [1, 2, 0]).getD 1 0,
          cid / 256 % 256, cid % 256]
      else [cid / 256 % 256, cid % 256]) ∧
    (setAdminConvGatewayStep m st cid).dr.DrniNeighborAdminConvGatewayListDigest =
      st.dr.DrniNeighborAdminConvGatewayListDigest ∧
    (setAdminConvGatewayStep m st cid).dr.DRFNeighborAdminConversationGatewayListDigest =
      st.dr.DRFNeighborAdminConversationGatewayListDigest ∧
    (setAdminConvGatewayStep m st cid).dr.DRFHomeConversationGatewayListDigest =
      st.dr.DRFHomeConversationGatewayListDigest := by
  obtain ⟨hhi, hlo⟩ := cid_bytes cid
  unfold setAdminConvGatewayStep
  by_cases hv : (m cid).valid = true
  · by_cases hp : (m cid).cvlan % 2 = 0
    · simp [hv, hp, hhi, hlo]
    · simp [hv, hp, hhi, hlo]
  · simp [hv, hhi, hlo]

/-- The first loop over the conversation ids below `n`. -/
theorem setAdminConvGatewayStep_fold (m : Nat → ConvIdTypeValue) (st : GatewayDigestLoop)
    (n : Nat) :
    (∀ c, ((List.range n).foldl (setAdminConvGatewayStep m) st).dr.DrniConvAdminGateway c =
      if c < n ∧ (m c).valid = true then
        (if (m c).cvlan % 2 = 0 then [2, 1, 0] else [1, 2, 0])
      else st.dr.DrniConvAdminGateway c) ∧
    ((List.range n).foldl (setAdminConvGatewayStep m) st).ghash = st.ghash ++
      (List.range n).flatMap (fun cid =>
        if (m cid).valid = true then
          [(if (m cid).cvlan % 2 = 0 then [2, 1, 0] else [1, 2, 0]).getD 0 0,
            (if (m cid).cvlan % 2 = 0 then [2, 1, 0] else [1, 2, 0]).getD 1 0,
            cid / 256 % 256, cid % 256]
        else [cid / 256 % 256, cid % 256]) ∧
    ((List.range n).foldl (setAdminConvGatewayStep m) st).dr.DrniNeighborAdminConvGatewayListDigest =
      st.dr.DrniNeighborAdminConvGatewayListDigest ∧
    ((List.range n).foldl (setAdminConvGatewayStep m)
        st).dr.DRFNeighborAdminConversationGatewayListDigest =
      st.dr.DRFNeighborAdminConversationGatewayListDigest ∧
    ((List.range n).foldl (setAdminConvGatewayStep m) st).dr.DRFHomeConversationGatewayListDigest =
      st.dr.DRFHomeConversationGatewayListDigest := by
  induction n with
  | zero => simp
  | succ k ih =>
      obtain ⟨ih1, ih2, ih3, ih4, ih5⟩ := ih
      rw [List.range_succ, List.foldl_append]
      simp only [List.foldl_cons, List.foldl_nil]
      obtain ⟨s1, s2, s3, s4, s5⟩ :=
        setAdminConvGatewayStep_eq m ((List.range k).foldl (setAdminConvGatewayStep m) st) k
      refine ⟨?_, ?_, ?_, ?_, ?_⟩
      · intro c
        rw [s1 c, ih1 c]
        by_cases hc : c = k
        · subst hc
          by_cases hv : (m c).valid = true <;> simp [hv]
        · by_cases hlt : c < k
          · have : c < k + 1 := by omega
            simp [hc, hlt, this]
          · have : ¬ c < k + 1 := by omega
            simp [hc, hlt, this]
      · rw [s2, ih2, List.flatMap_append]
        simp
      · rw [s3, ih3]
      · rw [s4, ih4]
      · rw [s5, ih5]

/-- The copy loop overwrites the digests from the index it starts at. -/
theorem copyDigest_spec (vals : List Nat) :
    ∀ (dr : DistributedRelayGateway) (p1 p2 p3 s1 s2 s3 : List Nat),
      dr.DrniNeighborAdminConvGatewayListDigest = p1 ++ s1 →
      dr.DRFNeighborAdminConversationGatewayListDigest = p2 ++ s2 →
      dr.DRFHomeConversationGatewayListDigest = p3 ++ s3 →
      p2.length = p1.length → p3.length = p1.length →
      s1.length = vals.length → s2.length = vals.length → s3.length = vals.length →
      ∃ r, copyDigest dr p1.length vals = some r ∧
        r.DrniConvAdminGateway = dr.DrniConvAdminGateway ∧
        r.DrniNeighborAdminConvGatewayListDigest = p1 ++ vals ∧
        r.DRFNeighborAdminConversationGatewayListDigest = p2 ++ vals ∧
        r.DRFHomeConversationGatewayListDigest = p3 ++ vals := by
  induction vals with
  | nil =>
      intro dr p1 p2 p3 s1 s2 s3 h1 h2 h3 _ _ l1 l2 l3
      have e1 : s1 = [] := List.length_eq_zero.mp l1
      have e2 : s2 = [] := List.length_eq_zero.mp l2
      have e3 : s3 = [] := List.length_eq_zero.mp l3
      subst e1 e2 e3
      exact ⟨dr, rfl, rfl, h1, h2, h3⟩
  | cons v vs ih =>
      intro dr p1 p2 p3 s1 s2 s3 h1 h2 h3 q2 q3 l1 l2 l3
      cases s1 with
      | nil => simp at l1
      | cons a1 t1 =>
      cases s2 with
      | nil => simp at l2
      | cons a2 t2 =>
      cases s3 with
      | nil => simp at l3
      | cons a3 t3 =>
      simp only [List.length_cons, Nat.add_right_cancel_iff] at l1 l2 l3
      have c1 : p1.length < dr.DrniNeighborAdminConvGatewayListDigest.length := by
        rw [h1]; simp
      have c2 : p1.length < dr.DRFNeighborAdminConversationGatewayListDigest.length := by
        rw [h2]; simp; omega
      have c3 : p1.length < dr.DRFHomeConversationGatewayListDigest.length := by
        rw [h3]; simp; omega
      have g1 : dr.DrniNeighborAdminConvGatewayListDigest.set p1.length v
          = (p1 ++ [v]) ++ t1 := by
        rw [h1, List.set_append_right _ _ (Nat.le_refl _)]; simp
      have g2 : dr.DRFNeighborAdminConversationGatewayListDigest.set p1.length v
          = (p2 ++ [v]) ++ t2 := by
        rw [h2, ← q2, List.set_append_right _ _ (Nat.le_refl _)]; simp
      have g3 : dr.DRFHomeConversationGatewayListDigest.set p1.length v
          = (p3 ++ [v]) ++ t3 := by
        rw [h3, ← q3, List.set_append_right _ _ (Nat.le_refl _)]; simp
      have hlen : (p1 ++ [v]).length = p1.length + 1 := by simp
      obtain ⟨r, hr, r0, r1, r2, r3⟩ := ih
        { dr with
          DrniNeighborAdminConvGatewayListDigest :=
            dr.DrniNeighborAdminConvGatewayListDigest.set p1.length v
          DRFNeighborAdminConversationGatewayListDigest :=
            dr.DRFNeighborAdminConversationGatewayListDigest.set p1.length v
          DRFHomeConversationGatewayListDigest :=
            dr.DRFHomeConversationGatewayListDigest.set p1.length v }
        (p1 ++ [v]) (p2 ++ [v]) (p3 ++ [v]) t1 t2 t3 g1 g2 g3
        (by simp [q2]) (by simp [q3]) l1 l2 l3
      refine ⟨r, ?_, r0, ?_, ?_, ?_⟩
      · rw [hlen] at hr
        rw [copyDigest, if_pos ⟨c1, c2, c3⟩]
        exact hr
      · rw [r1]; simp
      · rw [r2]; simp
      · rw [r3]; simp

/-- With hash values and digest arrays of the length of an MD5 digest the function
returns; the gateway array is the one the first loop leaves, and each digest is
the hash of the bytes the first loop wrote. -/
theorem setAdminConvGatewayAndNeighborGatewayListDigest_eq (md5 : List Nat → List Nat)
    (m : Nat → ConvIdTypeValue) (dr : DistributedRelayGateway)
    (hmd5 : ∀ b, (md5 b).length = Md5DigestLength)
    (h1 : dr.DrniNeighborAdminConvGatewayListDigest.length = Md5DigestLength)
    (h2 : dr.DRFNeighborAdminConversationGatewayListDigest.length = Md5DigestLength)
    (h3 : dr.DRFHomeConversationGatewayListDigest.length = Md5DigestLength) :
    ∃ r, setAdminConvGatewayAndNeighborGatewayListDigest md5 m dr = some r ∧
      r.DrniConvAdminGateway =
        ((List.range MAX_CONVERSATION_IDS).foldl (setAdminConvGatewayStep m)
          { dr := dr, ghash := [] }).dr.DrniConvAdminGateway ∧
      r.DrniNeighborAdminConvGatewayListDigest =
        md5 ((List.range MAX_CONVERSATION_IDS).foldl (setAdminConvGatewayStep m)
          { dr := dr, ghash := [] }).ghash ∧
      r.DRFNeighborAdminConversationGatewayListDigest =
        md5 ((List.range MAX_CONVERSATION_IDS).foldl (setAdminConvGatewayStep m)
          { dr := dr, ghash := [] }).ghash ∧
      r.DRFHomeConversationGatewayListDigest =
        md5 ((List.range MAX_CONVERSATION_IDS).foldl (setAdminConvGatewayStep m)
          { dr := dr, ghash := [] }).ghash := by
  obtain ⟨_, _, f3, f4, f5⟩ :=
    setAdminConvGatewayStep_fold m { dr := dr, ghash := [] } MAX_CONVERSATION_IDS
  simp only at f3 f4 f5
  obtain ⟨r, hr, r0, r1, r2, r3⟩ := copyDigest_spec
    (md5 ((List.range MAX_CONVERSATION_IDS).foldl (setAdminConvGatewayStep m)
      { dr := dr, ghash := [] }).ghash)
    ((List.range MAX_CONVERSATION_IDS).foldl (setAdminConvGatewayStep m)
      { dr := dr, ghash := [] }).dr [] [] []
    dr.DrniNeighborAdminConvGatewayListDigest
    dr.DRFNeighborAdminConversationGatewayListDigest
    dr.DRFHomeConversationGatewayListDigest
    (by rw [f3]; rfl) (by rw [f4]; rfl) (by rw [f5]; rfl) rfl rfl
    (by rw [h1, hmd5]) (by rw [h2, hmd5]) (by rw [h3, hmd5])
  refine ⟨r, hr, r0, ?_, ?_, ?_⟩
  · rw [r1]; rfl
  · rw [r2]; rfl
  · rw [r3]; rfl

/-! ## Gateway assignment and digest: the claims C27 and C28 -/

/-- C27. With hash values and digest arrays of 16 bytes,
setAdminConvGatewayAndNeighborGatewayListDigest returns, and afterwards, for
every conversation id cid below MAX_CONVERSATION_IDS, DrniConvAdminGateway[cid] is
[2, 1, 0] when the entry of ConversationIdMap is valid with an even cvlan,
[1, 2, 0] when it is valid with an odd cvlan, and unchanged when the entry is not
valid. -/
theorem setAdminConvGateway_assignment (md5 : List Nat → List Nat)
    (ConversationIdMap : Nat → ConvIdTypeValue) (dr : DistributedRelayGateway)
    (hmd5 : ∀ b, (md5 b).length = Md5DigestLength)
    (h1 : dr.DrniNeighborAdminConvGatewayListDigest.length = Md5DigestLength)
    (h2 : dr.DRFNeighborAdminConversationGatewayListDigest.length = Md5DigestLength)
    (h3 : dr.DRFHomeConversationGatewayListDigest.length = Md5DigestLength) :
    ∃ r, setAdminConvGatewayAndNeighborGatewayListDigest md5 ConversationIdMap dr = some r ∧
      ∀ cid, cid < MAX_CONVERSATION_IDS →
        ((ConversationIdMap cid).valid = true → (ConversationIdMap cid).cvlan % 2 = 0 →
          r.DrniConvAdminGateway cid = [2, 1, 0]) ∧
        ((ConversationIdMap cid).valid = true → (ConversationIdMap cid).cvlan % 2 = 1 →
          r.DrniConvAdminGateway cid = [1, 2, 0]) ∧
        ((ConversationIdMap cid).valid = false →
          r.DrniConvAdminGateway cid = dr.DrniConvAdminGateway cid) := by
  obtain ⟨r, hr, r0, _, _, _⟩ :=
    setAdminConvGatewayAndNeighborGatewayListDigest_eq md5 ConversationIdMap dr hmd5 h1 h2 h3
  obtain ⟨f1, _⟩ := setAdminConvGatewayStep_fold ConversationIdMap
    { dr := dr, ghash := [] } MAX_CONVERSATION_IDS
  refine ⟨r, hr, ?_⟩
  intro cid hcid
  rw [r0, f1 cid]
  refine ⟨?_, ?_, ?_⟩
  · intro hv hp
    simp [hcid, hv, hp]
  · intro hv hp
    have hp0 : ¬ (ConversationIdMap cid).cvlan % 2 = 0 := by omega
    simp [hcid, hv, hp0]
  · intro hv
    simp [hv]

/-- C27, at a concrete input: the conversation map with VLANs 10 and 11 valid. -/
theorem setAdminConvGateway_assignment_witness :
    (∀ b, (exampleMd5 b).length = Md5DigestLength) ∧
    exampleRelayGateway.DrniNeighborAdminConvGatewayListDigest.length = Md5DigestLength ∧
    exampleRelayGateway.DRFNeighborAdminConversationGatewayListDigest.length
      = Md5DigestLength ∧
    exampleRelayGateway.DRFHomeConversationGatewayListDigest.length = Md5DigestLength ∧
    ∃ r, setAdminConvGatewayAndNeighborGatewayListDigest exampleMd5 exampleConversationIdMap
        exampleRelayGateway = some r ∧
      ∀ cid, cid < MAX_CONVERSATION_IDS →
        ((exampleConversationIdMap cid).valid = true →
          (exampleConversationIdMap cid).cvlan % 2 = 0 →
          r.DrniConvAdminGateway cid = [2, 1, 0]) ∧
        ((exampleConversationIdMap cid).valid = true →
          (exampleConversationIdMap cid).cvlan % 2 = 1 →
          r.DrniConvAdminGateway cid = [1, 2, 0]) ∧
        ((exampleConversationIdMap cid).valid = false →
          r.DrniConvAdminGateway cid = exampleRelayGateway.DrniConvAdminGateway cid) :=
  ⟨fun _ => rfl, rfl, rfl, rfl,
    setAdminConvGateway_assignment exampleMd5 exampleConversationIdMap exampleRelayGateway
      (fun _ => rfl) rfl rfl rfl⟩

/-- C28. With hash values and digest arrays of 16 bytes,
setAdminConvGatewayAndNeighborGatewayListDigest returns, and afterwards the three
digests DrniNeighborAdminConvGatewayListDigest,
DRFNeighborAdminConversationGatewayListDigest and
DRFHomeConversationGatewayListDigest are equal to each other and to the hash of
the byte string that concatenates, for cid = 0 .. MAX_CONVERSATION_IDS-1 in
increasing order, [DrniConvAdminGateway[cid][0], DrniConvAdminGateway[cid][1],
high byte of cid, low byte of cid] for a valid conversation and [high byte of
cid, low byte of cid] for an invalid one. -/
theorem setAdminConvGateway_digest (md5 : List Nat → List Nat)
    (ConversationIdMap : Nat → ConvIdTypeValue) (dr : DistributedRelayGateway)
    (hmd5 : ∀ b, (md5 b).length = Md5DigestLength)
    (h1 : dr.DrniNeighborAdminConvGatewayListDigest.length = Md5DigestLength)
    (h2 : dr.DRFNeighborAdminConversationGatewayListDigest.length = Md5DigestLength)
    (h3 : dr.DRFHomeConversationGatewayListDigest.length = Md5DigestLength) :
    ∃ r, setAdminConvGatewayAndNeighborGatewayListDigest md5 ConversationIdMap dr = some r ∧
      r.DrniNeighborAdminConvGatewayListDigest =
        md5 (gatewayDigestByteString ConversationIdMap r.DrniConvAdminGateway) ∧
      r.DRFNeighborAdminConversationGatewayListDigest =
        r.DrniNeighborAdminConvGatewayListDigest ∧
      r.DRFHomeConversationGatewayListDigest =
        r.DrniNeighborAdminConvGatewayListDigest := by
  obtain ⟨r, hr, r0, r1, r2, r3⟩ :=
    setAdminConvGatewayAndNeighborGatewayListDigest_eq md5 ConversationIdMap dr hmd5 h1 h2 h3
  obtain ⟨f1, f2, _⟩ := setAdminConvGatewayStep_fold ConversationIdMap
    { dr := dr, ghash := [] } MAX_CONVERSATION_IDS
  refine ⟨r, hr, ?_, ?_, ?_⟩
  · rw [r1, f2]
    apply congrArg md5
    unfold gatewayDigestByteString
    rw [List.nil_append]
    apply List.flatMap_congr
    intro cid hcid
    have hlt : cid < MAX_CONVERSATION_IDS := List.mem_range.mp hcid
    by_cases hv : (ConversationIdMap cid).valid = true
    · rw [r0, f1 cid]
      simp [hv, hlt]
    · simp [hv]
  · rw [r2, r1]
  · rw [r3, r1]

/-- C28, at a concrete input: the conversation map with VLANs 10 and 11 valid. -/
theorem setAdminConvGateway_digest_witness :
    (∀ b, (exampleMd5 b).length = Md5DigestLength) ∧
    exampleRelayGateway.DrniNeighborAdminConvGatewayListDigest.length = Md5DigestLength ∧
    exampleRelayGateway.DRFNeighborAdminConversationGatewayListDigest.length
      = Md5DigestLength ∧
    exampleRelayGateway.DRFHomeConversationGatewayListDigest.length = Md5DigestLength ∧
    ∃ r, setAdminConvGatewayAndNeighborGatewayListDigest exampleMd5 exampleConversationIdMap
        exampleRelayGateway = some r ∧
      r.DrniNeighborAdminConvGatewayListDigest =
        exampleMd5 (gatewayDigestByteString exampleConversationIdMap r.DrniConvAdminGateway) ∧
      r.DRFNeighborAdminConversationGatewayListDigest =
        r.DrniNeighborAdminConvGatewayListDigest ∧
      r.DRFHomeConversationGatewayListDigest =
        r.DrniNeighborAdminConvGatewayListDigest :=
  ⟨fun _ => rfl, rfl, rfl, rfl,
    setAdminConvGateway_digest exampleMd5 exampleConversationIdMap exampleRelayGateway
      (fun _ => rfl) rfl rfl rfl⟩

end Drcp

namespace Lacp

/-! ## Mux machine: the claims C34 and C38 -/

/-- C34 (what the code does with a queue of events): the task started by
LacpMuxMachineMain panics as soon as it enters its select statement, whatever is
delivered to it, because the statement reads the channel of the pointer
waitWhileTimer, which NewLacpMuxMachine leaves nil: the machine stays in its
initial pseudo-state and no event is processed. With BEGIN and
SelectedEqualSelected delivered to the independent-control machine the task
leaves the machine in LacpMuxmStateNone, while applying the ruleset to both
events in order ends in WAITING. And for any machine whose pointer
waitWhileTimer does refer to a timer, the select statement has no loop around
it: of the events delivered the task processes the first and then returns,
whatever follows. -/
theorem LacpMuxMachineTask_processes_no_queue :
    (∀ (p : LaAggPort) (aggs : List LaAggregator) (muxCoupling : Bool)
        (deliveries : List MuxmSelect),
      LacpMuxMachineTask (LacpMuxMachineMain p aggs muxCoupling) deliveries
        = { LacpMuxMachineMain p aggs muxCoupling with panicked := true }) ∧
    ((LacpMuxMachineTask (LacpMuxMachineMain (selectedPort 1) [] false)
      [MuxmSelect.MuxmEvents LacpMuxmEventBegin,
        MuxmSelect.MuxmEvents LacpMuxmEventSelectedEqualSelected]).Curr
      = LacpMuxmStateNone ∧
     ((LacpMuxMachineMain (selectedPort 1) [] false).ProcessEvents
      [LacpMuxmEventBegin, LacpMuxmEventSelectedEqualSelected]).Curr
      = LacpMuxmStateWaiting ∧
     LacpMuxmStateNone ≠ LacpMuxmStateWaiting) ∧
    (∀ (m : LacpMuxMachine) (e : Nat) (rest : List MuxmSelect), m.waitWhileTimer = true →
      LacpMuxMachineTask m (MuxmSelect.MuxmEvents e :: rest) = m.ProcessEvent e) ∧
    ((LacpMuxMachineTask
      { LacpMuxMachineMain (selectedPort 1) [] false with waitWhileTimer := true }
      [MuxmSelect.MuxmEvents LacpMuxmEventBegin,
        MuxmSelect.MuxmEvents LacpMuxmEventSelectedEqualSelected]).Curr
      = LacpMuxmStateDetached ∧
     LacpMuxmStateDetached ≠ LacpMuxmStateWaiting) := by
  refine ⟨?_, by decide, ?_, by decide⟩
  · intro p aggs c deliveries
    cases c <;> rfl
  · intro m e rest h
    unfold LacpMuxMachineTask
    rw [if_neg (by simp [h])]

/-- C38 (what the code registers): LacpMuxMachineFSMBuild calls AddRule twice for
four (state, event) pairs, each time with a different action, and the coupled
action registered second is the one the ruleset keeps: (None, BEGIN) with
LacpMuxmDetached and then LacpMuxmCDetached, and (COLLECTING,
SelectedEqualUnselected), (COLLECTING, SelectedEqualStandby) and (COLLECTING,
NotPartnerSync) with LacpMuxmAttached and then LacpMuxmCAttached. -/
theorem LacpMuxMachineFSMBuild_registers_pairs_twice :
    (⟨LacpMuxmStateNone, LacpMuxmEventBegin, MuxAction.LacpMuxmDetached⟩
        ∈ LacpMuxMachineFSMBuildCalls ∧
      ⟨LacpMuxmStateNone, LacpMuxmEventBegin, MuxAction.LacpMuxmCDetached⟩
        ∈ LacpMuxMachineFSMBuildCalls ∧
      LacpMuxMachineFSMBuildRules.lookup LacpMuxmStateNone LacpMuxmEventBegin
        = some MuxAction.LacpMuxmCDetached) ∧
    (∀ e ∈ [LacpMuxmEventSelectedEqualUnselected, LacpMuxmEventSelectedEqualStandby,
        LacpMuxmEventNotPartnerSync],
      ⟨LacpMuxmStateCollecting, e, MuxAction.LacpMuxmAttached⟩ ∈ LacpMuxMachineFSMBuildCalls ∧
      ⟨LacpMuxmStateCollecting, e, MuxAction.LacpMuxmCAttached⟩ ∈ LacpMuxMachineFSMBuildCalls ∧
      LacpMuxMachineFSMBuildRules.lookup LacpMuxmStateCollecting e
        = some MuxAction.LacpMuxmCAttached) ∧
    LacpMuxMachineFSMBuildCalls.length = 27 ∧
    LacpMuxMachineFSMBuildRules.length = 23 := by
  decide

end Lacp

namespace Drcp

/-! ## Gateway vector database: the claim C35 -/

/-- C35 (what the code does for a sequence number below every stored one): on the
strictly increasing database with sequence numbers 1, 3, 5,
updateNeighborVector(0, vec) panics, whatever the capacity of the slice and
whatever the vector: the first entry is larger than 0, so the insertion branch
runs with i = 0 and indexes the database at i-1 = -1. -/
theorem updateNeighborVector_smaller_sequence_panics (spare : Nat) (vec : List Bool) :
    SequenceStrictlyIncreasing exampleRelay.GatewayVectorDatabase ∧
    updateNeighborVector exampleRelay spare 0 vec = none := by
  refine ⟨by decide, ?_⟩
  cases spare with
  | zero => rfl
  | succ k =>
    simp [updateNeighborVector, exampleRelay, updateNeighborVectorLoop, updateNeighborVectorStep,
      UpdateLoop.rangeRead, UpdateLoop.append, copyDown, NeighborGatewayVector.new,
      NeighborGatewayVector.zero]

end Drcp

namespace Drcp

/-! ## Gateway digest: the claim C40 -/

/-- C40. For any two relays, whatever their DrniConvAdminGateway arrays (and
whatever else they hold), run against the same ConversationIdMap with hash values
and digest arrays of 16 bytes, setAdminConvGatewayAndNeighborGatewayListDigest
returns on both and leaves the same three gateway digests in both. -/
theorem setAdminConvGateway_digest_independent_of_admin_gateway (md5 : List Nat → List Nat)
    (ConversationIdMap : Nat → ConvIdTypeValue) (dr1 dr2 : DistributedRelayGateway)
    (hmd5 : ∀ b, (md5 b).length = Md5DigestLength)
    (h11 : dr1.DrniNeighborAdminConvGatewayListDigest.length = Md5DigestLength)
    (h12 : dr1.DRFNeighborAdminConversationGatewayListDigest.length = Md5DigestLength)
    (h13 : dr1.DRFHomeConversationGatewayListDigest.length = Md5DigestLength)
    (h21 : dr2.DrniNeighborAdminConvGatewayListDigest.length = Md5DigestLength)
    (h22 : dr2.DRFNeighborAdminConversationGatewayListDigest.length = Md5DigestLength)
    (h23 : dr2.DRFHomeConversationGatewayListDigest.length = Md5DigestLength) :
    ∃ r1 r2,
      setAdminConvGatewayAndNeighborGatewayListDigest md5 ConversationIdMap dr1 = some r1 ∧
      setAdminConvGatewayAndNeighborGatewayListDigest md5 ConversationIdMap dr2 = some r2 ∧
      r1.DrniNeighborAdminConvGatewayListDigest = r2.DrniNeighborAdminConvGatewayListDigest ∧
      r1.DRFNeighborAdminConversationGatewayListDigest
        = r2.DRFNeighborAdminConversationGatewayListDigest ∧
      r1.DRFHomeConversationGatewayListDigest = r2.DRFHomeConversationGatewayListDigest := by
  obtain ⟨r1, hr1, _, a1, a2, a3⟩ :=
    setAdminConvGatewayAndNeighborGatewayListDigest_eq md5 ConversationIdMap dr1 hmd5 h11 h12 h13
  obtain ⟨r2, hr2, _, b1, b2, b3⟩ :=
    setAdminConvGatewayAndNeighborGatewayListDigest_eq md5 ConversationIdMap dr2 hmd5 h21 h22 h23
  obtain ⟨_, f1, _⟩ := setAdminConvGatewayStep_fold ConversationIdMap
    { dr := dr1, ghash := [] } MAX_CONVERSATION_IDS
  obtain ⟨_, f2, _⟩ := setAdminConvGatewayStep_fold ConversationIdMap
    { dr := dr2, ghash := [] } MAX_CONVERSATION_IDS
  have hg : ((List.range MAX_CONVERSATION_IDS).foldl (setAdminConvGatewayStep ConversationIdMap)
        { dr := dr1, ghash := [] }).ghash =
      ((List.range MAX_CONVERSATION_IDS).foldl (setAdminConvGatewayStep ConversationIdMap)
        { dr := dr2, ghash := [] }).ghash := by
    rw [f1, f2]
  refine ⟨r1, r2, hr1, hr2, ?_, ?_, ?_⟩
  · rw [a1, b1, hg]
  · rw [a2, b2, hg]
  · rw [a3, b3, hg]

/-- C40, at a concrete input: the relay with an all-zero gateway array and the
relay that sends every conversation to portal system 3, against the conversation
map with VLANs 10 and 11 valid. -/
theorem setAdminConvGateway_digest_independent_of_admin_gateway_witness :
    exampleRelayGateway.DrniConvAdminGateway 10 ≠ otherRelayGateway.DrniConvAdminGateway 10 ∧
    ∃ r1 r2,
      setAdminConvGatewayAndNeighborGatewayListDigest exampleMd5 exampleConversationIdMap
        exampleRelayGateway = some r1 ∧
      setAdminConvGatewayAndNeighborGatewayListDigest exampleMd5 exampleConversationIdMap
        otherRelayGateway = some r2 ∧
      r1.DrniNeighborAdminConvGatewayListDigest = r2.DrniNeighborAdminConvGatewayListDigest ∧
      r1.DRFNeighborAdminConversationGatewayListDigest
        = r2.DRFNeighborAdminConversationGatewayListDigest ∧
      r1.DRFHomeConversationGatewayListDigest = r2.DRFHomeConversationGatewayListDigest :=
  ⟨by decide,
    setAdminConvGateway_digest_independent_of_admin_gateway exampleMd5 exampleConversationIdMap
      exampleRelayGateway otherRelayGateway (fun _ => rfl) rfl rfl rfl rfl rfl rfl⟩

end Drcp

namespace Lacp

/-! ## Slices: lemmas -/

/-- A slice within its backing array: the array is the elements of the slice
followed by the spare slots. -/
theorem GoSlice_arr_eq (s : GoSlice Nat) : s.arr = s.toList ++ s.arr.drop s.len := by
  unfold GoSlice.toList
  exact (List.take_append_drop s.len s.arr).symm

theorem GoSlice_toList_length (s : GoSlice Nat) (h : s.len ≤ s.arr.length) :
    s.toList.length = s.len := by
  unfold GoSlice.toList
  simp [h]

theorem take_length_succ_append (pre : List Nat) (x : Nat) (t : List Nat) :
    List.take (pre.length + 1) (pre ++ x :: t) = pre ++ [x] := by
  induction pre with
  | nil => simp
  | cons a pre ih => simpa using ih

/-- Appending to a slice within its backing array adds the element at the end and
keeps the slice within its array. -/
theorem GoSlice_append_toList (s : GoSlice Nat) (x : Nat) (h : s.len ≤ s.arr.length) :
    (s.append x).toList = s.toList ++ [x] ∧ (s.append x).len ≤ (s.append x).arr.length := by
  obtain ⟨arr, len⟩ := s
  simp only at h
  obtain ⟨pre, suf, rfl, rfl⟩ : ∃ pre suf, arr = pre ++ suf ∧ len = pre.length :=
    ⟨arr.take len, arr.drop len, (List.take_append_drop len arr).symm, by simp [h]⟩
  unfold GoSlice.append GoSlice.toList
  cases suf with
  | nil => simp [take_length_succ_append]
  | cons y suf2 => simp [List.set_append_right, take_length_succ_append]

/-- The loop of DeleteLaAggPortFromAgg passes over elements other than pId. -/
theorem DeleteLaAggPortFromAggLoop_skip (pId : Nat) :
    ∀ (m n idx : Nat) (s : GoSlice Nat),
      (∀ j, idx ≤ j → j < idx + m → ∃ x, s.arr[j]? = some x ∧ x ≠ pId) →
      DeleteLaAggPortFromAggLoop pId (m + n) idx s
        = DeleteLaAggPortFromAggLoop pId n (idx + m) s := by
  intro m
  induction m with
  | zero => intro n idx s _; simp
  | succ m ih =>
    intro n idx s h
    obtain ⟨x, hx, hne⟩ := h idx (Nat.le_refl _) (by omega)
    have e1 : m + 1 + n = (m + n) + 1 := by omega
    rw [e1, DeleteLaAggPortFromAggLoop, hx]
    have hb : (x == pId) = false := by simpa using hne
    simp only [hb]
    rw [ih n (idx + 1) s (fun j h1 h2 => h j (by omega) (by omega))]
    have e2 : idx + 1 + m = idx + (m + 1) := by omega
    rw [e2]
    rfl

/-- On a slice that holds pId exactly once the loop of DeleteLaAggPortFromAgg
returns, and the slice it leaves holds the other elements in their order. -/
theorem DeleteLaAggPortFromAggLoop_removes (pId : Nat) (pre post extra : List Nat) (len : Nat)
    (hlen : len = pre.length + 1 + post.length) (hpre : pId ∉ pre) (hpost : pId ∉ post) :
    ∃ s2, DeleteLaAggPortFromAggLoop pId len 0
        { arr := pre ++ pId :: post ++ extra, len := len } = some s2 ∧
      s2.toList = pre ++ post ∧ s2.len ≤ s2.arr.length := by
  have hskip := DeleteLaAggPortFromAggLoop_skip pId pre.length (post.length + 1) 0
    { arr := pre ++ pId :: post ++ extra, len := len }
    (by
      intro j _ hj
      have hj2 : j < pre.length := by omega
      refine ⟨pre[j], ?_, ?_⟩
      · simp only
        rw [List.append_assoc, List.getElem?_append_left hj2, List.getElem?_eq_getElem hj2]
      · intro he
        exact hpre (he ▸ List.getElem_mem hj2))
  have e0 : pre.length + (post.length + 1) = len := by omega
  rw [e0] at hskip
  rw [hskip, DeleteLaAggPortFromAggLoop]
  have hread : (pre ++ pId :: post ++ extra)[0 + pre.length]? = some pId := by
    rw [Nat.zero_add, List.append_assoc, List.getElem?_append_right (Nat.le_refl _)]
    simp
  simp only [hread, beq_self_eq_true, if_true]
  have hrem : GoSlice.removeAt { arr := pre ++ pId :: post ++ extra, len := len } (0 + pre.length)
      = some { arr := pre ++ post ++ List.drop post.length (pId :: (post ++ extra)),
               len := pre.length + post.length } := by
    unfold GoSlice.removeAt
    have hc : 0 + pre.length + 1 ≤ len := by omega
    simp only [if_pos hc]
    have t1 : List.take (0 + pre.length) (pre ++ pId :: post ++ extra) = pre := by
      simp [List.append_assoc]
    have t2 : List.take (len - (0 + pre.length + 1))
        (List.drop (0 + pre.length + 1) (pre ++ pId :: post ++ extra)) = post := by
      have : List.drop (0 + pre.length + 1) (pre ++ pId :: post ++ extra) = post ++ extra := by
        rw [List.append_assoc, Nat.zero_add, List.drop_append]
        simp
      rw [this]
      have : len - (0 + pre.length + 1) = post.length := by omega
      rw [this, List.take_left]
    have t3 : List.drop (len - 1) (pre ++ pId :: post ++ extra)
        = List.drop post.length (pId :: (post ++ extra)) := by
      have : len - 1 = pre.length + post.length := by omega
      rw [this, List.append_assoc, List.drop_append]
      simp
    have t4 : len - 1 = pre.length + post.length := by omega
    rw [t1, t2, t3, t4]
  rw [hrem]
  have hrest := DeleteLaAggPortFromAggLoop_skip pId post.length 0 (0 + pre.length + 1)
    { arr := pre ++ post ++ List.drop post.length (pId :: (post ++ extra)),
      len := pre.length + post.length }
    (by
      intro j hj1 hj2
      simp only
      have hk : ∃ k, j = pre.length + (k + 1) ∧ k < post.length := ⟨j - pre.length - 1, by omega, by omega⟩
      obtain ⟨k, rfl, hk⟩ := hk
      rw [List.append_assoc, List.getElem?_append_right (by omega)]
      have e : pre.length + (k + 1) - pre.length = k + 1 := by omega
      rw [e]
      by_cases hlast : k + 1 < post.length
      · refine ⟨post[k + 1], ?_, ?_⟩
        · rw [List.getElem?_append_left hlast, List.getElem?_eq_getElem hlast]
        · intro he
          exact hpost (he ▸ List.getElem_mem hlast)
      · have hk1 : k + 1 = post.length := by omega
        refine ⟨post[k], ?_, ?_⟩
        · rw [List.getElem?_append_right (by omega), List.getElem?_drop, hk1]
          have e2 : post.length + (post.length - post.length) = k + 1 := by omega
          rw [e2, List.getElem?_cons_succ, List.getElem?_append_left hk,
            List.getElem?_eq_getElem hk]
        · intro he
          exact hpost (he ▸ List.getElem_mem hk))
  simp only [Nat.add_zero] at hrest
  simp only [hrest]
  refine ⟨_, rfl, ?_, ?_⟩
  · unfold GoSlice.toList
    simp only
    rw [List.append_assoc, List.take_append]
    simp
  · simp only [List.length_append, List.length_drop, List.length_cons]
    omega

end Lacp

namespace Lacp

/-! ## Configuration: the claims C36 and C37 -/

/-- C36. For the aggregator that LaFindAggById finds for aggId, with a
duplicate-free PortNumList, and the port that LaFindPortById finds for pId: when
the port is SELECTED and pId is in the list, DeleteLaAggPortFromAgg(aggId, pId)
returns and the PortNumList of that aggregator is the old list with pId removed,
the other ports in their order, every other aggregator being untouched; when the
port is not SELECTED or pId is not in the list, the call returns and changes
nothing. -/
theorem DeleteLaAggPortFromAgg_removes_member (sys : LacpSysGlobalInfo) (aggId : Int)
    (pId ai pi : Nat) (a : LaAggregator) (p : LaAggPort)
    (hai : LaFindAggById sys.aggs aggId = some ai) (ha : sys.aggs[ai]? = some a)
    (hpi : LaFindPortById sys.ports pId = some pi) (hp : sys.ports[pi]? = some p)
    (hwf : a.PortNumList.len ≤ a.PortNumList.arr.length)
    (hnd : a.PortNumList.toList.Nodup) :
    (p.aggSelected = LacpAggSelected → pId ∈ a.PortNumList.toList →
      ∃ sys2 l, DeleteLaAggPortFromAgg sys aggId pId = some sys2 ∧
        sys2.aggs = sys.aggs.set ai { a with PortNumList := l } ∧
        l.toList = a.PortNumList.toList.erase pId ∧
        l.toList = a.PortNumList.toList.filter (fun x => x != pId)) ∧
    ((p.aggSelected ≠ LacpAggSelected ∨ pId ∉ a.PortNumList.toList) →
      DeleteLaAggPortFromAgg sys aggId pId = some sys) := by
  have hex : LaAggPortNumListPortIdExist sys.aggs aggId pId = a.PortNumList.toList.contains pId := by
    unfold LaAggPortNumListPortIdExist
    rw [hai]
    simp only [ha]
  constructor
  · intro hsel hmem
    obtain ⟨pre, post, hsplit⟩ := List.append_of_mem hmem
    have hnd2 := hnd
    rw [hsplit, List.nodup_append] at hnd2
    obtain ⟨_, hnd3, hdisj⟩ := hnd2
    have hpre : pId ∉ pre := fun h => hdisj h (List.mem_cons_self _ _)
    have hpost : pId ∉ post := (List.nodup_cons.mp hnd3).1
    have hlen : a.PortNumList.len = pre.length + 1 + post.length := by
      rw [← GoSlice_toList_length _ hwf, hsplit]
      simp
      omega
    have hs : a.PortNumList = { arr := pre ++ pId :: post ++ a.PortNumList.arr.drop a.PortNumList.len,
                                len := a.PortNumList.len } := by
      have h1 := GoSlice_arr_eq a.PortNumList
      rw [hsplit] at h1
      cases hq : a.PortNumList with
      | mk arr len =>
        rw [hq] at h1
        simp only at h1
        simp only [GoSlice.mk.injEq, and_true]
        simpa [List.append_assoc] using h1
    obtain ⟨s2, hloop, hto, _⟩ := DeleteLaAggPortFromAggLoop_removes pId pre post
      (a.PortNumList.arr.drop a.PortNumList.len) a.PortNumList.len hlen hpre hpost
    rw [← hs] at hloop
    have herase : a.PortNumList.toList.erase pId = pre ++ post := by
      rw [hsplit, List.erase_append_right _ hpre, List.erase_cons_head]
    have hcall : DeleteLaAggPortFromAgg sys aggId pId = some
        { aggs := sys.aggs.set ai { a with PortNumList := s2 }
          ports := sys.ports.set pi (LaAggPortDisable { p with actorAdmin :=
            { p.actorAdmin with
              state := LacpStateClear p.actorAdmin.state LacpStateAggregationBit } }) } := by
      unfold DeleteLaAggPortFromAgg
      rw [hai, hpi]
      simp only [ha, hp, hex]
      have hc : a.PortNumList.toList.contains pId = true := by simpa using hmem
      simp only [hsel, hc, and_self, if_true, hloop]
    refine ⟨_, s2, hcall, rfl, ?_, ?_⟩
    · rw [hto, herase]
    · rw [← List.Nodup.erase_eq_filter hnd, hto, herase]
  · intro h
    unfold DeleteLaAggPortFromAgg
    rw [hai, hpi]
    simp only [ha, hp, hex]
    rcases h with h | h
    · simp [h]
    · have hc : a.PortNumList.toList.contains pId = false := by simpa using h
      simp only [hc]
      simp

/-- C36, at a concrete input: port 2 of the aggregator with members 1, 2, 3. -/
theorem DeleteLaAggPortFromAgg_removes_member_witness :
    LaFindAggById threeMemberSystem.aggs 1 = some 0 ∧
    LaFindPortById threeMemberSystem.ports 2 = some 1 ∧
    (selectedPort 2).aggSelected = LacpAggSelected ∧
    (2 : Nat) ∈ (GoSlice.ofList [1, 2, 3]).toList ∧
    ∃ sys2 l, DeleteLaAggPortFromAgg threeMemberSystem 1 2 = some sys2 ∧
      sys2.aggs = threeMemberSystem.aggs.set 0
        { aggId := 1, actorAdminKey := 1, partnerSystemId := [0, 0, 0, 0, 0, 0],
          ready := false, PortNumList := l } ∧
      l.toList = (GoSlice.ofList [1, 2, 3]).toList.erase 2 ∧
      l.toList = (GoSlice.ofList [1, 2, 3]).toList.filter (fun x => x != 2) :=
  ⟨by decide, by decide, rfl, by decide,
    (DeleteLaAggPortFromAgg_removes_member threeMemberSystem 1 2 0 1
      { aggId := 1, actorAdminKey := 1, partnerSystemId := [0, 0, 0, 0, 0, 0],
        ready := false, PortNumList := GoSlice.ofList [1, 2, 3] }
      (selectedPort 2) (by decide) (by decide) (by decide) (by decide) (by decide)
      (by decide)).1 rfl (by decide)⟩

end Lacp

namespace Lacp

theorem findIdx?_set_of_pred_eq {α : Type} (p : α → Bool) (x : α) :
    ∀ (l : List α) (i s : Nat), (∀ y, l[i]? = some y → p x = p y) →
      (l.set i x).findIdx? p s = l.findIdx? p s := by
  intro l
  induction l with
  | nil => intro i s _; rfl
  | cons a t ih =>
    intro i s h
    cases i with
    | zero =>
      have hpa : p x = p a := h a (by simp)
      simp only [List.set_cons_zero, List.findIdx?_cons, hpa]
    | succ i =>
      simp only [List.set_cons_succ, List.findIdx?_cons]
      rw [ih i (s + 1) (fun y hy => h y (by simpa using hy))]

/-- The element appended to a slice is an element of the result. -/
theorem GoSlice_append_mem (s : GoSlice Nat) (x : Nat) : x ∈ (s.append x).toList := by
  have key : ∀ (L : List Nat) (k n : Nat), L[k]? = some x → k < n → x ∈ L.take n := by
    intro L k n hk hn
    have h2 : (L.take n)[k]? = some x := by
      rw [List.getElem?_take_of_lt hn, hk]
    obtain ⟨h3, h4⟩ := List.getElem?_eq_some.mp h2
    exact h4 ▸ List.getElem_mem h3
  unfold GoSlice.append GoSlice.toList
  by_cases hlt : s.len < s.arr.length
  · rw [if_pos hlt]
    exact key _ s.len _ (by simp [List.getElem?_set, hlt]) (by simp)
  · rw [if_neg hlt]
    refine key _ (s.arr.take s.len).length _ ?_ ?_
    · rw [List.append_assoc, List.getElem?_append_right (Nat.le_refl _)]
      simp
    · simp only [List.length_take]
      omega

/-- A successful AddLaAggPortToAgg, spelled out. -/
theorem AddLaAggPortToAgg_success (sys : LacpSysGlobalInfo) (aggId : Int) (pId ai pi : Nat)
    (a : LaAggregator) (p : LaAggPort)
    (hai : LaFindAggById sys.aggs aggId = some ai) (ha : sys.aggs[ai]? = some a)
    (hpi : LaFindPortById sys.ports pId = some pi) (hp : sys.ports[pi]? = some p)
    (hsel : p.aggSelected = LacpAggUnSelected) (hmem : pId ∉ a.PortNumList.toList) :
    AddLaAggPortToAgg sys aggId pId =
      { aggs := sys.aggs.set ai { a with PortNumList := a.PortNumList.append pId }
        ports := sys.ports.set pi { p with AggId := aggId } } := by
  have hpn : p.portNum = pId := by
    have h := List.findIdx?_of_eq_some hpi
    rw [hp] at h
    simpa using h
  have hex : LaAggPortNumListPortIdExist sys.aggs aggId pId = false := by
    unfold LaAggPortNumListPortIdExist
    rw [hai]
    simp only [ha]
    simpa using hmem
  unfold AddLaAggPortToAgg
  rw [hai, hpi]
  simp only [ha, hp, hsel, hex, and_self, if_true, hpn]

/-- AddLaAggPortToAgg changes nothing unless the aggregator and the port exist,
the port is UNSELECTED and the port is not in the list. -/
theorem AddLaAggPortToAgg_cases (sys : LacpSysGlobalInfo) (aggId : Int) (pId : Nat) :
    AddLaAggPortToAgg sys aggId pId = sys ∨
    ∃ ai pi a p, LaFindAggById sys.aggs aggId = some ai ∧ sys.aggs[ai]? = some a ∧
      LaFindPortById sys.ports pId = some pi ∧ sys.ports[pi]? = some p ∧
      p.aggSelected = LacpAggUnSelected ∧ pId ∉ a.PortNumList.toList := by
  cases hai : LaFindAggById sys.aggs aggId with
  | none => left; unfold AddLaAggPortToAgg; rw [hai]
  | some ai =>
    cases hpi : LaFindPortById sys.ports pId with
    | none => left; unfold AddLaAggPortToAgg; rw [hai, hpi]
    | some pi =>
      cases ha : sys.aggs[ai]? with
      | none => left; unfold AddLaAggPortToAgg; rw [hai, hpi]; simp only [ha]
      | some a =>
        cases hp : sys.ports[pi]? with
        | none => left; unfold AddLaAggPortToAgg; rw [hai, hpi]; simp only [ha, hp]
        | some p =>
          have hex : LaAggPortNumListPortIdExist sys.aggs aggId pId
              = a.PortNumList.toList.contains pId := by
            unfold LaAggPortNumListPortIdExist
            rw [hai]
            simp only [ha]
          by_cases hsel : p.aggSelected = LacpAggUnSelected
          · by_cases hmem : pId ∈ a.PortNumList.toList
            · left
              unfold AddLaAggPortToAgg
              rw [hai, hpi]
              simp only [ha, hp, hex]
              have hc : a.PortNumList.toList.contains pId = true := by simpa using hmem
              simp only [hc]
              simp
            · right
              exact ⟨ai, pi, a, p, rfl, ha, rfl, hp, hsel, hmem⟩
          · left
            unfold AddLaAggPortToAgg
            rw [hai, hpi]
            simp only [ha, hp, hex]
            simp [hsel]

/-- C37. For every state and every aggId and pId: calling
AddLaAggPortToAgg(aggId, pId) twice yields the state that one call yields; an
aggregator whose PortNumList is duplicate-free before the call has a
duplicate-free PortNumList after it; and a successful call (the aggregator and
the port exist, the port is UNSELECTED and not in the list) puts pId at the end
of the PortNumList of the aggregator and sets the AggId of the port to aggId,
every other aggregator, port and field being as before. -/
theorem AddLaAggPortToAgg_idempotent_no_duplicates (sys : LacpSysGlobalInfo) (aggId : Int)
    (pId : Nat) :
    AddLaAggPortToAgg (AddLaAggPortToAgg sys aggId pId) aggId pId
      = AddLaAggPortToAgg sys aggId pId ∧
    (∀ (k : Nat) (a : LaAggregator), sys.aggs[k]? = some a → a.PortNumList.len ≤ a.PortNumList.arr.length →
      a.PortNumList.toList.Nodup →
      ∃ a2, (AddLaAggPortToAgg sys aggId pId).aggs[k]? = some a2 ∧
        a2.PortNumList.toList.Nodup) ∧
    (∀ (ai pi : Nat) (a : LaAggregator) (p : LaAggPort),
      LaFindAggById sys.aggs aggId = some ai → sys.aggs[ai]? = some a →
      LaFindPortById sys.ports pId = some pi → sys.ports[pi]? = some p →
      p.aggSelected = LacpAggUnSelected → pId ∉ a.PortNumList.toList →
      a.PortNumList.len ≤ a.PortNumList.arr.length →
      ∃ l, AddLaAggPortToAgg sys aggId pId =
          { aggs := sys.aggs.set ai { a with PortNumList := l }
            ports := sys.ports.set pi { p with AggId := aggId } } ∧
        l.toList = a.PortNumList.toList ++ [pId]) := by
  refine ⟨?_, ?_, ?_⟩
  · rcases AddLaAggPortToAgg_cases sys aggId pId with h | ⟨ai, pi, a, p, hai, ha, hpi, hp, hsel, hmem⟩
    · rw [h, h]
    · have h1 := AddLaAggPortToAgg_success sys aggId pId ai pi a p hai ha hpi hp hsel hmem
      rw [h1]
      rcases AddLaAggPortToAgg_cases
          { aggs := sys.aggs.set ai { a with PortNumList := a.PortNumList.append pId }
            ports := sys.ports.set pi { p with AggId := aggId } } aggId pId
        with h | ⟨ai2, pi2, a2, p2, hai2, ha2, _, _, _, hmem2⟩
      · exact h
      · exfalso
        have hfind : LaFindAggById
            (sys.aggs.set ai { a with PortNumList := a.PortNumList.append pId }) aggId
            = some ai := by
          unfold LaFindAggById at hai ⊢
          rw [findIdx?_set_of_pred_eq _ _ _ _ _ (by
            intro y hy
            rw [ha] at hy
            cases hy
            rfl)]
          exact hai
        simp only at hai2 ha2
        rw [hfind] at hai2
        cases hai2
        have hlt : ai < sys.aggs.length := (List.getElem?_eq_some.mp ha).1
        rw [List.getElem?_set_self hlt] at ha2
        cases ha2
        exact hmem2 (GoSlice_append_mem a.PortNumList pId)
  · intro k a hka hwf hnd
    rcases AddLaAggPortToAgg_cases sys aggId pId with h | ⟨ai, pi, a0, p, hai, ha, hpi, hp, hsel, hmem⟩
    · rw [h]
      exact ⟨a, hka, hnd⟩
    · rw [AddLaAggPortToAgg_success sys aggId pId ai pi a0 p hai ha hpi hp hsel hmem]
      simp only
      by_cases hk : ai = k
      · subst hk
        rw [ha] at hka
        cases hka
        have hlt : ai < sys.aggs.length := (List.getElem?_eq_some.mp ha).1
        rw [List.getElem?_set_self hlt]
        refine ⟨_, rfl, ?_⟩
        simp only
        rw [(GoSlice_append_toList a.PortNumList pId hwf).1]
        rw [List.nodup_append]
        refine ⟨hnd, List.nodup_singleton _, ?_⟩
        intro x hx1 hx2
        simp only [List.mem_singleton] at hx2
        exact hmem (hx2 ▸ hx1)
      · rw [List.getElem?_set_ne hk]
        exact ⟨a, hka, hnd⟩
  · intro ai pi a p hai ha hpi hp hsel hmem hwf
    exact ⟨a.PortNumList.append pId,
      AddLaAggPortToAgg_success sys aggId pId ai pi a p hai ha hpi hp hsel hmem,
      (GoSlice_append_toList a.PortNumList pId hwf).1⟩

end Lacp

namespace Drcp

/-! ## Distributed relay registry: lemmas -/

/-- The state loop returns when the string has a byte for each iteration. -/
theorem NewDistributedRelayStateLoop_returns (s : List Nat) :
    ∀ (n i j : Nat) (st : Nat × Nat), i + n ≤ s.length →
      ∃ r, NewDistributedRelayStateLoop s n i j st = some r := by
  intro n
  induction n with
  | zero => intro i j st _; exact ⟨st, rfl⟩
  | succ n ih =>
    intro i j st h
    have hi : i < s.length := by omega
    rw [NewDistributedRelayStateLoop, List.getElem?_eq_getElem hi]
    exact ih _ _ _ (by omega)

/-- On a string of eight characters 0 and 1 the state loop leaves in both state
bytes the value of the string read most-significant bit first. -/
theorem NewDistributedRelayStateLoop_bits (s : List Nat) (hlen : s.length = 8)
    (hbits : ∀ b ∈ s, b = 48 ∨ b = 49) :
    NewDistributedRelayStateLoop s 8 0 7 (0, 0) = some (bitStringValue s, bitStringValue s) := by
  match s, hlen with
  | [b0, b1, b2, b3, b4, b5, b6, b7], _ =>
    have h0 := hbits b0 (by simp)
    have h1 := hbits b1 (by simp)
    have h2 := hbits b2 (by simp)
    have h3 := hbits b3 (by simp)
    have h4 := hbits b4 (by simp)
    have h5 := hbits b5 (by simp)
    have h6 := hbits b6 (by simp)
    have h7 := hbits b7 (by simp)
    rcases h0 with rfl | rfl <;> rcases h1 with rfl | rfl <;> rcases h2 with rfl | rfl <;>
      rcases h3 with rfl | rfl <;> rcases h4 with rfl | rfl <;> rcases h5 with rfl | rfl <;>
      rcases h6 with rfl | rfl <;> rcases h7 with rfl | rfl <;> rfl

/-- The copy of the configured port list digest returns when the configured value
has sixteen bytes. -/
theorem NewDistributedRelayPortDigest_returns (cfg : DistrubtedRelayConfig)
    (h : 16 ≤ cfg.DrniNeighborAdminConvPortListDigest.length) :
    ∃ d, NewDistributedRelayPortDigest cfg = some d := by
  have key : ∀ (l : List Nat), (∀ i ∈ l, i < cfg.DrniNeighborAdminConvPortListDigest.length) →
      ∃ d, l.mapM (fun i => cfg.DrniNeighborAdminConvPortListDigest[i]?) = some d := by
    intro l
    induction l with
    | nil => intro _; exact ⟨[], rfl⟩
    | cons a t ih =>
      intro hl
      obtain ⟨d, hd⟩ := ih (fun i hi => hl i (List.mem_cons_of_mem _ hi))
      have ha : a < cfg.DrniNeighborAdminConvPortListDigest.length := hl a (List.mem_cons_self _ _)
      refine ⟨cfg.DrniNeighborAdminConvPortListDigest[a] :: d, ?_⟩
      rw [List.mapM_cons, List.getElem?_eq_getElem ha, hd]
      rfl
  unfold NewDistributedRelayPortDigest
  apply key
  intro i hi
  have := List.mem_range.mp hi
  omega

/-- The parse of a four-part value returns when the split has four parts. -/
theorem NewDistributedRelayParseFour_returns (env : DistributedRelayEnv) (s : String)
    (h : 4 ≤ (env.Split s).length) : ∃ v, NewDistributedRelayParseFour env s = some v := by
  unfold NewDistributedRelayParseFour
  match hs : env.Split s, h with
  | a :: b :: c :: d :: _, _ => exact ⟨_, rfl⟩

/-- With hash values of sixteen bytes, setTimeSharingPortAndGatwewayDigest returns
on a relay whose gateway digests have sixteen bytes, provided the call of
GetAllCVIDConversations returns when the relay uses the C-VID algorithm; it
changes the gateway array and the gateway digests only. -/
theorem setTimeSharingPortAndGatwewayDigest_returns (env : DistributedRelayEnv) (fuel : Nat)
    (m : Nat → ConvIdTypeValue) (dr : DistributedRelayObject)
    (hmd5 : ∀ b, (env.md5 b).length = Md5DigestLength)
    (hconv : dr.DrniGatewayAlgorithm = env.GATEWAY_ALGORITHM_CVID →
      (GetAllCVIDConversations env fuel m).isSome = true)
    (h1 : dr.DrniNeighborAdminConvGatewayListDigest.length = Md5DigestLength)
    (h2 : dr.DRFNeighborAdminConversationGatewayListDigest.length = Md5DigestLength)
    (h3 : dr.DRFHomeConversationGatewayListDigest.length = Md5DigestLength) :
    ∃ gw m2, setTimeSharingPortAndGatwewayDigest env fuel m dr
      = some ({ dr with toDistributedRelayGateway := gw }, m2) := by
  unfold setTimeSharingPortAndGatwewayDigest
  by_cases hc : dr.DrniGatewayAlgorithm = env.GATEWAY_ALGORITHM_CVID
  · rw [if_pos hc]
    obtain ⟨m1, hm1⟩ := Option.isSome_iff_exists.mp (hconv hc)
    rw [hm1]
    by_cases h3p : (!dr.DrniThreeSystemPortal) = true
    · simp only [if_pos h3p]
      obtain ⟨r, hr, _⟩ := setAdminConvGatewayAndNeighborGatewayListDigest_eq env.md5
        m1 dr.toDistributedRelayGateway hmd5 h1 h2 h3
      rw [hr]
      exact ⟨r, _, rfl⟩
    · simp only [if_neg h3p]
      exact ⟨dr.toDistributedRelayGateway, _, rfl⟩
  · rw [if_neg hc]
    exact ⟨dr.toDistributedRelayGateway, _, rfl⟩

/-- With a configuration that is well formed (state string of at least eight
bytes, port list digest of at least sixteen bytes, and at least four parts in
each of the three configured strings that the function splits), hash values of
sixteen bytes and a call of GetAllCVIDConversations that returns when the
configured gateway algorithm is the C-VID algorithm, NewDistributedRelay
returns: the new relay gets the next free pointer, is stored last in the heap,
is assigned to its name in DistributedRelayDB and is appended to
DistributedRelayDBList. -/
theorem NewDistributedRelay_returns (env : DistributedRelayEnv) (fuel : Nat)
    (g : DistributedRelayGlobals) (cfg : DistrubtedRelayConfig)
    (hstate : 8 ≤ cfg.DrniNeighborAdminDRCPState.length)
    (hdig : 16 ≤ cfg.DrniNeighborAdminConvPortListDigest.length)
    (hencap : 4 ≤ (env.Split cfg.DrniEncapMethod).length)
    (hgw : 4 ≤ (env.Split cfg.DrniGatewayAlgorithm).length)
    (hngw : 4 ≤ (env.Split cfg.DrniNeighborAdminGatewayAlgorithm).length)
    (hmd5 : ∀ b, (env.md5 b).length = Md5DigestLength)
    (hconv : NewDistributedRelayParseFour env cfg.DrniGatewayAlgorithm
        = some env.GATEWAY_ALGORITHM_CVID →
      (GetAllCVIDConversations env fuel g.ConversationIdMap).isSome = true) :
    ∃ dr m2 st, NewDistributedRelay env fuel g cfg =
        some ({ heap := g.heap ++ [dr]
                DistributedRelayDB := mapAssign g.DistributedRelayDB cfg.DrniName g.heap.length
                DistributedRelayDBList := g.DistributedRelayDBList.append g.heap.length
                ConversationIdMap := m2 }, g.heap.length) ∧
      dr.DrniName = cfg.DrniName ∧ dr.drEvtResponseChanClosed = false ∧
      NewDistributedRelayStateLoop cfg.DrniNeighborAdminDRCPState 8 0 7 (0, 0) = some st ∧
      dr.DrniNeighborAdminDRCPState = st.1 ∧ dr.DRFNeighborAdminDRCPState = st.2 := by
  obtain ⟨st, hst⟩ := NewDistributedRelayStateLoop_returns cfg.DrniNeighborAdminDRCPState
    8 0 7 (0, 0) (by omega)
  obtain ⟨pd, hpd⟩ := NewDistributedRelayPortDigest_returns cfg hdig
  obtain ⟨v1, hv1⟩ := NewDistributedRelayParseFour_returns env cfg.DrniEncapMethod hencap
  obtain ⟨v2, hv2⟩ := NewDistributedRelayParseFour_returns env cfg.DrniGatewayAlgorithm hgw
  obtain ⟨v3, hv3⟩ := NewDistributedRelayParseFour_returns env
    cfg.DrniNeighborAdminGatewayAlgorithm hngw
  unfold NewDistributedRelay
  rw [hst, hpd, hv1, hv2, hv3]
  simp only
  obtain ⟨gw, m2, hts⟩ := setTimeSharingPortAndGatwewayDigest_returns env fuel g.ConversationIdMap
    { DrniConvAdminGateway := cfg.DrniConvAdminGateway
      DrniNeighborAdminConvGatewayListDigest := List.replicate Md5DigestLength 0
      DRFNeighborAdminConversationGatewayListDigest := List.replicate Md5DigestLength 0
      DRFHomeConversationGatewayListDigest := List.replicate Md5DigestLength 0
      DrniId := cfg.DrniPortalSystemNumber
      DrniName := cfg.DrniName
      DrniPortalAddr := env.ParseMAC cfg.DrniPortalAddress
      DrniPortalPriority := cfg.DrniPortalPriority
      DrniThreeSystemPortal := cfg.DrniThreePortalSystem
      DrniPortalSystemNumber := cfg.DrniPortalSystemNumber
      DrniIntraPortalLinkList := cfg.DrniIntraPortalLinkList
      DrniAggregator := toInt32 cfg.DrniAggregator
      DrniNeighborAdminConvPortListDigest := pd
      DrniGatewayAlgorithm := v2
      DrniNeighborAdminGatewayAlgorithm := v3
      DRFNeighborAdminGatewayAlgorithm := v3
      DrniNeighborAdminDRCPState := st.1
      DRFNeighborAdminDRCPState := st.2
      DrniEncapMethod := v1
      DrniIPLEncapMap := cfg.DrniIPLEncapMap
      DrniNetEncapMap := cfg.DrniNetEncapMap
      DrniPortConversationControl := cfg.DrniPortConversationControl
      DrniPortalPortProtocolIDA := env.ParseMAC cfg.DrniIntraPortalPortProtocolDA
      GatewayVectorDatabase := []
      Ipplinks := []
      drEvtResponseChanClosed := false }
    hmd5 (fun h => hconv (by rw [hv2]; exact congrArg some h)) (by simp) (by simp) (by simp)
  rw [hts]
  exact ⟨_, m2, st, rfl, rfl, rfl, rfl, rfl, rfl⟩

end Drcp

namespace Drcp

/-- The loop of DeleteDistributedRelay is the loop of DeleteLaAggPortFromAgg of
the LACP configuration, on pointers instead of port numbers. -/
theorem DeleteDistributedRelayLoop_eq (dr : Nat) :
    ∀ (n i : Nat) (s : Lacp.GoSlice Nat),
      DeleteDistributedRelayLoop dr n i s = Lacp.DeleteLaAggPortFromAggLoop dr n i s := by
  intro n
  induction n with
  | zero => intro i s; rfl
  | succ n ih =>
    intro i s
    rw [DeleteDistributedRelayLoop, Lacp.DeleteLaAggPortFromAggLoop]
    cases s.arr[i]? with
    | none => rfl
    | some x =>
      simp only
      by_cases hx : (x == dr) = true
      · simp only [hx, if_true]
        cases s.removeAt i with
        | none => rfl
        | some s2 => exact ih _ _
      · simp only [hx, if_false]
        exact ih _ _

theorem mapLookup_eq_none (m : List (String × Nat)) (k : String) :
    mapLookup m k = none ↔ ∀ e ∈ m, e.1 ≠ k := by
  unfold mapLookup
  rw [Option.map_eq_none', List.find?_eq_none]
  constructor
  · intro h e he heq
    have := h e he
    simp [heq] at this
  · intro h e he
    simpa using h e he

/-- Assigning a new key and deleting it again gives the map back. -/
theorem mapDelete_mapAssign (m : List (String × Nat)) (k : String) (v : Nat)
    (h : mapLookup m k = none) :
    mapLookup (mapAssign m k v) k = some v ∧ mapDelete (mapAssign m k v) k = m := by
  have hall := (mapLookup_eq_none m k).mp h
  have hassign : mapAssign m k v = m ++ [(k, v)] := by
    unfold mapAssign
    rw [h]
    rfl
  rw [hassign]
  constructor
  · unfold mapLookup
    rw [List.find?_append]
    have : m.find? (fun e => e.1 == k) = none := by
      rw [List.find?_eq_none]
      intro e he
      simpa using hall e he
    rw [this]
    simp
  · unfold mapDelete
    rw [List.filter_append]
    have : m.filter (fun e => !(e.1 == k)) = m := by
      rw [List.filter_eq_self]
      intro e he
      simpa using hall e he
    rw [this]
    simp

/-! ## Distributed relay registry: the claims C31 to C33 -/

/-- C31 (what the code does with a registered name): NewDistributedRelay holds no
check of the name. Creating the relay dr1 and then creating a relay from the same
configuration again returns both times; after the second call DistributedRelayDB
maps dr1 to the second object instead of the first and DistributedRelayDBList
holds both objects, so neither variable is what it was before the call. -/
theorem NewDistributedRelay_duplicate_name_registers_again :
    (NewDistributedRelay exampleEnv 1 emptyGlobals (exampleRelayConfig "dr1")).map
        (fun x => (x.1.DistributedRelayDB, x.1.DistributedRelayDBList.toList, x.2))
      = some ([("dr1", 0)], [0], 0) ∧
    ((NewDistributedRelay exampleEnv 1 emptyGlobals (exampleRelayConfig "dr1")).bind
        (fun x => NewDistributedRelay exampleEnv 1 x.1 (exampleRelayConfig "dr1"))).map
        (fun x => (x.1.DistributedRelayDB, x.1.DistributedRelayDBList.toList, x.2))
      = some ([("dr1", 1)], [0, 1], 1) ∧
    mapLookup [("dr1", 0)] (exampleRelayConfig "dr1").DrniName = some 0 ∧
    ([("dr1", 1)] : List (String × Nat)) ≠ [("dr1", 0)] ∧
    ([0, 1] : List Nat) ≠ [0] := by
  have hret : ∀ g : DistributedRelayGlobals,
      ∃ dr m2, NewDistributedRelay exampleEnv 1 g (exampleRelayConfig "dr1") =
        some ({ heap := g.heap ++ [dr]
                DistributedRelayDB := mapAssign g.DistributedRelayDB "dr1" g.heap.length
                DistributedRelayDBList := g.DistributedRelayDBList.append g.heap.length
                ConversationIdMap := m2 }, g.heap.length) := by
    intro g
    obtain ⟨dr, m2, _, h, _⟩ := NewDistributedRelay_returns exampleEnv 1 g
      (exampleRelayConfig "dr1") (by decide) (by decide) (by decide) (by decide) (by decide)
      (fun _ => rfl) (fun _ => rfl)
    exact ⟨dr, m2, h⟩
  obtain ⟨dr1, m1, h1⟩ := hret emptyGlobals
  obtain ⟨dr2, m2, h2⟩ := hret
    { heap := emptyGlobals.heap ++ [dr1]
      DistributedRelayDB := mapAssign emptyGlobals.DistributedRelayDB "dr1" emptyGlobals.heap.length
      DistributedRelayDBList := emptyGlobals.DistributedRelayDBList.append emptyGlobals.heap.length
      ConversationIdMap := m1 }
  refine ⟨?_, ?_, by decide, by decide, by decide⟩
  · rw [h1]
    rfl
  · rw [h1, Option.bind, h2]
    rfl

/-- C32. For a configuration whose DrniName is not a key of DistributedRelayDB
(and that is well formed: a state string of at least eight bytes, a port list
digest of at least sixteen bytes, at least four parts in each of the three
configured strings that are split, hash values of sixteen bytes, a call of
GetAllCVIDConversations that returns when the configured gateway algorithm is
the C-VID algorithm, and every pointer of DistributedRelayDBList referring to an
allocated relay), NewDistributedRelay returns and DeleteDistributedRelay on the
returned relay returns as well; afterwards DistributedRelayDB is what it was
before the creation and DistributedRelayDBList holds the relays it held before,
in their order. -/
theorem NewDistributedRelay_DeleteDistributedRelay (env : DistributedRelayEnv) (fuel : Nat)
    (g : DistributedRelayGlobals) (cfg : DistrubtedRelayConfig)
    (hname : mapLookup g.DistributedRelayDB cfg.DrniName = none)
    (hheap : ∀ p ∈ g.DistributedRelayDBList.toList, p < g.heap.length)
    (hwf : g.DistributedRelayDBList.len ≤ g.DistributedRelayDBList.arr.length)
    (hstate : 8 ≤ cfg.DrniNeighborAdminDRCPState.length)
    (hdig : 16 ≤ cfg.DrniNeighborAdminConvPortListDigest.length)
    (hencap : 4 ≤ (env.Split cfg.DrniEncapMethod).length)
    (hgw : 4 ≤ (env.Split cfg.DrniGatewayAlgorithm).length)
    (hngw : 4 ≤ (env.Split cfg.DrniNeighborAdminGatewayAlgorithm).length)
    (hmd5 : ∀ b, (env.md5 b).length = Md5DigestLength)
    (hconv : NewDistributedRelayParseFour env cfg.DrniGatewayAlgorithm
        = some env.GATEWAY_ALGORITHM_CVID →
      (GetAllCVIDConversations env fuel g.ConversationIdMap).isSome = true) :
    ∃ g1 dr g2, NewDistributedRelay env fuel g cfg = some (g1, dr) ∧
      mapLookup g1.DistributedRelayDB cfg.DrniName = some dr ∧
      g1.DistributedRelayDBList.toList = g.DistributedRelayDBList.toList ++ [dr] ∧
      DeleteDistributedRelay g1 dr = some g2 ∧
      g2.DistributedRelayDB = g.DistributedRelayDB ∧
      g2.DistributedRelayDBList.toList = g.DistributedRelayDBList.toList := by
  obtain ⟨r, m2, st, hnew, hrname, hclosed, _⟩ :=
    NewDistributedRelay_returns env fuel g cfg hstate hdig hencap hgw hngw hmd5 hconv
  obtain ⟨hlook, hdel⟩ := mapDelete_mapAssign g.DistributedRelayDB cfg.DrniName g.heap.length hname
  obtain ⟨happ, happwf⟩ := Lacp.GoSlice_append_toList g.DistributedRelayDBList g.heap.length hwf
  have hfresh : g.heap.length ∉ g.DistributedRelayDBList.toList := by
    intro h
    exact Nat.lt_irrefl _ (hheap _ h)
  -- the loop of the deletion finds the new relay in the last place
  have hlen : (g.DistributedRelayDBList.append g.heap.length).len
      = g.DistributedRelayDBList.toList.length + 1 + ([] : List Nat).length := by
    rw [← Lacp.GoSlice_toList_length _ happwf, happ]
    simp
  have hs : g.DistributedRelayDBList.append g.heap.length =
      { arr := g.DistributedRelayDBList.toList ++ g.heap.length :: [] ++
          (g.DistributedRelayDBList.append g.heap.length).arr.drop
            (g.DistributedRelayDBList.append g.heap.length).len,
        len := (g.DistributedRelayDBList.append g.heap.length).len } := by
    have h1 := Lacp.GoSlice_arr_eq (g.DistributedRelayDBList.append g.heap.length)
    rw [happ] at h1
    cases hq : g.DistributedRelayDBList.append g.heap.length with
    | mk arr len =>
      rw [hq] at h1
      simp only at h1
      simp only [Lacp.GoSlice.mk.injEq, and_true]
      simpa [List.append_assoc] using h1
  obtain ⟨s2, hloop, hto, _⟩ := Lacp.DeleteLaAggPortFromAggLoop_removes g.heap.length
    g.DistributedRelayDBList.toList [] _ _ hlen hfresh (by simp)
  rw [← hs, ← DeleteDistributedRelayLoop_eq] at hloop
  have hget : (g.heap ++ [r])[g.heap.length]? = some r := by
    rw [List.getElem?_append_right (Nat.le_refl _)]
    simp
  refine ⟨_, _, ?_, hnew, hlook, happ, ?_, ?_, ?_⟩
  · exact { heap := (g.heap ++ [r]).set g.heap.length { r with drEvtResponseChanClosed := true }
            DistributedRelayDB := mapDelete
              (mapAssign g.DistributedRelayDB cfg.DrniName g.heap.length) r.DrniName
            DistributedRelayDBList := s2
            ConversationIdMap := m2 }
  · unfold DeleteDistributedRelay
    simp only [hget, hclosed, hrname, hlook, hloop]
    rfl
  · simp only [hrname, hdel]
  · simp only [hto, List.append_nil]

/-- C32, at a concrete input: the relay dr2 is created and deleted while the
relay dr1 is registered. The three configured strings are 00:80:C2:01, which
splits into four parts and is the C-VID algorithm, and the hardware plugin
answers at once. -/
theorem NewDistributedRelay_DeleteDistributedRelay_witness :
    mapLookup oneRelayGlobals.DistributedRelayDB (exampleRelayConfig "dr2").DrniName = none ∧
    oneRelayGlobals.DistributedRelayDB = [("dr1", 0)] ∧
    oneRelayGlobals.DistributedRelayDBList.toList = [0] ∧
    exampleEnv.Split (exampleRelayConfig "dr2").DrniGatewayAlgorithm = ["00", "80", "C2", "01"] ∧
    NewDistributedRelayParseFour exampleEnv (exampleRelayConfig "dr2").DrniGatewayAlgorithm
      = some exampleEnv.GATEWAY_ALGORITHM_CVID ∧
    ∃ g1 dr g2, NewDistributedRelay exampleEnv 1 oneRelayGlobals (exampleRelayConfig "dr2")
        = some (g1, dr) ∧
      mapLookup g1.DistributedRelayDB (exampleRelayConfig "dr2").DrniName = some dr ∧
      g1.DistributedRelayDBList.toList = oneRelayGlobals.DistributedRelayDBList.toList ++ [dr] ∧
      DeleteDistributedRelay g1 dr = some g2 ∧
      g2.DistributedRelayDB = oneRelayGlobals.DistributedRelayDB ∧
      g2.DistributedRelayDBList.toList = oneRelayGlobals.DistributedRelayDBList.toList :=
  ⟨by decide, rfl, by decide, by decide, by decide,
    NewDistributedRelay_DeleteDistributedRelay exampleEnv 1 oneRelayGlobals
      (exampleRelayConfig "dr2") (by decide) (by decide) (by decide) (by decide) (by decide)
      (by decide) (by decide) (by decide) (fun _ => rfl) (fun _ => rfl)⟩

/-- C33. For a configuration whose DrniNeighborAdminDRCPState is a string of eight
characters 0 and 1 (and that is well formed otherwise: a port list digest of at
least sixteen bytes, at least four parts in each of the three configured strings
that are split, hash values of sixteen bytes, and a call of
GetAllCVIDConversations that returns when the configured gateway algorithm is
the C-VID algorithm), NewDistributedRelay returns and the new relay has both
DrniNeighborAdminDRCPState and DRFNeighborAdminDRCPState equal to the sum of
b_i * 2^(7-i), the string read most-significant bit first. -/
theorem NewDistributedRelay_neighbor_admin_state (env : DistributedRelayEnv) (fuel : Nat)
    (g : DistributedRelayGlobals) (cfg : DistrubtedRelayConfig)
    (hlen : cfg.DrniNeighborAdminDRCPState.length = 8)
    (hbits : ∀ b ∈ cfg.DrniNeighborAdminDRCPState, b = 48 ∨ b = 49)
    (hdig : 16 ≤ cfg.DrniNeighborAdminConvPortListDigest.length)
    (hencap : 4 ≤ (env.Split cfg.DrniEncapMethod).length)
    (hgw : 4 ≤ (env.Split cfg.DrniGatewayAlgorithm).length)
    (hngw : 4 ≤ (env.Split cfg.DrniNeighborAdminGatewayAlgorithm).length)
    (hmd5 : ∀ b, (env.md5 b).length = Md5DigestLength)
    (hconv : NewDistributedRelayParseFour env cfg.DrniGatewayAlgorithm
        = some env.GATEWAY_ALGORITHM_CVID →
      (GetAllCVIDConversations env fuel g.ConversationIdMap).isSome = true) :
    ∃ g1 ptr dr, NewDistributedRelay env fuel g cfg = some (g1, ptr) ∧ g1.heap[ptr]? = some dr ∧
      dr.DrniNeighborAdminDRCPState = bitStringValue cfg.DrniNeighborAdminDRCPState ∧
      dr.DRFNeighborAdminDRCPState = bitStringValue cfg.DrniNeighborAdminDRCPState := by
  obtain ⟨r, m2, st, hnew, _, _, hst, h1, h2⟩ :=
    NewDistributedRelay_returns env fuel g cfg (by omega) hdig hencap hgw hngw hmd5 hconv
  rw [NewDistributedRelayStateLoop_bits _ hlen hbits] at hst
  cases hst
  refine ⟨_, _, r, hnew, ?_, h1, h2⟩
  simp only
  rw [List.getElem?_append_right (Nat.le_refl _)]
  simp

/-- C33, at a concrete input: the state string 10000001 gives the byte 129. -/
theorem NewDistributedRelay_neighbor_admin_state_witness :
    (exampleRelayConfig "dr1").DrniNeighborAdminDRCPState = [49, 48, 48, 48, 48, 48, 48, 49] ∧
    bitStringValue (exampleRelayConfig "dr1").DrniNeighborAdminDRCPState = 129 ∧
    exampleEnv.Split (exampleRelayConfig "dr1").DrniEncapMethod = ["00", "80", "C2", "01"] ∧
    ∃ g1 ptr dr, NewDistributedRelay exampleEnv 1 emptyGlobals (exampleRelayConfig "dr1")
        = some (g1, ptr) ∧ g1.heap[ptr]? = some dr ∧
      dr.DrniNeighborAdminDRCPState
        = bitStringValue (exampleRelayConfig "dr1").DrniNeighborAdminDRCPState ∧
      dr.DRFNeighborAdminDRCPState
        = bitStringValue (exampleRelayConfig "dr1").DrniNeighborAdminDRCPState :=
  ⟨rfl, by decide, by decide,
    NewDistributedRelay_neighbor_admin_state exampleEnv 1 emptyGlobals (exampleRelayConfig "dr1")
      (by decide) (by decide) (by decide) (by decide) (by decide) (by decide)
      (fun _ => rfl) (fun _ => rfl)⟩

end Drcp
